import Mathlib

/-!
# nats-jwt-operator: key and credential reconciliation

A shallow embedding of the reconcilers of `controllers/` and of the claim
mappings of `api/v1alpha1/`.

Conventions of the embedding
* Go `string` and `[]byte` are both `String`; reading a missing map key gives `""`.
* A Go slice is `Option (List α)` and a Go map is `Option (List (String × V))`:
  `none` is the nil value, which `reflect.DeepEqual` tells apart from an empty one.
* A Go `error` is its message; `(T, error)` results are `Except GoError T`.
* The libraries `nkeys` and `jwt/v2` are not part of the repository.  Their
  cryptographic and serialisation primitives are the fields of `NatsLib`; the
  checks that `jwt/v2` runs around them are written out in `Encode`.
* Calls to the API server made by a reconciler are recorded in a log of writes;
  the answers of the API server are inputs.
-/

namespace NatsJwtOperator

/-! ## Go values -/

/-- Go `error`, by message. -/
abbrev GoError := String

/-- Go slice: `none` is the nil slice. -/
abbrev GoSlice (α : Type) := Option (List α)

/-- Go map with string keys: `none` is the nil map, the first binding of a key counts. -/
abbrev GoMap (V : Type) := Option (List (String × V))

/-- Value bound to `k` in an association list. -/
def assocGet {V : Type} (m : List (String × V)) (k : String) : Option V :=
  (m.find? (fun p => p.1 == k)).map (fun p => p.2)

/-- Association list with `k` bound to `v` (an existing binding is replaced in place). -/
def assocSet {V : Type} : List (String × V) → String → V → List (String × V)
  | [], k, v => [(k, v)]
  | (k', v') :: m, k, v => if k' == k then (k, v) :: m else (k', v') :: assocSet m k v

/-- Go `m[k]` on a `map[string][]byte`: the zero value when `m` is nil or has no `k`. -/
def GoMap.index (m : GoMap String) (k : String) : String :=
  match m with
  | none => ""
  | some l => (assocGet l k).getD ""

/-- The function `reflect.DeepEqual` on two maps: both nil, or both non-nil with the same bindings. -/
def GoMap.deepEqual {V : Type} (eqv : V → V → Bool) : GoMap V → GoMap V → Bool
  | none, none => true
  | some a, some b =>
    let sub := fun (x y : List (String × V)) =>
      x.all (fun p => match assocGet x p.1, assocGet y p.1 with
        | some u, some w => eqv u w
        | _, _ => false)
    sub a b && sub b a
  | _, _ => false

/-- The function `reflect.DeepEqual` on two slices: both nil, or both non-nil and equal element by element. -/
def GoSlice.deepEqual {α : Type} (eqa : α → α → Bool) : GoSlice α → GoSlice α → Bool
  | none, none => true
  | some a, some b => a.length == b.length && (a.zip b).all (fun p => eqa p.1 p.2)
  | _, _ => false

/-- A slice after a round trip through `encoding/json` under `omitempty`: the empty slice is
left out by the encoder and reads back as the nil slice. -/
def omitEmpty {α : Type} : GoSlice α → GoSlice α
  | some [] => none
  | s => s

/-! ## nkeys -/

/-- Prefix kinds of `nkeys` key pairs. -/
inductive KeyKind where
  | operator
  | server
  | cluster
  | account
  | user
deriving DecidableEq, Repr

/-- Go `PrefixByte.String`: the name `%v` prints for a prefix kind. -/
def KeyKind.toString : KeyKind → String
  | .operator => "operator"
  | .server => "server"
  | .cluster => "cluster"
  | .account => "account"
  | .user => "user"

/-- Go `%v` of a slice of prefix bytes: the names between brackets. -/
def fmtPrefixes (prefixes : List KeyKind) : String :=
  "[" ++ " ".intercalate (prefixes.map KeyKind.toString) ++ "]"

/-- The `nkeys.KeyPair` built from a seed: it holds the seed. -/
structure KeyPair where
  seed : String
deriving DecidableEq, Repr

/-- Bundle field names (`natsoperator_controller.go`, constants). -/
def JWT_OPERATOR_FINALIZER : String := "nats.deinstapel.de/jwt-operator"
def OPERATOR_SEED_KEY : String := "seed.nk"
def OPERATOR_PUBLIC_KEY : String := "key.pub"
def OPERATOR_JWT : String := "key.jwt"

/-! ## jwt/v2 claim shapes -/

namespace jwt

/-- Go `jwt.GenericFields`, embedded in every claims body. -/
structure GenericFields where
  Tags : GoSlice String := none
  ClaimType : String := ""
  Version : Int := 0
deriving DecidableEq, Repr

/-- Go `jwt.ClaimsData`, the envelope of every credential. -/
structure ClaimsData where
  Audience : String := ""
  Expires : Int := 0
  ID : String := ""
  IssuedAt : Int := 0
  Issuer : String := ""
  Name : String := ""
  NotBefore : Int := 0
  Subject : String := ""
deriving DecidableEq, Repr

structure ResponsePermission where
  MaxMsgs : Int := 0
  Expires : Int := 0
deriving DecidableEq, Repr

structure Permission where
  Allow : GoSlice String := none
  Deny : GoSlice String := none
deriving DecidableEq, Repr

structure Permissions where
  Pub : Permission := {}
  Sub : Permission := {}
  Resp : Option ResponsePermission := none
deriving DecidableEq, Repr

structure TimeRange where
  Start : String := ""
  End : String := ""
deriving DecidableEq, Repr

structure UserLimits where
  Src : GoSlice String := none
  Times : GoSlice TimeRange := none
  Locale : String := ""
deriving DecidableEq, Repr

structure NatsLimits where
  Subs : Int := 0
  Data : Int := 0
  Payload : Int := 0
deriving DecidableEq, Repr

structure Limits where
  UserLimits : UserLimits := {}
  NatsLimits : NatsLimits := {}
deriving DecidableEq, Repr

structure UserPermissionLimits where
  Permissions : Permissions := {}
  Limits : Limits := {}
  BearerToken : Bool := false
  AllowedConnectionTypes : GoSlice String := none
deriving DecidableEq, Repr

/-- Go `jwt.User`, the claims body of a user credential. -/
structure User where
  UserPermissionLimits : UserPermissionLimits := {}
  IssuerAccount : String := ""
  GenericFields : GenericFields := {}
deriving DecidableEq, Repr

/-- Go `jwt.UserClaims`. -/
structure UserClaims where
  ClaimsData : ClaimsData := {}
  User : User := {}
deriving DecidableEq, Repr

structure Info where
  Description : String := ""
  InfoURL : String := ""
deriving DecidableEq, Repr

structure ServiceLatency where
  Sampling : Int := 0
  Results : String := ""
deriving DecidableEq, Repr

/-- Go `jwt.Import`; the program only passes it through. -/
structure Import where
  Name : String := ""
  Subject : String := ""
  Account : String := ""
  Token : String := ""
  To : String := ""
  LocalSubject : String := ""
  ImportType : Int := 0
  Share : Bool := false
deriving DecidableEq, Repr

/-- Go `jwt.Export`. -/
structure Export where
  Name : String := ""
  Subject : String := ""
  ExportType : Int := 0
  TokenReq : Bool := false
  Revocations : GoMap Int := none
  ResponseType : String := ""
  ResponseThreshold : Int := 0
  Latency : Option ServiceLatency := none
  AccountTokenPosition : Nat := 0
  Advertise : Bool := false
  Info : Info := {}
deriving DecidableEq, Repr

structure AccountLimits where
  Imports : Int := 0
  Exports : Int := 0
  WildcardExports : Bool := false
  DisallowBearer : Bool := false
  Conn : Int := 0
  LeafNodeConn : Int := 0
deriving DecidableEq, Repr

structure JetStreamLimits where
  MemoryStorage : Int := 0
  DiskStorage : Int := 0
  Streams : Int := 0
  Consumer : Int := 0
  MaxAckPending : Int := 0
  MemoryMaxStreamBytes : Int := 0
  DiskMaxStreamBytes : Int := 0
  MaxBytesRequired : Bool := false
deriving DecidableEq, Repr

structure OperatorLimits where
  NatsLimits : NatsLimits := {}
  AccountLimits : AccountLimits := {}
  JetStreamLimits : JetStreamLimits := {}
  JetStreamTieredLimits : GoMap jwt.JetStreamLimits := none
deriving DecidableEq, Repr

structure WeightedMapping where
  Subject : String := ""
  Weight : Nat := 0
  Cluster : String := ""
deriving DecidableEq, Repr

/-- Go `jwt.Account`, the claims body of an account credential.  `SigningKeys` maps a
key to its scope, of which only presence is kept. -/
structure Account where
  Imports : GoSlice Import := none
  Exports : GoSlice Export := none
  Limits : OperatorLimits := {}
  SigningKeys : GoMap Unit := none
  Revocations : GoMap Int := none
  DefaultPermissions : Permissions := {}
  Mappings : GoMap (GoSlice WeightedMapping) := none
  Info : Info := {}
  GenericFields : GenericFields := {}
deriving DecidableEq, Repr

/-- Go `jwt.AccountClaims`. -/
structure AccountClaims where
  ClaimsData : ClaimsData := {}
  Account : Account := {}
deriving DecidableEq, Repr

/-- Go `jwt.Operator`, the claims body of an operator credential. -/
structure Operator where
  SigningKeys : GoSlice String := none
  AccountServerURL : String := ""
  OperatorServiceURLs : GoSlice String := none
  SystemAccount : String := ""
  AssertServerVersion : String := ""
  StrictSigningKeyUsage : Bool := false
  GenericFields : GenericFields := {}
deriving DecidableEq, Repr

/-- Go `jwt.OperatorClaims`. -/
structure OperatorClaims where
  ClaimsData : ClaimsData := {}
  Operator : Operator := {}
deriving DecidableEq, Repr

/-- The function `reflect.DeepEqual` on `jwt.Export`. -/
def Export.deepEqual (a b : Export) : Bool :=
  a.Name == b.Name && a.Subject == b.Subject && a.ExportType == b.ExportType
    && a.TokenReq == b.TokenReq
    && GoMap.deepEqual (fun x y => x == y) a.Revocations b.Revocations
    && a.ResponseType == b.ResponseType && a.ResponseThreshold == b.ResponseThreshold
    && a.Latency == b.Latency && a.AccountTokenPosition == b.AccountTokenPosition
    && a.Advertise == b.Advertise && a.Info == b.Info

/-- The function `reflect.DeepEqual` on `jwt.OperatorLimits`. -/
def OperatorLimits.deepEqual (a b : OperatorLimits) : Bool :=
  a.NatsLimits == b.NatsLimits && a.AccountLimits == b.AccountLimits
    && a.JetStreamLimits == b.JetStreamLimits
    && GoMap.deepEqual (fun x y => x == y) a.JetStreamTieredLimits b.JetStreamTieredLimits

/-- The function `reflect.DeepEqual` on `jwt.Account`. -/
def Account.deepEqual (a b : Account) : Bool :=
  GoSlice.deepEqual (fun x y => x == y) a.Imports b.Imports
    && GoSlice.deepEqual Export.deepEqual a.Exports b.Exports
    && OperatorLimits.deepEqual a.Limits b.Limits
    && GoMap.deepEqual (fun _ _ => true) a.SigningKeys b.SigningKeys
    && GoMap.deepEqual (fun x y => x == y) a.Revocations b.Revocations
    && a.DefaultPermissions == b.DefaultPermissions
    && GoMap.deepEqual (GoSlice.deepEqual (fun x y => x == y)) a.Mappings b.Mappings
    && a.Info == b.Info && a.GenericFields == b.GenericFields

end jwt

/-! ## The libraries `nkeys` and `jwt/v2` -/

/-- Primitives of `nkeys` and `jwt/v2` the reconcilers depend on. -/
structure NatsLib where
  /-- Prefix kind found by `nkeys.DecodeSeed`, or its error. -/
  decodeSeed : String → Except GoError KeyKind
  /-- Public key string of the key pair of a seed. -/
  publicKey : String → String
  /-- Prefix kind of a well-formed public key string (`nkeys.IsValidPublic*Key`). -/
  publicKind : String → Option KeyKind
  /-- Seed made by `nkeys.CreatePair` from the bytes read from the random source. -/
  createPair : KeyKind → Nat → Except GoError String
  /-- Value of `ClaimsData.hash`. -/
  hash : jwt.ClaimsData → String
  /-- Serialise account claims (sorted imports and exports) and sign them with a seed. -/
  signAccount : jwt.AccountClaims → String → String
  /-- Parse and verify an account credential (`jwt.DecodeAccountClaims`). -/
  parseAccount : String → Except GoError jwt.AccountClaims
  /-- Serialise user claims and sign them with a seed. -/
  signUser : jwt.UserClaims → String → String
  /-- Parse and verify a user credential (`jwt.DecodeUserClaims`). -/
  parseUser : String → Except GoError jwt.UserClaims
  /-- Serialise operator claims and sign them with a seed. -/
  signOperator : jwt.OperatorClaims → String → String
  /-- Parse and verify an operator credential (`jwt.DecodeOperatorClaims`). -/
  parseOperator : String → Except GoError jwt.OperatorClaims
  /-- Order in which `sort.Sort` leaves the elements of a `jwt.Imports` slice (its `Less`
  compares the subjects). -/
  sortImports : List jwt.Import → List jwt.Import

namespace nkeys

/-- Go `nkeys.FromSeed`: the key pair of a seed that decodes. -/
def FromSeed (L : NatsLib) (seed : String) : Except GoError KeyPair :=
  match L.decodeSeed seed with
  | .ok _ => .ok { seed := seed }
  | .error err => .error err

/-- Go `nkeys.CreatePair` on the random bytes `rnd`. -/
def CreatePair (L : NatsLib) (kind : KeyKind) (rnd : Nat) : Except GoError KeyPair :=
  match L.createPair kind rnd with
  | .ok seed => .ok { seed := seed }
  | .error err => .error err

/-- Go `nkeys.CreateOperator`. -/
def CreateOperator (L : NatsLib) (rnd : Nat) : Except GoError KeyPair :=
  CreatePair L KeyKind.operator rnd

/-- Go `nkeys.CreateAccount`. -/
def CreateAccount (L : NatsLib) (rnd : Nat) : Except GoError KeyPair :=
  CreatePair L KeyKind.account rnd

/-- Go `nkeys.CreateUser`. -/
def CreateUser (L : NatsLib) (rnd : Nat) : Except GoError KeyPair :=
  CreatePair L KeyKind.user rnd

end nkeys

/-- Go `KeyPair.Seed`. -/
def KeyPair.Seed (keys : KeyPair) : String := keys.seed

/-- Go `KeyPair.PublicKey`. -/
def KeyPair.PublicKey (L : NatsLib) (keys : KeyPair) : String := L.publicKey keys.seed

namespace jwt

/-- Version written by `updateVersion`. -/
def libVersion : Int := 2

/-- Go `ClaimsData.doEncode` up to serialisation: the issuer must be of an expected kind;
issuer, issue time and hash are then recorded. -/
def doEncode (L : NatsLib) (expected : List KeyKind) (c : ClaimsData) (pair : KeyPair) (now : Int) :
    Except GoError ClaimsData :=
  if c.Subject == "" then .error "subject is not set"
  else
    let issuer := pair.PublicKey L
    match L.publicKind issuer with
    | none => .error ("unable to validate expected prefixes - " ++ fmtPrefixes expected)
    | some k =>
      if expected.contains k then
        let c1 := { c with Issuer := issuer, IssuedAt := now, ID := "" }
        .ok { c1 with ID := L.hash c1 }
      else .error ("unable to validate expected prefixes - " ++ fmtPrefixes expected)

/-- Go `jwt.NewAccountClaims` for a non-empty subject (`none` is the nil result). -/
def NewAccountClaims (subject : String) : Option AccountClaims :=
  if subject == "" then none
  else some {
    ClaimsData := { Subject := subject }
    Account := {
      SigningKeys := some []
      Limits := {
        NatsLimits := { Subs := -1, Data := -1, Payload := -1 }
        AccountLimits := { Imports := -1, Exports := -1, WildcardExports := true,
                           DisallowBearer := false, Conn := -1, LeafNodeConn := -1 }
        JetStreamLimits := {}
        JetStreamTieredLimits := some [] }
      Mappings := some [] } }

/-- Go `jwt.NewUserClaims` for a non-empty subject (`none` is the nil result). -/
def NewUserClaims (subject : String) : Option UserClaims :=
  if subject == "" then none
  else some {
    ClaimsData := { Subject := subject }
    User := { UserPermissionLimits := { Limits := {
      UserLimits := {}
      NatsLimits := { Subs := -1, Data := -1, Payload := -1 } } } } }

/-- Go `jwt.NewOperatorClaims` for a non-empty subject (`none` is the nil result). -/
def NewOperatorClaims (subject : String) : Option OperatorClaims :=
  if subject == "" then none
  else some { ClaimsData := { Subject := subject, Issuer := subject } }

/-- Go `AccountClaims.Encode`: the subject must be an account key, the issuer an operator or
account key; the claim type and version are stamped into the body. -/
def AccountClaims.Encode (L : NatsLib) (a : AccountClaims) (pair : KeyPair) (now : Int) :
    Except GoError String :=
  if L.publicKind a.ClaimsData.Subject != some KeyKind.account then
    .error "expected subject to be account public key"
  else
    match doEncode L [KeyKind.account, KeyKind.operator] a.ClaimsData pair now with
    | .error err => .error err
    | .ok c =>
      .ok (L.signAccount
        { ClaimsData := c
          Account := { a.Account with
            GenericFields := { a.Account.GenericFields with
              ClaimType := "account", Version := libVersion } } } pair.seed)

/-- The slice `a.Imports` as Go `AccountClaims.Encode` leaves it: once the subject has passed
the check, `sort.Sort(a.Imports)` reorders the slice in place, before the signing that may
still fail. -/
def AccountClaims.importsAfterEncode (L : NatsLib) (a : AccountClaims) : GoSlice Import :=
  if L.publicKind a.ClaimsData.Subject != some KeyKind.account then a.Account.Imports
  else a.Account.Imports.map L.sortImports

/-- Go `UserClaims.Encode`: the subject must be a user key, the issuer an account key. -/
def UserClaims.Encode (L : NatsLib) (u : UserClaims) (pair : KeyPair) (now : Int) :
    Except GoError String :=
  if L.publicKind u.ClaimsData.Subject != some KeyKind.user then
    .error "expected subject to be user public key"
  else
    match doEncode L [KeyKind.account] u.ClaimsData pair now with
    | .error err => .error err
    | .ok c =>
      .ok (L.signUser
        { ClaimsData := c
          User := { u.User with
            GenericFields := { u.User.GenericFields with
              ClaimType := "user", Version := libVersion } } } pair.seed)

/-- Go `OperatorClaims.Encode`: subject and issuer must be operator keys (the account server
URL, which the program never sets, is not checked here). -/
def OperatorClaims.Encode (L : NatsLib) (oc : OperatorClaims) (pair : KeyPair) (now : Int) :
    Except GoError String :=
  if L.publicKind oc.ClaimsData.Subject != some KeyKind.operator then
    .error "expected subject to be an operator public key"
  else
    match doEncode L [KeyKind.operator] oc.ClaimsData pair now with
    | .error err => .error err
    | .ok c =>
      .ok (L.signOperator
        { ClaimsData := c
          Operator := { oc.Operator with
            GenericFields := { oc.Operator.GenericFields with
              ClaimType := "operator", Version := libVersion } } } pair.seed)

/-- Go `jwt.DecodeAccountClaims`. -/
def DecodeAccountClaims (L : NatsLib) (token : String) : Except GoError AccountClaims :=
  L.parseAccount token

/-- Go `jwt.DecodeUserClaims`. -/
def DecodeUserClaims (L : NatsLib) (token : String) : Except GoError UserClaims :=
  L.parseUser token

/-- Go `jwt.DecodeOperatorClaims`. -/
def DecodeOperatorClaims (L : NatsLib) (token : String) : Except GoError OperatorClaims :=
  L.parseOperator token

end jwt

/-! ## api/v1alpha1 -/

namespace v1alpha1

/-- The part of `corev1.ObjectReference` the program reads. -/
structure ObjectReference where
  Namespace : String := ""
  Name : String := ""
deriving DecidableEq, Repr

/-- The part of `metav1.ObjectMeta` the program reads or writes. -/
structure ObjectMeta where
  Namespace : String := ""
  Name : String := ""
  DeletionTimestamp : Option Int := none
  Finalizers : List String := []
  OwnerReferences : List String := []
deriving DecidableEq, Repr

structure Permission where
  Allow : GoSlice String := none
  Deny : GoSlice String := none
deriving DecidableEq, Repr

def Permission.toNats (p : Permission) : jwt.Permission :=
  { Allow := p.Allow, Deny := p.Deny }

structure Permissions where
  Pub : Permission := {}
  Sub : Permission := {}
  Resp : Option jwt.ResponsePermission := none
deriving DecidableEq, Repr

def Permissions.toNats (p : Permissions) : jwt.Permissions :=
  { Pub := p.Pub.toNats, Sub := p.Sub.toNats, Resp := p.Resp }

structure UserLimits where
  Src : GoSlice String := none
  Times : GoSlice jwt.TimeRange := none
  Locale : String := ""
deriving DecidableEq, Repr

def UserLimits.toNats (u : UserLimits) : jwt.UserLimits :=
  { Src := u.Src, Times := u.Times, Locale := u.Locale }

structure Limits where
  UserLimits : UserLimits := {}
  NatsLimits : jwt.NatsLimits := {}
deriving DecidableEq, Repr

def Limits.toNats (l : Limits) : jwt.Limits :=
  { UserLimits := l.UserLimits.toNats, NatsLimits := l.NatsLimits }

/-- NatsUserSpec defines the desired state of NatsUser. -/
structure NatsUserSpec where
  AccountRef : ObjectReference := {}
  Permissions : Permissions := {}
  Limits : Limits := {}
  BearerToken : Bool := false
  AllowedConnectionTypes : GoSlice String := none
deriving DecidableEq, Repr

def NatsUserSpec.ToNatsJWT (s : NatsUserSpec) : jwt.User :=
  { UserPermissionLimits := {
      Permissions := s.Permissions.toNats
      Limits := s.Limits.toNats
      BearerToken := s.BearerToken
      AllowedConnectionTypes := s.AllowedConnectionTypes } }

structure NatsUserStatus where
  UserSecretName : String := ""
  PublicKey : String := ""
  JWT : String := ""
deriving DecidableEq, Repr

structure NatsUser where
  ObjectMeta : ObjectMeta := {}
  Spec : NatsUserSpec := {}
  Status : NatsUserStatus := {}
deriving DecidableEq, Repr

structure Export where
  Name : String := ""
  Subject : String := ""
  ExportType : Int := 0
  TokenReq : Bool := false
  Revocations : GoMap Int := none
  ResponseType : String := ""
  ResponseThreshold : Int := 0
  Latency : Option jwt.ServiceLatency := none
  AccountTokenPosition : Nat := 0
  Advertise : Bool := false
  Info : jwt.Info := {}
deriving DecidableEq, Repr

structure OperatorLimits where
  NatsLimits : jwt.NatsLimits := {}
  AccountLimits : jwt.AccountLimits := {}
  JetStreamLimits : jwt.JetStreamLimits := {}
  JetStreamTieredLimits : GoMap jwt.JetStreamLimits := none
deriving DecidableEq, Repr

/-- NatsAccountSpec defines the desired state of NatsAccount. -/
structure NatsAccountSpec where
  OperatorRef : ObjectReference := {}
  AllowUserNamespaces : GoSlice String := none
  Imports : GoSlice jwt.Import := none
  Exports : GoSlice Export := none
  Limits : OperatorLimits := {}
  Revocations : GoMap Int := none
deriving DecidableEq, Repr

/-- Go `lo.Map`: the result is never the nil slice. -/
def loMap {α β : Type} (collection : GoSlice α) (iteratee : α → Nat → β) : GoSlice β :=
  some (((collection.getD []).enum).map (fun p => iteratee p.2 p.1))

def NatsAccountSpec.ToJWTAccount (s : NatsAccountSpec) : jwt.Account :=
  let exports := loMap s.Exports (fun (e : Export) _ =>
    ({ Name := e.Name
       Subject := e.Subject
       ExportType := e.ExportType
       TokenReq := e.TokenReq
       Revocations := e.Revocations
       ResponseType := e.ResponseType
       ResponseThreshold := e.ResponseThreshold
       Latency := e.Latency
       AccountTokenPosition := e.AccountTokenPosition
       Advertise := e.Advertise
       Info := e.Info } : jwt.Export))
  { Imports := s.Imports
    Exports := exports
    Limits := {
      NatsLimits := s.Limits.NatsLimits
      AccountLimits := s.Limits.AccountLimits
      JetStreamLimits := s.Limits.JetStreamLimits
      JetStreamTieredLimits := s.Limits.JetStreamTieredLimits }
    SigningKeys := some []
    Revocations := s.Revocations }

structure NatsAccountStatus where
  AccountSecretName : String := ""
  PublicKey : String := ""
  JWT : String := ""
deriving DecidableEq, Repr

structure NatsAccount where
  ObjectMeta : ObjectMeta := {}
  Spec : NatsAccountSpec := {}
  Status : NatsAccountStatus := {}
deriving DecidableEq, Repr

structure NatsOperatorSpec where
  SigningKeys : GoSlice String := none
  ServerURLs : GoSlice String := none
deriving DecidableEq, Repr

structure NatsOperatorStatus where
  OperatorSecretName : String := ""
  PublicKey : String := ""
  JWT : String := ""
deriving DecidableEq, Repr

structure NatsOperator where
  ObjectMeta : ObjectMeta := {}
  Spec : NatsOperatorSpec := {}
  Status : NatsOperatorStatus := {}
deriving DecidableEq, Repr

end v1alpha1

/-! ## controllers: keys and credentials -/

/-- The part of `corev1.Secret` the program reads or writes. -/
structure Secret where
  Namespace : String := ""
  Name : String := ""
  SecretType : String := ""
  OwnerReferences : List String := []
  Data : GoMap String := none
deriving DecidableEq, Repr

/-- Go `secret.Data[k] = v` on a non-nil map. -/
def Secret.set (secret : Secret) (k v : String) : Secret :=
  { secret with Data := some (assocSet (secret.Data.getD []) k v) }

/-- Source `extractOrCreateKeys` of `common.go`: the key pair and `needsKeyUpdate`. -/
def extractOrCreateKeys (L : NatsLib) (secret : Secret)
    (generator : Unit → Except GoError KeyPair) : Except GoError (KeyPair × Bool) :=
  let parsed : Option KeyPair × Bool :=
    match secret.Data with
    | none => (none, true)
    | some _ =>
      match nkeys.FromSeed L (secret.Data.index OPERATOR_SEED_KEY) with
      | .ok parsedKeys => (some parsedKeys, false)
      | .error _ => (none, true)
  match parsed.1 with
  | some keys => .ok (keys, parsed.2)
  | none =>
    match generator () with
    | .error err => .error err
    | .ok createdKeys => .ok (createdKeys, parsed.2)

/-- Go `%v` of a byte slice: the decimal values between brackets. -/
def fmtBytes (b : String) : String :=
  "[" ++ " ".intercalate (b.toList.map (fun c => toString c.toNat)) ++ "]"

/-- Go `fmt.Errorf("failed decoding seed: %v, signer: %v", err, signer)`. -/
def failedDecodingSeed (err : GoError) (signer : String) : GoError :=
  "failed decoding seed: " ++ err ++ ", signer: " ++ fmtBytes signer

/-- Message of the runtime panic raised by a write through the nil claims pointer. -/
def nilClaimsPanic : GoError := "panic: runtime error: invalid memory address or nil pointer dereference"

/-- Lines 173 and 179 to 189 of `NatsAccountReconciler.reconcileKey`: the value of
`needsClaimsUpdate` once the signer seed has decoded. -/
def NatsAccountReconciler.needsClaimsUpdate (L : NatsLib) (secret : Secret)
    (token : jwt.AccountClaims) : Bool :=
  let needsClaimsUpdate := secret.Data.isNone
  match secret.Data with
  | none => needsClaimsUpdate
  | some _ =>
    match jwt.DecodeAccountClaims L (secret.Data.index OPERATOR_JWT) with
    | .ok oldToken =>
      (needsClaimsUpdate || !jwt.Account.deepEqual token.Account oldToken.Account)
        || oldToken.ClaimsData.Issuer != token.ClaimsData.Issuer
    | .error _ => true

/-- Source `NatsAccountReconciler.reconcileKey`: the secret as left by the call, and the
returned `(bool, error)`.  `rnd` feeds the key generator and `now` is the clock read by
`Encode`. -/
def NatsAccountReconciler.reconcileKey (L : NatsLib) (rnd : Nat) (now : Int) (secret : Secret)
    (account : v1alpha1.NatsAccount) (signer : String) : Secret × Except GoError Bool :=
  match extractOrCreateKeys L secret (fun _ => nkeys.CreateAccount L rnd) with
  | .error err => (secret, .error err)
  | .ok (keys, needsKeyUpdate) =>
    let seed := keys.Seed
    let public := keys.PublicKey L
    match jwt.NewAccountClaims public with
    | none => (secret, .error nilClaimsPanic)
    | some token0 =>
      let token : jwt.AccountClaims := { token0 with Account := account.Spec.ToJWTAccount }
      match nkeys.FromSeed L signer with
      | .error err => (secret, .error (failedDecodingSeed err signer))
      | .ok signerKp =>
        let needsClaimsUpdate := NatsAccountReconciler.needsClaimsUpdate L secret token
        let secret1 : Secret :=
          if secret.Data.isNone then { secret with Data := some [] } else secret
        let secret2 : Secret :=
          if needsKeyUpdate then
            (secret1.set OPERATOR_SEED_KEY seed).set OPERATOR_PUBLIC_KEY public
          else secret1
        if needsKeyUpdate || needsClaimsUpdate then
          match token.Encode L signerKp now with
          | .error err => (secret2, .error err)
          | .ok jwt => (secret2.set OPERATOR_JWT jwt, .ok (needsKeyUpdate || needsClaimsUpdate))
        else (secret2, .ok (needsKeyUpdate || needsClaimsUpdate))

/-- Source `NatsAccountReconciler.reconcileKey`, its effect on the account object.
`ToJWTAccount` converts `s.Imports` without copying (types, line 90), so the slice that
`token.Encode` sorts (line 202) is the one `account.Spec.Imports` points to: the object has
its imports reordered whenever the call reaches `Encode` with an account subject. -/
def NatsAccountReconciler.reconcileKeyAccount (L : NatsLib) (rnd : Nat) (secret : Secret)
    (account : v1alpha1.NatsAccount) (signer : String) : v1alpha1.NatsAccount :=
  match extractOrCreateKeys L secret (fun _ => nkeys.CreateAccount L rnd) with
  | .error _ => account
  | .ok (keys, needsKeyUpdate) =>
    let public := keys.PublicKey L
    match jwt.NewAccountClaims public with
    | none => account
    | some token0 =>
      let token : jwt.AccountClaims := { token0 with Account := account.Spec.ToJWTAccount }
      match nkeys.FromSeed L signer with
      | .error _ => account
      | .ok _ =>
        let needsClaimsUpdate := NatsAccountReconciler.needsClaimsUpdate L secret token
        if needsKeyUpdate || needsClaimsUpdate then
          { account with Spec := { account.Spec with Imports := token.importsAfterEncode L } }
        else account

/-- Lines 177 and 183 to 193 of `NatsUserReconciler.reconcileKey`: the value of
`needsClaimsUpdate` once the signer seed has decoded. -/
def NatsUserReconciler.needsClaimsUpdate (L : NatsLib) (secret : Secret)
    (token : jwt.UserClaims) : Bool :=
  let needsClaimsUpdate := secret.Data.isNone
  match secret.Data with
  | none => needsClaimsUpdate
  | some _ =>
    match jwt.DecodeUserClaims L (secret.Data.index OPERATOR_JWT) with
    | .ok oldToken =>
      (needsClaimsUpdate || token.User != oldToken.User)
        || oldToken.ClaimsData.Issuer != token.ClaimsData.Issuer
    | .error _ => true

/-- Source `NatsUserReconciler.reconcileKey` (the parameter the source calls `account` is
the user). -/
def NatsUserReconciler.reconcileKey (L : NatsLib) (rnd : Nat) (now : Int) (secret : Secret)
    (account : v1alpha1.NatsUser) (signer : String) : Secret × Except GoError Bool :=
  match extractOrCreateKeys L secret (fun _ => nkeys.CreateAccount L rnd) with
  | .error err => (secret, .error err)
  | .ok (keys, needsKeyUpdate) =>
    let seed := keys.Seed
    let public := keys.PublicKey L
    match jwt.NewUserClaims public with
    | none => (secret, .error nilClaimsPanic)
    | some token0 =>
      let token : jwt.UserClaims := { token0 with User := account.Spec.ToNatsJWT }
      match nkeys.FromSeed L signer with
      | .error err => (secret, .error (failedDecodingSeed err signer))
      | .ok signerKp =>
        let needsClaimsUpdate := NatsUserReconciler.needsClaimsUpdate L secret token
        let secret1 : Secret :=
          if secret.Data.isNone then { secret with Data := some [] } else secret
        let secret2 : Secret :=
          if needsKeyUpdate then
            (secret1.set OPERATOR_SEED_KEY seed).set OPERATOR_PUBLIC_KEY public
          else secret1
        if needsKeyUpdate || needsClaimsUpdate then
          match token.Encode L signerKp now with
          | .error err => (secret2, .error err)
          | .ok jwt => (secret2.set OPERATOR_JWT jwt, .ok (needsKeyUpdate || needsClaimsUpdate))
        else (secret2, .ok (needsKeyUpdate || needsClaimsUpdate))

/-- Source `NatsOperatorReconciler.reconcileKey`. -/
def NatsOperatorReconciler.reconcileKey (L : NatsLib) (rnd : Nat) (now : Int) (secret : Secret)
    (operator : v1alpha1.NatsOperator) : Secret × Except GoError Bool :=
  match extractOrCreateKeys L secret (fun _ => nkeys.CreateOperator L rnd) with
  | .error err => (secret, .error err)
  | .ok (keys, needsKeyUpdate) =>
    let seed := keys.Seed
    let public := keys.PublicKey L
    match jwt.NewOperatorClaims public with
    | none => (secret, .error nilClaimsPanic)
    | some token0 =>
      let token : jwt.OperatorClaims :=
        { token0 with Operator := { token0.Operator with SigningKeys := operator.Spec.SigningKeys } }
      let needsClaimsUpdate0 := secret.Data.isNone
      let needsClaimsUpdate :=
        match secret.Data with
        | none => needsClaimsUpdate0
        | some _ =>
          match jwt.DecodeOperatorClaims L (secret.Data.index OPERATOR_JWT) with
          | .ok oldToken =>
            needsClaimsUpdate0 || token.Operator.SigningKeys != oldToken.Operator.SigningKeys
          | .error _ => true
      let secret1 : Secret :=
        if secret.Data.isNone then { secret with Data := some [] } else secret
      let secret2 : Secret :=
        if needsKeyUpdate then
          (secret1.set OPERATOR_SEED_KEY seed).set OPERATOR_PUBLIC_KEY public
        else secret1
      if needsKeyUpdate || needsClaimsUpdate then
        match token.Encode L keys now with
        | .error err => (secret2, .error err)
        | .ok jwt => (secret2.set OPERATOR_JWT jwt, .ok (needsKeyUpdate || needsClaimsUpdate))
      else (secret2, .ok (needsKeyUpdate || needsClaimsUpdate))

/-! ## controllers: the API server and the reconcile loops -/

/-- Answer of the API server to `Get`: the object, a not-found error, or another error. -/
inductive GetResult (α : Type) where
  | found (obj : α)
  | notFound (err : GoError)
  | failed (err : GoError)
deriving Repr

/-- Writes a reconciler sends to the API server. -/
inductive Write where
  | createSecret (obj : Secret)
  | updateSecret (obj : Secret)
  | updateOperator (obj : v1alpha1.NatsOperator)
  | updateOperatorStatus (obj : v1alpha1.NatsOperator)
  | createAccount (obj : v1alpha1.NatsAccount)
  | updateAccount (obj : v1alpha1.NatsAccount)
  | updateAccountStatus (obj : v1alpha1.NatsAccount)
  | createUser (obj : v1alpha1.NatsUser)
  | updateUser (obj : v1alpha1.NatsUser)
  | updateUserStatus (obj : v1alpha1.NatsUser)
deriving DecidableEq, Repr

/-- The collaborators of one reconcile call.  Objects read in a wait loop are read again at
every poll, so their answer depends on the poll number; every other object is read once. -/
structure ApiServer where
  getOperator : Nat → String → String → GetResult v1alpha1.NatsOperator
  getAccount : Nat → String → String → GetResult v1alpha1.NatsAccount
  getUser : Nat → String → String → GetResult v1alpha1.NatsUser
  getSecret : String → String → GetResult Secret
  /-- Error of `controllerutil.SetOwnerReference`, if any. -/
  setOwnerReference : Option GoError
  /-- Error the API server answers to a write, if any. -/
  write : Write → Option GoError

/-- Go `ctrl.Request`. -/
structure Request where
  Namespace : String := ""
  Name : String := ""
deriving DecidableEq, Repr

/-- Go `ctrl.Result`; `RequeueAfter` in seconds. -/
structure Result where
  Requeue : Bool := false
  RequeueAfter : Nat := 0
deriving DecidableEq, Repr

/-- Go `controllerutil.AddFinalizer`: the new list and whether it changed. -/
def AddFinalizer (fs : List String) (f : String) : List String × Bool :=
  if fs.contains f then (fs, false) else (fs ++ [f], true)

/-- Go `controllerutil.RemoveFinalizer`: the new list and whether it changed. -/
def RemoveFinalizer (fs : List String) (f : String) : List String × Bool :=
  (fs.filter (fun g => g != f), fs.contains f)

/-- What a call of `reconcileSecret` did: the writes sent, in order, the owner object as the
call left it, the secret as the call left it, and the returned error if any. -/
structure SecretOutcome (Owner : Type) where
  writes : List Write
  owner : Owner
  secret : Secret
  err : Option GoError

/-- Source `NatsAccountReconciler.reconcileSecret`. -/
def NatsAccountReconciler.reconcileSecret (L : NatsLib) (api : ApiServer) (rnd : Nat) (now : Int)
    (req : Request) (account : v1alpha1.NatsAccount) (signerSecret : Secret) :
    SecretOutcome v1alpha1.NatsAccount :=
  let fetched : Except GoError (Secret × Bool) :=
    match api.getSecret req.Namespace req.Name with
    | .found obj => .ok (obj, true)
    | .notFound _ =>
      let keySecret : Secret :=
        { Namespace := req.Namespace, Name := req.Name, SecretType := "deinstapel.de/nats-account" }
      match api.setOwnerReference with
      | some err => .error err
      | none => .ok ({ keySecret with OwnerReferences := [account.ObjectMeta.Name] }, false)
    | .failed err => .error err
  match fetched with
  | .error err => { writes := [], owner := account, secret := {}, err := some err }
  | .ok (keySecret0, hasSecret) =>
    let account0 := NatsAccountReconciler.reconcileKeyAccount L rnd keySecret0 account
      (signerSecret.Data.index OPERATOR_SEED_KEY)
    match NatsAccountReconciler.reconcileKey L rnd now keySecret0 account
        (signerSecret.Data.index OPERATOR_SEED_KEY) with
    | (keySecret, .error err) =>
      { writes := [], owner := account0, secret := keySecret, err := some err }
    | (keySecret, .ok hasChanges) =>
      let w1 : List Write :=
        if !hasSecret then [Write.createSecret keySecret]
        else if hasChanges then [Write.updateSecret keySecret] else []
      match w1.findSome? api.write with
      | some err => { writes := w1, owner := account0, secret := keySecret, err := some err }
      | none =>
        if !hasSecret || hasChanges then
          let account1 : v1alpha1.NatsAccount :=
            { account0 with Status := {
                AccountSecretName := keySecret.Name
                PublicKey := keySecret.Data.index OPERATOR_PUBLIC_KEY
                JWT := keySecret.Data.index OPERATOR_JWT } }
          let w2 := Write.updateAccountStatus account1
          { writes := w1 ++ [w2], owner := account1, secret := keySecret, err := api.write w2 }
        else { writes := w1, owner := account0, secret := keySecret, err := none }

/-- Source `NatsUserReconciler.reconcileSecret`. -/
def NatsUserReconciler.reconcileSecret (L : NatsLib) (api : ApiServer) (rnd : Nat) (now : Int)
    (req : Request) (user : v1alpha1.NatsUser) (signerSecret : Secret) :
    SecretOutcome v1alpha1.NatsUser :=
  let fetched : Except GoError (Secret × Bool) :=
    match api.getSecret req.Namespace req.Name with
    | .found obj => .ok (obj, true)
    | .notFound _ =>
      let keySecret : Secret :=
        { Namespace := req.Namespace, Name := req.Name, SecretType := "deinstapel.de/nats-user" }
      match api.setOwnerReference with
      | some err => .error err
      | none => .ok ({ keySecret with OwnerReferences := [user.ObjectMeta.Name] }, false)
    | .failed err => .error err
  match fetched with
  | .error err => { writes := [], owner := user, secret := {}, err := some err }
  | .ok (keySecret0, hasSecret) =>
    match NatsUserReconciler.reconcileKey L rnd now keySecret0 user
        (signerSecret.Data.index OPERATOR_SEED_KEY) with
    | (keySecret, .error err) =>
      { writes := [], owner := user, secret := keySecret, err := some err }
    | (keySecret, .ok hasChanges) =>
      let w1 : List Write :=
        if !hasSecret then [Write.createSecret keySecret]
        else if hasChanges then [Write.updateSecret keySecret] else []
      match w1.findSome? api.write with
      | some err => { writes := w1, owner := user, secret := keySecret, err := some err }
      | none =>
        if !hasSecret || hasChanges then
          let user1 : v1alpha1.NatsUser :=
            { user with Status := {
                UserSecretName := keySecret.Name
                PublicKey := keySecret.Data.index OPERATOR_PUBLIC_KEY
                JWT := keySecret.Data.index OPERATOR_JWT } }
          let w2 := Write.updateUserStatus user1
          { writes := w1 ++ [w2], owner := user1, secret := keySecret, err := api.write w2 }
        else { writes := w1, owner := user, secret := keySecret, err := none }

/-- State of the wait loop of a `Reconcile` after the polls it was given: still waiting,
returned from inside the loop, or left with the issuer and its secret. -/
inductive Awaited (α : Type) where
  | waiting
  | stopped (res : Result) (err : Option GoError)
  | ready (issuer : α) (signerSecret : Secret)

/-- What a call of `Reconcile` did within the polls it was given: the writes sent, in order,
and the returned `(ctrl.Result, error)`, or `none` while the call sits in its wait loop. -/
structure ReconcileOutcome where
  writes : List Write
  returned : Option (Result × Option GoError)
deriving DecidableEq, Repr

/-- Go `slices.Contains` on a possibly nil slice. -/
def slicesContains (s : GoSlice String) (v : String) : Bool :=
  (s.getD []).contains v

/-- The `for` loop of `NatsUserReconciler.Reconcile` (lines 88 to 114), run for at most
`polls` reads of the issuing account, the next read being number `i`. -/
def NatsUserReconciler.awaitIssuer (api : ApiServer) (req : Request) (user : v1alpha1.NatsUser) :
    Nat → Nat → Awaited v1alpha1.NatsAccount
  | 0, _ => .waiting
  | polls + 1, i =>
    match api.getAccount i user.Spec.AccountRef.Namespace user.Spec.AccountRef.Name with
    | .notFound err => .stopped {} (some err)
    | .failed err => .stopped {} (some err)
    | .found issuingAccount =>
      if issuingAccount.Status.AccountSecretName == "" then
        NatsUserReconciler.awaitIssuer api req user polls (i + 1)
      else if !slicesContains issuingAccount.Spec.AllowUserNamespaces req.Namespace then
        .stopped {} none
      else
        match api.getSecret issuingAccount.ObjectMeta.Namespace
            issuingAccount.Status.AccountSecretName with
        | .found signerSecret => .ready issuingAccount signerSecret
        | .notFound err => .stopped {} (some err)
        | .failed err => .stopped {} (some err)

/-- Source `NatsUserReconciler.Reconcile`, given `polls` reads of the issuing account. -/
def NatsUserReconciler.Reconcile (L : NatsLib) (api : ApiServer) (rnd : Nat) (now : Int)
    (polls : Nat) (req : Request) : ReconcileOutcome :=
  match api.getUser 0 req.Namespace req.Name with
  | .notFound _ => { writes := [], returned := some ({}, none) }
  | .failed err => { writes := [], returned := some ({}, some err) }
  | .found user =>
    if user.ObjectMeta.DeletionTimestamp.isSome then
      let removed := RemoveFinalizer user.ObjectMeta.Finalizers JWT_OPERATOR_FINALIZER
      if removed.2 then
        let w := Write.updateUser
          { user with ObjectMeta := { user.ObjectMeta with Finalizers := removed.1 } }
        { writes := [w], returned := some ({}, api.write w) }
      else { writes := [], returned := some ({}, none) }
    else
      let added := AddFinalizer user.ObjectMeta.Finalizers JWT_OPERATOR_FINALIZER
      let user1 : v1alpha1.NatsUser :=
        { user with ObjectMeta := { user.ObjectMeta with Finalizers := added.1 } }
      let w0 : List Write := if added.2 then [Write.updateUser user1] else []
      match w0.findSome? api.write with
      | some err => { writes := w0, returned := some ({}, some err) }
      | none =>
        match NatsUserReconciler.awaitIssuer api req user1 polls 0 with
        | .waiting => { writes := w0, returned := none }
        | .stopped res err => { writes := w0, returned := some (res, err) }
        | .ready _ signerSecret =>
          let out := NatsUserReconciler.reconcileSecret L api rnd now req user1 signerSecret
          { writes := w0 ++ out.writes, returned := some ({}, out.err) }

/-! ## controllers: the Root reconciler and the Namespace reconcile loop -/

/-- Source `NatsOperatorReconciler.reconcileSecret`. -/
def NatsOperatorReconciler.reconcileSecret (L : NatsLib) (api : ApiServer) (rnd : Nat) (now : Int)
    (req : Request) (operator : v1alpha1.NatsOperator) : SecretOutcome v1alpha1.NatsOperator :=
  let fetched : Except GoError (Secret × Bool) :=
    match api.getSecret req.Namespace req.Name with
    | .found obj => .ok (obj, true)
    | .notFound _ =>
      let operatorKeySecret : Secret :=
        { Namespace := req.Namespace, Name := req.Name, SecretType := "deinstapel.de/nats-operator" }
      match api.setOwnerReference with
      | some err => .error err
      | none =>
        .ok ({ operatorKeySecret with OwnerReferences := [operator.ObjectMeta.Name] }, false)
    | .failed err => .error err
  match fetched with
  | .error err => { writes := [], owner := operator, secret := {}, err := some err }
  | .ok (operatorKeySecret0, hasSecret) =>
    match NatsOperatorReconciler.reconcileKey L rnd now operatorKeySecret0 operator with
    | (operatorKeySecret, .error err) =>
      { writes := [], owner := operator, secret := operatorKeySecret, err := some err }
    | (operatorKeySecret, .ok hasChanges) =>
      let w1 : List Write :=
        if !hasSecret then [Write.createSecret operatorKeySecret]
        else if hasChanges then [Write.updateSecret operatorKeySecret] else []
      match w1.findSome? api.write with
      | some err =>
        { writes := w1, owner := operator, secret := operatorKeySecret, err := some err }
      | none =>
        if !hasSecret || hasChanges then
          let operator1 : v1alpha1.NatsOperator :=
            { operator with Status := {
                OperatorSecretName := operatorKeySecret.Name
                PublicKey := operatorKeySecret.Data.index OPERATOR_PUBLIC_KEY
                JWT := operatorKeySecret.Data.index OPERATOR_JWT } }
          let w2 := Write.updateOperatorStatus operator1
          { writes := w1 ++ [w2], owner := operator1, secret := operatorKeySecret
            err := api.write w2 }
        else { writes := w1, owner := operator, secret := operatorKeySecret, err := none }

/-- The `for` loop of `NatsAccountReconciler.Reconcile` (lines 87 to 109), run for at most
`polls` reads of the issuing operator, the next read being number `i`.  Between two reads
the source sleeps five seconds inside the call. -/
def NatsAccountReconciler.awaitIssuer (api : ApiServer) (req : Request)
    (account : v1alpha1.NatsAccount) : Nat → Nat → Awaited v1alpha1.NatsOperator
  | 0, _ => .waiting
  | polls + 1, i =>
    match api.getOperator i req.Namespace account.Spec.OperatorRef.Name with
    | .notFound err => .stopped {} (some err)
    | .failed err => .stopped {} (some err)
    | .found issuer =>
      if issuer.Status.OperatorSecretName == "" then
        NatsAccountReconciler.awaitIssuer api req account polls (i + 1)
      else
        match api.getSecret issuer.ObjectMeta.Namespace issuer.Status.OperatorSecretName with
        | .found signerSecret => .ready issuer signerSecret
        | .notFound err => .stopped {} (some err)
        | .failed err => .stopped {} (some err)

/-- Source `NatsAccountReconciler.Reconcile`, given `polls` reads of the issuing operator. -/
def NatsAccountReconciler.Reconcile (L : NatsLib) (api : ApiServer) (rnd : Nat) (now : Int)
    (polls : Nat) (req : Request) : ReconcileOutcome :=
  match api.getAccount 0 req.Namespace req.Name with
  | .notFound _ => { writes := [], returned := some ({}, none) }
  | .failed err => { writes := [], returned := some ({}, some err) }
  | .found account =>
    if account.ObjectMeta.DeletionTimestamp.isSome then
      let removed := RemoveFinalizer account.ObjectMeta.Finalizers JWT_OPERATOR_FINALIZER
      if removed.2 then
        let w := Write.updateAccount
          { account with ObjectMeta := { account.ObjectMeta with Finalizers := removed.1 } }
        { writes := [w], returned := some ({}, api.write w) }
      else { writes := [], returned := some ({}, none) }
    else
      let added := AddFinalizer account.ObjectMeta.Finalizers JWT_OPERATOR_FINALIZER
      let account1 : v1alpha1.NatsAccount :=
        { account with ObjectMeta := { account.ObjectMeta with Finalizers := added.1 } }
      let w0 : List Write := if added.2 then [Write.updateAccount account1] else []
      match w0.findSome? api.write with
      | some err => { writes := w0, returned := some ({}, some err) }
      | none =>
        match NatsAccountReconciler.awaitIssuer api req account1 polls 0 with
        | .waiting => { writes := w0, returned := none }
        | .stopped res err => { writes := w0, returned := some (res, err) }
        | .ready _ signerSecret =>
          let out := NatsAccountReconciler.reconcileSecret L api rnd now req account1 signerSecret
          { writes := w0 ++ out.writes, returned := some ({}, out.err) }

/-- Go `controllerutil.SetOwnerReference` on the list of owners of an object. -/
def upsertOwnerRef (owners : List String) (owner : String) : List String :=
  if owners.contains owner then owners else owners ++ [owner]

/-- State of a create-or-wait loop of `NatsOperatorReconciler.Reconcile` after the polls it
was given: still waiting, returned from inside the loop after the given writes, or left with
the object. -/
inductive Ensured (α : Type) where
  | waiting
  | stopped (writes : List Write) (res : Result) (err : Option GoError)
  | ready (obj : α)

/-- The first `for` loop of `NatsOperatorReconciler.Reconcile` (lines 92 to 131): create the
system account, or wait for its credential.  `systemAccount` is the variable the reads
decode into. -/
def NatsOperatorReconciler.ensureSystemAccount (api : ApiServer) (req : Request)
    (operator : v1alpha1.NatsOperator) :
    Nat → Nat → v1alpha1.NatsAccount → Ensured v1alpha1.NatsAccount
  | 0, _, _ => .waiting
  | polls + 1, i, systemAccount =>
    match api.getAccount i req.Namespace (req.Name ++ "-system") with
    | .notFound _ =>
      match api.setOwnerReference with
      | some err => .stopped [] {} (some err)
      | none =>
        let created : v1alpha1.NatsAccount :=
          { systemAccount with
            ObjectMeta := { systemAccount.ObjectMeta with
              Name := req.Name ++ "-system"
              Namespace := req.Namespace
              OwnerReferences :=
                upsertOwnerRef systemAccount.ObjectMeta.OwnerReferences operator.ObjectMeta.Name }
            Spec := {
              AllowUserNamespaces := some [req.Namespace]
              OperatorRef := { Namespace := req.Namespace, Name := req.Name } } }
        match api.write (Write.createAccount created) with
        | some err => .stopped [Write.createAccount created] {} (some err)
        | none => .stopped [Write.createAccount created] { RequeueAfter := 5 } none
    | .failed err => .stopped [] {} (some err)
    | .found obj =>
      if obj.Status.JWT == "" then
        NatsOperatorReconciler.ensureSystemAccount api req operator polls (i + 1) obj
      else .ready obj

/-- The spec of the system user (lines 148 to 165). -/
def systemUserSpec (systemAccount : v1alpha1.NatsAccount) : v1alpha1.NatsUserSpec :=
  { AccountRef := {
      Namespace := systemAccount.ObjectMeta.Namespace
      Name := systemAccount.ObjectMeta.Name }
    Permissions := {
      Pub := { Allow := some ["$SYS.REQ.ACCOUNT.*.CLAIMS.UPDATE", "$SYS.REQ.CLAIMS.>"] }
      Sub := { Allow := some ["$SYS.REQ.ACCOUNT.*.CLAIMS.LOOKUP", "$SYS.REQ.CLAIMS.>"] }
      Resp := some { MaxMsgs := 1, Expires := -1 } } }

/-- The second `for` loop of `NatsOperatorReconciler.Reconcile` (lines 134 to 184): create
the system user, or wait for its credential. -/
def NatsOperatorReconciler.ensureSystemUser (api : ApiServer) (req : Request)
    (operator : v1alpha1.NatsOperator) (systemAccount : v1alpha1.NatsAccount) :
    Nat → Nat → v1alpha1.NatsUser → Ensured v1alpha1.NatsUser
  | 0, _, _ => .waiting
  | polls + 1, i, systemUser =>
    match api.getUser i req.Namespace (req.Name ++ "-jwt") with
    | .notFound _ =>
      match api.setOwnerReference with
      | some err => .stopped [] {} (some err)
      | none =>
        let created : v1alpha1.NatsUser :=
          { systemUser with
            ObjectMeta := { systemUser.ObjectMeta with
              Name := req.Name ++ "-jwt"
              Namespace := req.Namespace
              OwnerReferences :=
                upsertOwnerRef systemUser.ObjectMeta.OwnerReferences operator.ObjectMeta.Name }
            Spec := systemUserSpec systemAccount }
        match api.write (Write.createUser created) with
        | some err => .stopped [Write.createUser created] {} (some err)
        | none => .stopped [Write.createUser created] { RequeueAfter := 5 } none
    | .failed err => .stopped [] {} (some err)
    | .found obj =>
      if obj.Status.JWT == "" then
        NatsOperatorReconciler.ensureSystemUser api req operator systemAccount polls (i + 1) obj
      else .ready obj

/-- Source `NatsOperatorReconciler.Reconcile`, given `polls` reads in each wait loop. -/
def NatsOperatorReconciler.Reconcile (L : NatsLib) (api : ApiServer) (rnd : Nat) (now : Int)
    (polls : Nat) (req : Request) : ReconcileOutcome :=
  match api.getOperator 0 req.Namespace req.Name with
  | .notFound _ => { writes := [], returned := some ({}, none) }
  | .failed err => { writes := [], returned := some ({}, some err) }
  | .found operator =>
    if operator.ObjectMeta.DeletionTimestamp.isSome then
      let removed := RemoveFinalizer operator.ObjectMeta.Finalizers JWT_OPERATOR_FINALIZER
      if removed.2 then
        let w := Write.updateOperator
          { operator with ObjectMeta := { operator.ObjectMeta with Finalizers := removed.1 } }
        { writes := [w], returned := some ({}, api.write w) }
      else { writes := [], returned := some ({}, none) }
    else
      let added := AddFinalizer operator.ObjectMeta.Finalizers JWT_OPERATOR_FINALIZER
      let operator1 : v1alpha1.NatsOperator :=
        { operator with ObjectMeta := { operator.ObjectMeta with Finalizers := added.1 } }
      let w0 : List Write := if added.2 then [Write.updateOperator operator1] else []
      match w0.findSome? api.write with
      | some err => { writes := w0, returned := some ({}, some err) }
      | none =>
        let out := NatsOperatorReconciler.reconcileSecret L api rnd now req operator1
        match out.err with
        | some err => { writes := w0 ++ out.writes, returned := some ({}, some err) }
        | none =>
          match NatsOperatorReconciler.ensureSystemAccount api req out.owner polls 0 {} with
          | .waiting => { writes := w0 ++ out.writes, returned := none }
          | .stopped ws res err =>
            { writes := w0 ++ out.writes ++ ws, returned := some (res, err) }
          | .ready systemAccount =>
            match NatsOperatorReconciler.ensureSystemUser api req out.owner systemAccount
                polls 0 {} with
            | .waiting => { writes := w0 ++ out.writes, returned := none }
            | .stopped ws res err =>
              { writes := w0 ++ out.writes ++ ws, returned := some (res, err) }
            | .ready _ =>
              match api.getSecret req.Namespace (req.Name ++ "-jwt") with
              | .failed err => { writes := w0 ++ out.writes, returned := some ({}, some err) }
              | _ => { writes := w0 ++ out.writes, returned := some ({}, none) }

/-! ## controllers: the account server -/

/-- Go `strings.TrimPrefix`. -/
def stringsTrimPrefix (s pre : String) : String :=
  if pre.toList.isPrefixOf s.toList then String.mk (s.toList.drop pre.toList.length) else s

/-- Go `strings.TrimSuffix`. -/
def stringsTrimSuffix (s suf : String) : String :=
  if suf.toList.isSuffixOf s.toList then
    String.mk (s.toList.take (s.toList.length - suf.toList.length))
  else s

/-- Go `delete(m, k)`. -/
def assocErase {V : Type} (m : List (String × V)) (k : String) : List (String × V) :=
  m.filter (fun p => p.1 != k)

/-- The state of a `NatsAccountServer`: the index (a plain Go map, made by
`NewAccountServer`), whether `Run` has set the connection, and the credentials handed to the
connection for publishing on `$SYS.REQ.CLAIMS.UPDATE`. -/
structure NatsAccountServer where
  accountMap : List (String × String) := []
  nc : Bool := false
  published : List String := []
deriving DecidableEq, Repr

/-- Source `NewAccountServer`. -/
def NewAccountServer : NatsAccountServer := { accountMap := [] }

/-- The subscription handler of `NatsAccountServer.Run` (lines 58 to 67): the body it
responds with for a message on `subject`. -/
def NatsAccountServer.lookup (r : NatsAccountServer) (subject : String) : String :=
  let accountId :=
    stringsTrimSuffix (stringsTrimPrefix subject "$SYS.REQ.ACCOUNT.") ".CLAIMS.LOOKUP"
  let accountToken := (assocGet r.accountMap accountId).getD ""
  accountToken

/-- Source `NatsAccountServer.Reconcile`, given the answer of the API server to the read of
the account: the server afterwards and the returned error. -/
def NatsAccountServer.Reconcile (r : NatsAccountServer) (get : GetResult v1alpha1.NatsAccount) :
    NatsAccountServer × Option GoError :=
  match get with
  | .notFound _ => (r, none)
  | .failed err => (r, some err)
  | .found account =>
    if account.ObjectMeta.DeletionTimestamp.isSome then
      ({ r with accountMap := assocErase r.accountMap account.Status.PublicKey }, none)
    else if account.Status.JWT != "" && account.Status.PublicKey != "" then
      let r1 := { r with
        accountMap := assocSet r.accountMap account.Status.PublicKey account.Status.JWT }
      if r1.nc then ({ r1 with published := r1.published ++ [account.Status.JWT] }, none)
      else (r1, none)
    else (r, none)

/-- The lookup subject of an identity. -/
def lookupSubject (k : String) : String := "$SYS.REQ.ACCOUNT." ++ k ++ ".CLAIMS.LOOKUP"

/-- The account server after a sequence of `Reconcile` calls, given the answer to each
read. -/
def NatsAccountServer.run (r : NatsAccountServer) :
    List (GetResult v1alpha1.NatsAccount) → NatsAccountServer
  | [] => r
  | get :: rest => NatsAccountServer.run (r.Reconcile get).1 rest

/-! ## What is assumed of the libraries -/

/-- Properties of `nkeys` and `jwt/v2` used below. -/
structure NatsLib.Lawful (L : NatsLib) : Prop where
  /-- A created seed decodes, with the kind asked for. -/
  createPair_kind : ∀ k rnd seed, L.createPair k rnd = .ok seed → L.decodeSeed seed = .ok k
  /-- The public key of a seed has the kind of the seed. -/
  publicKind_publicKey : ∀ seed k, L.decodeSeed seed = .ok k →
    L.publicKind (L.publicKey seed) = some k
  /-- The empty string is no public key. -/
  publicKind_empty : L.publicKind "" = none
  /-- An account credential signed by its recorded issuer decodes, with the same envelope
  and the same stamps. -/
  parse_signAccount : ∀ (a : jwt.AccountClaims) seed k, L.decodeSeed seed = .ok k →
    a.ClaimsData.Issuer = L.publicKey seed →
    a.Account.GenericFields.ClaimType = "account" →
    a.Account.GenericFields.Version = jwt.libVersion →
    ∃ a', L.parseAccount (L.signAccount a seed) = .ok a' ∧ a'.ClaimsData = a.ClaimsData
      ∧ a'.Account.GenericFields.ClaimType = "account"
      ∧ a'.Account.GenericFields.Version = jwt.libVersion
  /-- A user credential signed by its recorded issuer decodes, likewise. -/
  parse_signUser : ∀ (u : jwt.UserClaims) seed k, L.decodeSeed seed = .ok k →
    u.ClaimsData.Issuer = L.publicKey seed →
    u.User.GenericFields.ClaimType = "user" →
    u.User.GenericFields.Version = jwt.libVersion →
    ∃ u', L.parseUser (L.signUser u seed) = .ok u' ∧ u'.ClaimsData = u.ClaimsData
      ∧ u'.User.GenericFields.ClaimType = "user"
      ∧ u'.User.GenericFields.Version = jwt.libVersion
  /-- An operator credential signed by its recorded issuer decodes, likewise; its list of
  signing keys went through `omitempty`. -/
  parse_signOperator : ∀ (o : jwt.OperatorClaims) seed k, L.decodeSeed seed = .ok k →
    o.ClaimsData.Issuer = L.publicKey seed →
    o.Operator.GenericFields.ClaimType = "operator" →
    o.Operator.GenericFields.Version = jwt.libVersion →
    ∃ o', L.parseOperator (L.signOperator o seed) = .ok o' ∧ o'.ClaimsData = o.ClaimsData
      ∧ o'.Operator.GenericFields.ClaimType = "operator"
      ∧ o'.Operator.GenericFields.Version = jwt.libVersion
      ∧ o'.Operator.SigningKeys = omitEmpty o.Operator.SigningKeys

/-! ## A reference library

A small concrete library that has the properties assumed above: seeds are the letter S, a
kind letter and a body; the public key drops the S; a credential is a tag character followed
by the claims in unary. -/

instance instEncodableChar : Encodable Char :=
  Encodable.ofLeftInjection Char.toNat (fun n => some (Char.ofNat n))
    (fun c => by simp [Char.ofNat_toNat])

instance instEncodableString : Encodable String :=
  Encodable.ofLeftInjection String.toList (fun l => some (String.mk l)) (fun _ => rfl)

instance instEncodableGenericFields : Encodable jwt.GenericFields :=
  Encodable.ofLeftInjection (fun x => (x.Tags, x.ClaimType, x.Version))
    (fun (x0, x1, x2) => some ⟨x0, x1, x2⟩) (fun x => by cases x; rfl)

instance instEncodableClaimsData : Encodable jwt.ClaimsData :=
  Encodable.ofLeftInjection (fun x => (x.Audience, x.Expires, x.ID, x.IssuedAt, x.Issuer, x.Name, x.NotBefore, x.Subject))
    (fun (x0, x1, x2, x3, x4, x5, x6, x7) => some ⟨x0, x1, x2, x3, x4, x5, x6, x7⟩) (fun x => by cases x; rfl)

instance instEncodableResponsePermission : Encodable jwt.ResponsePermission :=
  Encodable.ofLeftInjection (fun x => (x.MaxMsgs, x.Expires))
    (fun (x0, x1) => some ⟨x0, x1⟩) (fun x => by cases x; rfl)

instance instEncodablePermission : Encodable jwt.Permission :=
  Encodable.ofLeftInjection (fun x => (x.Allow, x.Deny))
    (fun (x0, x1) => some ⟨x0, x1⟩) (fun x => by cases x; rfl)

instance instEncodablePermissions : Encodable jwt.Permissions :=
  Encodable.ofLeftInjection (fun x => (x.Pub, x.Sub, x.Resp))
    (fun (x0, x1, x2) => some ⟨x0, x1, x2⟩) (fun x => by cases x; rfl)

instance instEncodableTimeRange : Encodable jwt.TimeRange :=
  Encodable.ofLeftInjection (fun x => (x.Start, x.End))
    (fun (x0, x1) => some ⟨x0, x1⟩) (fun x => by cases x; rfl)

instance instEncodableUserLimits : Encodable jwt.UserLimits :=
  Encodable.ofLeftInjection (fun x => (x.Src, x.Times, x.Locale))
    (fun (x0, x1, x2) => some ⟨x0, x1, x2⟩) (fun x => by cases x; rfl)

instance instEncodableNatsLimits : Encodable jwt.NatsLimits :=
  Encodable.ofLeftInjection (fun x => (x.Subs, x.Data, x.Payload))
    (fun (x0, x1, x2) => some ⟨x0, x1, x2⟩) (fun x => by cases x; rfl)

instance instEncodableLimits : Encodable jwt.Limits :=
  Encodable.ofLeftInjection (fun x => (x.UserLimits, x.NatsLimits))
    (fun (x0, x1) => some ⟨x0, x1⟩) (fun x => by cases x; rfl)

instance instEncodableUserPermissionLimits : Encodable jwt.UserPermissionLimits :=
  Encodable.ofLeftInjection (fun x => (x.Permissions, x.Limits, x.BearerToken, x.AllowedConnectionTypes))
    (fun (x0, x1, x2, x3) => some ⟨x0, x1, x2, x3⟩) (fun x => by cases x; rfl)

instance instEncodableUser : Encodable jwt.User :=
  Encodable.ofLeftInjection (fun x => (x.UserPermissionLimits, x.IssuerAccount, x.GenericFields))
    (fun (x0, x1, x2) => some ⟨x0, x1, x2⟩) (fun x => by cases x; rfl)

instance instEncodableUserClaims : Encodable jwt.UserClaims :=
  Encodable.ofLeftInjection (fun x => (x.ClaimsData, x.User))
    (fun (x0, x1) => some ⟨x0, x1⟩) (fun x => by cases x; rfl)

instance instEncodableInfo : Encodable jwt.Info :=
  Encodable.ofLeftInjection (fun x => (x.Description, x.InfoURL))
    (fun (x0, x1) => some ⟨x0, x1⟩) (fun x => by cases x; rfl)

instance instEncodableServiceLatency : Encodable jwt.ServiceLatency :=
  Encodable.ofLeftInjection (fun x => (x.Sampling, x.Results))
    (fun (x0, x1) => some ⟨x0, x1⟩) (fun x => by cases x; rfl)

instance instEncodableImport : Encodable jwt.Import :=
  Encodable.ofLeftInjection (fun x => (x.Name, x.Subject, x.Account, x.Token, x.To, x.LocalSubject, x.ImportType, x.Share))
    (fun (x0, x1, x2, x3, x4, x5, x6, x7) => some ⟨x0, x1, x2, x3, x4, x5, x6, x7⟩) (fun x => by cases x; rfl)

instance instEncodableExport : Encodable jwt.Export :=
  Encodable.ofLeftInjection (fun x => (x.Name, x.Subject, x.ExportType, x.TokenReq, x.Revocations, x.ResponseType, x.ResponseThreshold, x.Latency, x.AccountTokenPosition, x.Advertise, x.Info))
    (fun (x0, x1, x2, x3, x4, x5, x6, x7, x8, x9, x10) => some ⟨x0, x1, x2, x3, x4, x5, x6, x7, x8, x9, x10⟩) (fun x => by cases x; rfl)

instance instEncodableAccountLimits : Encodable jwt.AccountLimits :=
  Encodable.ofLeftInjection (fun x => (x.Imports, x.Exports, x.WildcardExports, x.DisallowBearer, x.Conn, x.LeafNodeConn))
    (fun (x0, x1, x2, x3, x4, x5) => some ⟨x0, x1, x2, x3, x4, x5⟩) (fun x => by cases x; rfl)

instance instEncodableJetStreamLimits : Encodable jwt.JetStreamLimits :=
  Encodable.ofLeftInjection (fun x => (x.MemoryStorage, x.DiskStorage, x.Streams, x.Consumer, x.MaxAckPending, x.MemoryMaxStreamBytes, x.DiskMaxStreamBytes, x.MaxBytesRequired))
    (fun (x0, x1, x2, x3, x4, x5, x6, x7) => some ⟨x0, x1, x2, x3, x4, x5, x6, x7⟩) (fun x => by cases x; rfl)

instance instEncodableOperatorLimits : Encodable jwt.OperatorLimits :=
  Encodable.ofLeftInjection (fun x => (x.NatsLimits, x.AccountLimits, x.JetStreamLimits, x.JetStreamTieredLimits))
    (fun (x0, x1, x2, x3) => some ⟨x0, x1, x2, x3⟩) (fun x => by cases x; rfl)

instance instEncodableWeightedMapping : Encodable jwt.WeightedMapping :=
  Encodable.ofLeftInjection (fun x => (x.Subject, x.Weight, x.Cluster))
    (fun (x0, x1, x2) => some ⟨x0, x1, x2⟩) (fun x => by cases x; rfl)

instance instEncodableAccount : Encodable jwt.Account :=
  Encodable.ofLeftInjection (fun x => (x.Imports, x.Exports, x.Limits, x.SigningKeys, x.Revocations, x.DefaultPermissions, x.Mappings, x.Info, x.GenericFields))
    (fun (x0, x1, x2, x3, x4, x5, x6, x7, x8) => some ⟨x0, x1, x2, x3, x4, x5, x6, x7, x8⟩) (fun x => by cases x; rfl)

instance instEncodableAccountClaims : Encodable jwt.AccountClaims :=
  Encodable.ofLeftInjection (fun x => (x.ClaimsData, x.Account))
    (fun (x0, x1) => some ⟨x0, x1⟩) (fun x => by cases x; rfl)

instance instEncodableOperator : Encodable jwt.Operator :=
  Encodable.ofLeftInjection (fun x => (x.SigningKeys, x.AccountServerURL, x.OperatorServiceURLs, x.SystemAccount, x.AssertServerVersion, x.StrictSigningKeyUsage, x.GenericFields))
    (fun (x0, x1, x2, x3, x4, x5, x6) => some ⟨x0, x1, x2, x3, x4, x5, x6⟩) (fun x => by cases x; rfl)

instance instEncodableOperatorClaims : Encodable jwt.OperatorClaims :=
  Encodable.ofLeftInjection (fun x => (x.ClaimsData, x.Operator))
    (fun (x0, x1) => some ⟨x0, x1⟩) (fun x => by cases x; rfl)

/-- Kind named by the letter that opens a public key. -/
def refKindOfLetter : Char → Option KeyKind
  | 'O' => some KeyKind.operator
  | 'N' => some KeyKind.server
  | 'C' => some KeyKind.cluster
  | 'A' => some KeyKind.account
  | 'U' => some KeyKind.user
  | _ => none

/-- Letter that opens a public key of a kind. -/
def refLetterOfKind : KeyKind → Char
  | KeyKind.operator => 'O'
  | KeyKind.server => 'N'
  | KeyKind.cluster => 'C'
  | KeyKind.account => 'A'
  | KeyKind.user => 'U'

/-- Seeds of the reference library: S, a kind letter, a non-empty body. -/
def refDecodeSeed (seed : String) : Except GoError KeyKind :=
  match seed.toList with
  | 'S' :: c :: _ :: _ =>
    match refKindOfLetter c with
    | some k => .ok k
    | none => .error "nkeys: invalid prefix byte"
  | _ => .error "nkeys: invalid encoded key"

/-- Public keys of the reference library: a kind letter and a non-empty body. -/
def refPublicKind (pub : String) : Option KeyKind :=
  match pub.toList with
  | c :: _ :: _ => refKindOfLetter c
  | _ => none

/-- Credential of the reference library: the tag, then `n` dots. -/
@[irreducible]
def refToken (tag : Char) (n : Nat) : String := String.mk (tag :: List.replicate n '.')

/-- Number carried by a credential of the reference library. -/
def refUntoken (tag : Char) (token : String) : Option Nat :=
  match token.toList with
  | c :: rest => if c == tag && rest.all (fun d => d == '.') then some rest.length else none
  | [] => none

/-- Writer of the reference library: the tag, then the claims in unary. -/
@[irreducible]
def refSign (α : Type) [Encodable α] (tag : Char) (a : α) : String :=
  refToken tag (Encodable.encode a)

/-- Parser of the reference library. -/
@[irreducible]
def refParse (α : Type) [Encodable α] (tag : Char) (token : String) : Except GoError α :=
  match refUntoken tag token with
  | some n =>
    match Encodable.decode n with
    | some a => .ok a
    | none => .error "illegal base64 data"
  | none => .error "expected 3 chunks"

/-- Operator claims as the reference library writes them: an empty list of signing keys is
left out. -/
def refJsonOperator (o : jwt.OperatorClaims) : jwt.OperatorClaims :=
  { o with Operator := { o.Operator with SigningKeys := omitEmpty o.Operator.SigningKeys } }

/-- The reference library. -/
def refLib : NatsLib where
  decodeSeed := refDecodeSeed
  publicKey := fun seed => String.mk (seed.toList.drop 1)
  publicKind := refPublicKind
  createPair := fun k rnd => .ok (String.mk ('S' :: refLetterOfKind k :: 'K' :: (toString rnd).toList))
  hash := fun c => c.Subject ++ "#" ++ toString c.IssuedAt
  signAccount := fun a _ => refSign jwt.AccountClaims 'a' a
  parseAccount := refParse jwt.AccountClaims 'a'
  signUser := fun u _ => refSign jwt.UserClaims 'u' u
  parseUser := refParse jwt.UserClaims 'u'
  signOperator := fun o _ => refSign jwt.OperatorClaims 'o' (refJsonOperator o)
  parseOperator := refParse jwt.OperatorClaims 'o'
  sortImports := fun xs => xs.mergeSort (fun a b => decide (a.Subject ≤ b.Subject))

/-! ## Auxiliary definitions for the statements -/

/-- The account claims `AccountClaims.Encode` serialises: issuer, issue time, hash, claim
type and version stamped in. -/
def jwt.AccountClaims.signed (L : NatsLib) (a : jwt.AccountClaims) (pair : KeyPair) (now : Int) :
    jwt.AccountClaims :=
  { ClaimsData :=
      { a.ClaimsData with
        Issuer := pair.PublicKey L, IssuedAt := now
        ID := L.hash { a.ClaimsData with Issuer := pair.PublicKey L, IssuedAt := now, ID := "" } }
    Account := { a.Account with
      GenericFields := { a.Account.GenericFields with
        ClaimType := "account", Version := jwt.libVersion } } }

/-- The user claims `UserClaims.Encode` serialises. -/
def jwt.UserClaims.signed (L : NatsLib) (u : jwt.UserClaims) (pair : KeyPair) (now : Int) :
    jwt.UserClaims :=
  { ClaimsData :=
      { u.ClaimsData with
        Issuer := pair.PublicKey L, IssuedAt := now
        ID := L.hash { u.ClaimsData with Issuer := pair.PublicKey L, IssuedAt := now, ID := "" } }
    User := { u.User with
      GenericFields := { u.User.GenericFields with
        ClaimType := "user", Version := jwt.libVersion } } }

/-- The claims `NatsAccountReconciler.reconcileKey` builds (lines 171 and 172) for the key
pair of `seed`: subject set, issuer still empty. -/
def accountToken (L : NatsLib) (seed : String) (spec : v1alpha1.NatsAccountSpec) :
    jwt.AccountClaims :=
  { ClaimsData := { Subject := L.publicKey seed }, Account := spec.ToJWTAccount }

/-- The claims `NatsUserReconciler.reconcileKey` builds (lines 175 and 176) for the key pair
of `seed`. -/
def userToken (L : NatsLib) (seed : String) (spec : v1alpha1.NatsUserSpec) : jwt.UserClaims :=
  { ClaimsData := { Subject := L.publicKey seed }, User := spec.ToNatsJWT }

/-- Go `secret.Data = map[string][]byte{}` when the map is nil (line 193). -/
def Secret.withData (secret : Secret) : Secret :=
  if secret.Data.isNone then { secret with Data := some [] } else secret

/-- An API server that holds no object and accepts every write. -/
def emptyApi : ApiServer where
  getOperator := fun _ _ _ => .notFound "not found"
  getAccount := fun _ _ _ => .notFound "not found"
  getUser := fun _ _ _ => .notFound "not found"
  getSecret := fun _ _ => .notFound "not found"
  setOwnerReference := none
  write := fun _ => none

/-- The account object after `reconcileSecret` has copied the bundle into its status (lines
151 to 153). -/
def accountWithStatus (account : v1alpha1.NatsAccount) (keySecret : Secret) :
    v1alpha1.NatsAccount :=
  { account with Status := {
      AccountSecretName := keySecret.Name
      PublicKey := keySecret.Data.index OPERATOR_PUBLIC_KEY
      JWT := keySecret.Data.index OPERATOR_JWT } }

/-- The account object once `Encode` has sorted the imports its spec shares with the claims. -/
def accountWithSortedImports (L : NatsLib) (account : v1alpha1.NatsAccount) :
    v1alpha1.NatsAccount :=
  { account with Spec := { account.Spec with Imports := account.Spec.Imports.map L.sortImports } }

/-- The secret `NatsAccountReconciler.reconcileSecret` starts from when none exists (lines
122 to 126). -/
def newAccountSecret (req : Request) (account : v1alpha1.NatsAccount) : Secret :=
  { Namespace := req.Namespace, Name := req.Name, SecretType := "deinstapel.de/nats-account"
    OwnerReferences := [account.ObjectMeta.Name] }

/-- The bundle a key-generating run of `NatsAccountReconciler.reconcileKey` leaves behind:
seed, public key and the credential signed by `signer` at time `now`. -/
def issuedBundle (L : NatsLib) (secret : Secret) (spec : v1alpha1.NatsAccountSpec)
    (seed signer : String) (now : Int) : Secret :=
  ((secret.withData.set OPERATOR_SEED_KEY seed).set OPERATOR_PUBLIC_KEY (L.publicKey seed)).set
    OPERATOR_JWT
    (L.signAccount ((accountToken L seed spec).signed L { seed := signer } now) signer)

/-- Spec 4.2, `needsReissue(newClaims, previousDocument)`, at the Namespace level: decode the
previous document; if decoding fails the answer is true; otherwise it is true exactly when the
claims differ from the newly built ones or the recorded issuer differs from the current
issuer identity. -/
def needsReissue (L : NatsLib) (newClaims : jwt.Account) (currentIssuer : String)
    (previousDocument : String) : Bool :=
  match jwt.DecodeAccountClaims L previousDocument with
  | .error _ => true
  | .ok previous =>
    !jwt.Account.deepEqual newClaims previous.Account
      || previous.ClaimsData.Issuer != currentIssuer

/-- An API server whose secrets all read as `s` and that accepts every write. -/
def secretApi (s : Secret) : ApiServer :=
  { emptyApi with getSecret := fun _ _ => .found s }

/-- An API server that holds a Principal without finalizer and a Namespace that has not
published a bundle name, and accepts every write. -/
def unpublishedApi : ApiServer :=
  { emptyApi with
    getUser := fun _ _ _ => .found {}
    getAccount := fun _ _ _ => .found {} }

/-- An API server that holds a Principal and a Namespace that has published the bundle name
`n1` and allows only the administrative scope `prod`. -/
def deniedApi : ApiServer :=
  { emptyApi with
    getUser := fun _ _ _ => .found {}
    getAccount := fun _ _ _ => .found
      { Spec := { AllowUserNamespaces := some ["prod"] }, Status := { AccountSecretName := "n1" } } }

/-! ## Sample objects of the reference library -/

/-- The bundle of a Root whose seed is `SOK0`. -/
def rootSecret : Secret := { Name := "root", Data := some [("seed.nk", "SOK0")] }

/-- The bundle of a Namespace whose seed is `SAK0`. -/
def namespaceSecret : Secret := { Name := "n1", Data := some [("seed.nk", "SAK0")] }

/-- A request for the object `acc` of the scope `default`. -/
def sampleRequest : Request := { Namespace := "default", Name := "acc" }

/-- Account claims with the body of the empty spec, recorded as issued by `OK0`. -/
def storedClaims : jwt.AccountClaims :=
  { ClaimsData := { Issuer := "OK0", Subject := "AK1" }
    Account := ({} : v1alpha1.NatsAccountSpec).ToJWTAccount }

/-- A Namespace bundle with the seed `SAK1` and a credential that decodes to `storedClaims`. -/
def storedBundle : Secret :=
  { Name := "acc"
    Data := some [("seed.nk", "SAK1"), ("key.pub", "AK1"),
      ("key.jwt", refLib.signAccount storedClaims "SOK0")] }

/-- A Namespace whose published credential is not a credential. -/
def malformedAccount : v1alpha1.NatsAccount :=
  { ObjectMeta := { Namespace := "default", Name := "acc" }
    Status := { AccountSecretName := "acc", PublicKey := "AK1", JWT := "not-a-jwt" } }

/-- A Namespace spec that differs from the empty one in its revocation list. -/
def changedSpec : v1alpha1.NatsAccountSpec := { Revocations := some [("UK1", 5)] }

/-- A Namespace bundle that holds a decodable seed and nothing else. -/
def seedOnlyBundle : Secret := { Name := "acc", Data := some [("seed.nk", "SAK1")] }

/-- The operator claims `OperatorClaims.Encode` serialises. -/
def jwt.OperatorClaims.signed (L : NatsLib) (oc : jwt.OperatorClaims) (pair : KeyPair)
    (now : Int) : jwt.OperatorClaims :=
  { ClaimsData :=
      { oc.ClaimsData with
        Issuer := pair.PublicKey L, IssuedAt := now
        ID := L.hash { oc.ClaimsData with Issuer := pair.PublicKey L, IssuedAt := now, ID := "" } }
    Operator := { oc.Operator with
      GenericFields := { oc.Operator.GenericFields with
        ClaimType := "operator", Version := jwt.libVersion } } }

/-- The claims `NatsOperatorReconciler.reconcileKey` builds (lines 257 and 258) for the key
pair of `seed`. -/
def operatorToken (L : NatsLib) (seed : String) (spec : v1alpha1.NatsOperatorSpec) :
    jwt.OperatorClaims :=
  { ClaimsData := { Subject := L.publicKey seed, Issuer := L.publicKey seed }
    Operator := { SigningKeys := spec.SigningKeys } }

/-- Lines 259 to 269 of `NatsOperatorReconciler.reconcileKey`: the value of
`needsClaimsUpdate`. -/
def NatsOperatorReconciler.needsClaimsUpdate (L : NatsLib) (secret : Secret)
    (spec : v1alpha1.NatsOperatorSpec) : Bool :=
  match secret.Data with
  | none => true
  | some _ =>
    match jwt.DecodeOperatorClaims L (secret.Data.index OPERATOR_JWT) with
    | .ok oldToken => spec.SigningKeys != oldToken.Operator.SigningKeys
    | .error _ => true

/-- The bundle a key-generating run of `NatsOperatorReconciler.reconcileKey` leaves behind. -/
def issuedOperatorBundle (L : NatsLib) (secret : Secret) (spec : v1alpha1.NatsOperatorSpec)
    (seed : String) (now : Int) : Secret :=
  ((secret.withData.set OPERATOR_SEED_KEY seed).set OPERATOR_PUBLIC_KEY (L.publicKey seed)).set
    OPERATOR_JWT
    (L.signOperator ((operatorToken L seed spec).signed L { seed := seed } now) seed)

/-- The operator object after `reconcileSecret` has copied the bundle into its status (lines
237 to 239). -/
def operatorWithStatus (operator : v1alpha1.NatsOperator) (keySecret : Secret) :
    v1alpha1.NatsOperator :=
  { operator with Status := {
      OperatorSecretName := keySecret.Name
      PublicKey := keySecret.Data.index OPERATOR_PUBLIC_KEY
      JWT := keySecret.Data.index OPERATOR_JWT } }

/-- The secret `NatsOperatorReconciler.reconcileSecret` starts from when none exists (lines
208 to 212). -/
def newOperatorSecret (req : Request) (operator : v1alpha1.NatsOperator) : Secret :=
  { Namespace := req.Namespace, Name := req.Name, SecretType := "deinstapel.de/nats-operator"
    OwnerReferences := [operator.ObjectMeta.Name] }

/-- An API server that holds a Namespace without finalizer and a Root that never publishes a
bundle name, and accepts every write. -/
def unpublishedRootApi : ApiServer :=
  { emptyApi with
    getAccount := fun _ _ _ => .found {}
    getOperator := fun _ _ _ => .found {} }

/-- An API server that holds the Root `nats` of the scope `default` and its system account
with an issued credential, and no system user yet; it accepts every write. -/
def systemReadyApi : ApiServer :=
  { emptyApi with
    getOperator := fun _ _ _ => .found { ObjectMeta := { Namespace := "default", Name := "nats" } }
    getAccount := fun _ _ _ => .found
      { ObjectMeta := { Namespace := "default", Name := "nats-system" }
        Status := { AccountSecretName := "nats-system", PublicKey := "AK1", JWT := "issued" } } }

/-- A request for the Root `nats` of the scope `default`. -/
def rootRequest : Request := { Namespace := "default", Name := "nats" }

/-- A Namespace that has published the identity `AK1` and the credential `issued`. -/
def publishedAccount : v1alpha1.NatsAccount :=
  { ObjectMeta := { Namespace := "default", Name := "acc" }
    Status := { AccountSecretName := "acc", PublicKey := "AK1", JWT := "issued" } }

/-- The Namespace `publishedAccount`, marked for deletion. -/
def deletedAccount : v1alpha1.NatsAccount :=
  { publishedAccount with
    ObjectMeta := { Namespace := "default", Name := "acc", DeletionTimestamp := some 1 } }

/-- A Root whose list of auxiliary signing keys is present but empty. -/
def emptyKeysOperator : v1alpha1.NatsOperator :=
  { ObjectMeta := { Namespace := "default", Name := "nats" }
    Spec := { SigningKeys := some [] } }

/-- Whether the bundle has the field `k`. -/
def Secret.has (secret : Secret) (k : String) : Bool :=
  match secret.Data with
  | none => false
  | some d => (assocGet d k).isSome

/-- The Namespace `publishedAccount` after its key material was regenerated: the same
object, now with the identity `AK2` and the credential `reissued`. -/
def rekeyedAccount : v1alpha1.NatsAccount :=
  { publishedAccount with
    Status := { AccountSecretName := "acc", PublicKey := "AK2", JWT := "reissued" } }

/-- A Root without auxiliary signing keys whose status is still empty. -/
def plainOperator : v1alpha1.NatsOperator :=
  { ObjectMeta := { Namespace := "default", Name := "nats" } }

/-- A complete bundle of the Root `plainOperator`: seed `SOK1`, its public key, and the
credential issued for the spec at time 100. -/
def completeRootBundle : Secret :=
  issuedOperatorBundle refLib (newOperatorSecret rootRequest plainOperator) plainOperator.Spec
    "SOK1" 100

theorem refUntoken_refToken (tag : Char) (n : Nat) : refUntoken tag (refToken tag n) = some n := by
  simp [refUntoken, refToken]

theorem refParse_refSign (α : Type) [Encodable α] (tag : Char) (a : α) :
    refParse α tag (refSign α tag a) = .ok a := by
  simp [refParse, refSign, refUntoken_refToken]

theorem refKindOfLetter_letter (k : KeyKind) : refKindOfLetter (refLetterOfKind k) = some k := by
  cases k <;> rfl

theorem refLib_parse_signAccount (a : jwt.AccountClaims) (seed : String) :
    refLib.parseAccount (refLib.signAccount a seed) = .ok a := by
  simp only [refLib]
  exact refParse_refSign jwt.AccountClaims 'a' a

theorem refLib_parse_signUser (u : jwt.UserClaims) (seed : String) :
    refLib.parseUser (refLib.signUser u seed) = .ok u := by
  simp only [refLib]
  exact refParse_refSign jwt.UserClaims 'u' u

theorem refLib_parse_signOperator (o : jwt.OperatorClaims) (seed : String) :
    refLib.parseOperator (refLib.signOperator o seed) = .ok (refJsonOperator o) := by
  simp only [refLib]
  exact refParse_refSign jwt.OperatorClaims 'o' (refJsonOperator o)

theorem refLib_lawful : refLib.Lawful where
  createPair_kind := by
    intro k rnd seed h
    simp only [refLib, Except.ok.injEq] at h
    subst h
    simp [refLib, refDecodeSeed, refKindOfLetter_letter]
  publicKind_publicKey := by
    intro seed k h
    simp only [refLib, refDecodeSeed] at h
    simp only [refLib, refPublicKind]
    split at h
    · rename_i c x rest heq
      simp only [String.toList] at heq
      simp only [String.toList, heq, List.drop_succ_cons, List.drop_zero]
      split at h
      · rename_i k0 hk
        simp only [Except.ok.injEq] at h
        rw [← h, hk]
      · simp at h
    · simp at h
  publicKind_empty := by
    simp [refLib, refPublicKind]
  parse_signAccount := fun a seed _ _ _ h1 h2 =>
    ⟨a, refLib_parse_signAccount a seed, rfl, h1, h2⟩
  parse_signUser := fun u seed _ _ _ h1 h2 =>
    ⟨u, refLib_parse_signUser u seed, rfl, h1, h2⟩
  parse_signOperator := fun o seed _ _ _ h1 h2 =>
    ⟨refJsonOperator o, refLib_parse_signOperator o seed, rfl, h1, h2, rfl⟩

/-! ## Key extraction -/

/-- C3: `extractOrCreateKeys` implements `ensureKeyPair`.  When the bundle has data and its
seed field decodes, the result is exactly the decoded key pair with `wasGenerated = false`,
whatever the generator is (it is not consulted).  When the data is absent or the seed does
not decode, the result is the generator's key pair with `wasGenerated = true`, or the
generator's error.  Hence on success `wasGenerated` holds exactly when the stored seed is
absent or does not decode. -/
theorem extractOrCreateKeys_ensureKeyPair (L : NatsLib) (secret : Secret)
    (generator : Unit → Except GoError KeyPair) :
    (∀ keys, secret.Data ≠ none →
        nkeys.FromSeed L (secret.Data.index OPERATOR_SEED_KEY) = .ok keys →
        ∀ g, extractOrCreateKeys L secret g = .ok (keys, false))
    ∧ ((secret.Data = none ∨ ∃ err, nkeys.FromSeed L (secret.Data.index OPERATOR_SEED_KEY) = .error err) →
        extractOrCreateKeys L secret generator =
          match generator () with
          | .ok createdKeys => .ok (createdKeys, true)
          | .error err => .error err)
    ∧ (∀ keys wasGenerated, extractOrCreateKeys L secret generator = .ok (keys, wasGenerated) →
        (wasGenerated = true ↔
          (secret.Data = none ∨ ∃ err, nkeys.FromSeed L (secret.Data.index OPERATOR_SEED_KEY) = .error err))) := by
  cases hd : secret.Data with
  | none =>
    refine ⟨fun _ h => absurd rfl h, fun _ => ?_, fun keys w h => ?_⟩
    · simp only [extractOrCreateKeys, hd]
      cases generator () <;> rfl
    · simp only [extractOrCreateKeys, hd] at h
      cases hg : generator () with
      | error e => simp [hg] at h
      | ok k => simp [hg] at h; simp [h.2.symm]
  | some d =>
    cases hf : nkeys.FromSeed L (GoMap.index (some d) OPERATOR_SEED_KEY) with
    | ok k =>
      refine ⟨fun keys _ hk g => ?_, fun h => ?_, fun keys w h => ?_⟩
      · simp only [extractOrCreateKeys, hd, hf]
        simp only [Except.ok.injEq] at hk
        rw [hk]
      · rcases h with h | ⟨e, h⟩ <;> simp at h
      · simp only [extractOrCreateKeys, hd, hf, Except.ok.injEq, Prod.mk.injEq] at h
        simp [h.2.symm]
    | error e =>
      refine ⟨fun keys _ hk g => by simp at hk, fun _ => ?_, fun keys w h => ?_⟩
      · simp only [extractOrCreateKeys, hd, hf]
        cases generator () <;> rfl
      · simp only [extractOrCreateKeys, hd, hf] at h
        cases hg : generator () with
        | error e => simp [hg] at h
        | ok k => simp [hg] at h; simp [h.2.symm]

/-! ## Bundle fields -/

theorem assocGet_assocSet_same {V : Type} (m : List (String × V)) (k : String) (v : V) :
    assocGet (assocSet m k v) k = some v := by
  induction m with
  | nil => simp [assocSet, assocGet]
  | cons p m ih =>
    obtain ⟨k1, v1⟩ := p
    by_cases h : k1 = k
    · simp [assocSet, assocGet, h]
    · have ih1 := ih
      simp only [assocGet] at ih1
      simp [assocSet, assocGet, h, ih1]

theorem assocGet_assocSet_other {V : Type} (m : List (String × V)) (k k2 : String) (v : V)
    (hne : k ≠ k2) : assocGet (assocSet m k v) k2 = assocGet m k2 := by
  induction m with
  | nil => simp [assocSet, assocGet, hne]
  | cons p m ih =>
    obtain ⟨k1, v1⟩ := p
    have ih1 := ih
    simp only [assocGet] at ih1
    by_cases h : k1 = k
    · subst h
      simp [assocSet, assocGet, hne]
    · by_cases h2 : k1 = k2
      · subst h2
        have hk : ¬ k = k1 := fun e => h e.symm
        simp [assocSet, assocGet, hk, h]
      · simp [assocSet, assocGet, h, h2, ih1]

theorem index_set_same (secret : Secret) (k v : String) :
    (secret.set k v).Data.index k = v := by
  simp [Secret.set, GoMap.index, assocGet_assocSet_same]

theorem index_set_other (secret : Secret) (k k2 v : String) (hne : k ≠ k2) :
    (secret.set k v).Data.index k2 = secret.Data.index k2 := by
  cases hd : secret.Data with
  | none =>
    simp [Secret.set, GoMap.index, hd, assocSet, assocGet, hne]
  | some d => simp [Secret.set, GoMap.index, hd, assocGet_assocSet_other _ _ _ _ hne]

theorem set_data_ne_none (secret : Secret) (k v : String) : (secret.set k v).Data ≠ none := by
  simp [Secret.set]

theorem seed_ne_public : OPERATOR_SEED_KEY ≠ OPERATOR_PUBLIC_KEY := by decide

theorem seed_ne_jwt : OPERATOR_SEED_KEY ≠ OPERATOR_JWT := by decide

theorem public_ne_jwt : OPERATOR_PUBLIC_KEY ≠ OPERATOR_JWT := by decide

/-! ## Consequences of the library properties -/

theorem NatsLib.Lawful.publicKey_ne_empty {L : NatsLib} (hL : L.Lawful) {seed : String}
    {k : KeyKind} (hk : L.decodeSeed seed = .ok k) : L.publicKey seed ≠ "" := by
  intro h
  have h1 := hL.publicKind_publicKey seed k hk
  rw [h, hL.publicKind_empty] at h1
  exact absurd h1 (by simp)

theorem fromSeed_ok {L : NatsLib} {seed : String} {k : KeyKind} (hk : L.decodeSeed seed = .ok k) :
    nkeys.FromSeed L seed = .ok { seed := seed } := by
  simp [nkeys.FromSeed, hk]

theorem fromSeed_ok_inv {L : NatsLib} {seed : String} {kp : KeyPair}
    (h : nkeys.FromSeed L seed = .ok kp) : kp.seed = seed ∧ ∃ k, L.decodeSeed seed = .ok k := by
  unfold nkeys.FromSeed at h
  cases hd : L.decodeSeed seed with
  | ok k => rw [hd] at h; simp only [Except.ok.injEq] at h; exact ⟨by rw [← h], k, rfl⟩
  | error e => rw [hd] at h; simp at h

theorem fromSeed_error {L : NatsLib} {seed : String} {e : GoError}
    (hk : L.decodeSeed seed = .error e) : nkeys.FromSeed L seed = .error e := by
  simp [nkeys.FromSeed, hk]

/-! ## Signing failure -/

theorem account_reconcileKey_signer_error (L : NatsLib) (rnd : Nat) (now : Int) (secret : Secret)
    (account : v1alpha1.NatsAccount) (signer : String) (e : GoError)
    (hs : L.decodeSeed signer = .error e) :
    ∃ err, NatsAccountReconciler.reconcileKey L rnd now secret account signer
      = (secret, .error err) := by
  unfold NatsAccountReconciler.reconcileKey
  cases extractOrCreateKeys L secret (fun _ => nkeys.CreateAccount L rnd) with
  | error err => exact ⟨err, rfl⟩
  | ok p =>
    obtain ⟨keys, nk⟩ := p
    simp only []
    cases jwt.NewAccountClaims (keys.PublicKey L) with
    | none => exact ⟨_, rfl⟩
    | some token0 =>
      simp only [fromSeed_error hs]
      exact ⟨_, rfl⟩

theorem account_reconcileKeyAccount_signer_error (L : NatsLib) (rnd : Nat) (secret : Secret)
    (account : v1alpha1.NatsAccount) (signer : String) (e : GoError)
    (hs : L.decodeSeed signer = .error e) :
    NatsAccountReconciler.reconcileKeyAccount L rnd secret account signer = account := by
  unfold NatsAccountReconciler.reconcileKeyAccount
  cases extractOrCreateKeys L secret (fun _ => nkeys.CreateAccount L rnd) with
  | error err => rfl
  | ok p =>
    obtain ⟨keys, nk⟩ := p
    simp only []
    cases jwt.NewAccountClaims (keys.PublicKey L) with
    | none => rfl
    | some token0 => simp only [fromSeed_error hs]

/-- C8: signing failure is surfaced and atomic.  When the parent's signing seed does not
decode, `NatsAccountReconciler.reconcileKey` returns an error and leaves the secret exactly
as it was on entry, for every secret and spec; `reconcileSecret` then sends no write, leaves
the account object untouched and returns an error, which is the error of `reconcileKey`
whenever the bundle was read (found, or not found and given its owner). -/
theorem signing_failure_atomic (L : NatsLib) (api : ApiServer) (rnd : Nat) (now : Int)
    (req : Request) (account : v1alpha1.NatsAccount) (signerSecret secret : Secret) (e : GoError)
    (hs : L.decodeSeed (signerSecret.Data.index OPERATOR_SEED_KEY) = .error e) :
    (∃ err, NatsAccountReconciler.reconcileKey L rnd now secret account
        (signerSecret.Data.index OPERATOR_SEED_KEY) = (secret, .error err))
    ∧ (NatsAccountReconciler.reconcileSecret L api rnd now req account signerSecret).writes = []
    ∧ (NatsAccountReconciler.reconcileSecret L api rnd now req account signerSecret).owner = account
    ∧ (NatsAccountReconciler.reconcileSecret L api rnd now req account signerSecret).err ≠ none
    ∧ (∀ obj, api.getSecret req.Namespace req.Name = .found obj →
        ∃ err, NatsAccountReconciler.reconcileKey L rnd now obj account
            (signerSecret.Data.index OPERATOR_SEED_KEY) = (obj, .error err)
          ∧ (NatsAccountReconciler.reconcileSecret L api rnd now req account signerSecret).err
              = some err)
    ∧ (∀ nf, api.getSecret req.Namespace req.Name = .notFound nf → api.setOwnerReference = none →
        ∃ err, (NatsAccountReconciler.reconcileKey L rnd now
            { Namespace := req.Namespace, Name := req.Name,
              SecretType := "deinstapel.de/nats-account",
              OwnerReferences := [account.ObjectMeta.Name] } account
            (signerSecret.Data.index OPERATOR_SEED_KEY)).2 = .error err
          ∧ (NatsAccountReconciler.reconcileSecret L api rnd now req account signerSecret).err
              = some err) := by
  refine ⟨account_reconcileKey_signer_error L rnd now secret account _ e hs, ?_⟩
  have key := fun s => account_reconcileKey_signer_error L rnd now s account _ e hs
  have hacc := fun s => account_reconcileKeyAccount_signer_error L rnd s account _ e hs
  unfold NatsAccountReconciler.reconcileSecret
  cases hg : api.getSecret req.Namespace req.Name with
  | found obj =>
    obtain ⟨err, herr⟩ := key obj
    simp only [herr, hacc]
    refine ⟨by trivial, by trivial, by simp, fun obj2 h2 => ?_, fun nf h2 => by simp at h2⟩
    simp only [GetResult.found.injEq] at h2
    subst h2
    exact ⟨err, herr, rfl⟩
  | failed err =>
    simp only []
    exact ⟨by trivial, by trivial, by simp, fun obj2 h2 => by simp at h2,
      fun nf h2 => by simp at h2⟩
  | notFound nf =>
    cases ho : api.setOwnerReference with
    | some err =>
      simp only []
      exact ⟨by trivial, by trivial, by simp, fun obj2 h2 => by simp at h2,
        fun nf h2 h3 => by simp at h3⟩
    | none =>
      obtain ⟨err, herr⟩ := key (Secret.mk req.Namespace req.Name "deinstapel.de/nats-account"
        [account.ObjectMeta.Name] none)
      simp only [herr, hacc]
      exact ⟨by trivial, by trivial, by simp, fun obj2 h2 => by simp at h2,
        fun nf h2 h3 => ⟨err, rfl, rfl⟩⟩

/-! ## Encoding and decoding under the library properties -/

theorem account_encode_ok {L : NatsLib} (hL : L.Lawful) (a : jwt.AccountClaims) (pair : KeyPair)
    (now : Int) (k : KeyKind)
    (hsub : L.publicKind a.ClaimsData.Subject = some KeyKind.account)
    (hk : L.decodeSeed pair.seed = .ok k) (hkind : k = KeyKind.account ∨ k = KeyKind.operator) :
    a.Encode L pair now = .ok (L.signAccount (a.signed L pair now) pair.seed) := by
  have hne : a.ClaimsData.Subject ≠ "" := by
    intro h
    rw [h, hL.publicKind_empty] at hsub
    exact absurd hsub (by simp)
  have hp := hL.publicKind_publicKey pair.seed k hk
  rcases hkind with h | h <;> subst h <;>
    simp [jwt.AccountClaims.Encode, jwt.doEncode, hsub, hne, KeyPair.PublicKey, hp,
      jwt.AccountClaims.signed]

theorem account_decode_signed {L : NatsLib} (hL : L.Lawful) (a : jwt.AccountClaims)
    (pair : KeyPair) (now : Int) (k : KeyKind) (hk : L.decodeSeed pair.seed = .ok k) :
    ∃ old, jwt.DecodeAccountClaims L (L.signAccount (a.signed L pair now) pair.seed) = .ok old
      ∧ old.ClaimsData = (a.signed L pair now).ClaimsData
      ∧ old.Account.GenericFields.ClaimType = "account"
      ∧ old.Account.GenericFields.Version = jwt.libVersion :=
  hL.parse_signAccount (a.signed L pair now) pair.seed k hk rfl rfl rfl

theorem user_decode_signed {L : NatsLib} (hL : L.Lawful) (u : jwt.UserClaims)
    (pair : KeyPair) (now : Int) (k : KeyKind) (hk : L.decodeSeed pair.seed = .ok k) :
    ∃ old, jwt.DecodeUserClaims L (L.signUser (u.signed L pair now) pair.seed) = .ok old
      ∧ old.ClaimsData = (u.signed L pair now).ClaimsData
      ∧ old.User.GenericFields.ClaimType = "user"
      ∧ old.User.GenericFields.Version = jwt.libVersion :=
  hL.parse_signUser (u.signed L pair now) pair.seed k hk rfl rfl rfl

theorem user_encode_subject_error (L : NatsLib) (u : jwt.UserClaims) (pair : KeyPair) (now : Int)
    (k : KeyKind) (hsub : L.publicKind u.ClaimsData.Subject = some k) (hk : k ≠ KeyKind.user) :
    u.Encode L pair now = .error "expected subject to be user public key" := by
  simp [jwt.UserClaims.Encode, hsub, hk]

/-! ## The shape of `reconcileKey` once keys and signer are known -/

theorem extract_generated (L : NatsLib) (secret : Secret) (kind : KeyKind) (rnd : Nat)
    (seed : String)
    (hd : secret.Data = none ∨ ∃ e, L.decodeSeed (secret.Data.index OPERATOR_SEED_KEY) = .error e)
    (hg : L.createPair kind rnd = .ok seed) :
    extractOrCreateKeys L secret (fun _ => nkeys.CreatePair L kind rnd)
      = .ok ({ seed := seed }, true) := by
  rcases hd with hd | ⟨e, he⟩
  · simp [extractOrCreateKeys, hd, nkeys.CreatePair, hg]
  · cases hd : secret.Data with
    | none => simp [extractOrCreateKeys, hd, nkeys.CreatePair, hg]
    | some d =>
      rw [hd] at he
      simp [extractOrCreateKeys, hd, nkeys.CreatePair, hg, fromSeed_error he]

theorem extract_existing (L : NatsLib) (secret : Secret)
    (generator : Unit → Except GoError KeyPair) (k : KeyKind)
    (hd : secret.Data ≠ none)
    (hk : L.decodeSeed (secret.Data.index OPERATOR_SEED_KEY) = .ok k) :
    extractOrCreateKeys L secret generator
      = .ok ({ seed := secret.Data.index OPERATOR_SEED_KEY }, false) := by
  cases hs : secret.Data with
  | none => exact absurd hs hd
  | some d =>
    rw [hs] at hk
    simp [extractOrCreateKeys, hs, fromSeed_ok hk]

theorem account_reconcileKey_of_keys {L : NatsLib} (hL : L.Lawful) (rnd : Nat) (now : Int)
    (secret : Secret) (account : v1alpha1.NatsAccount) (signer seed : String) (nk : Bool)
    (k : KeyKind)
    (hx : extractOrCreateKeys L secret (fun _ => nkeys.CreateAccount L rnd)
      = .ok ({ seed := seed }, nk))
    (hseed : L.decodeSeed seed = .ok KeyKind.account)
    (hs : L.decodeSeed signer = .ok k) (hkind : k = KeyKind.account ∨ k = KeyKind.operator) :
    NatsAccountReconciler.reconcileKey L rnd now secret account signer =
      if nk || NatsAccountReconciler.needsClaimsUpdate L secret (accountToken L seed account.Spec)
      then
        ((if nk then (secret.withData.set OPERATOR_SEED_KEY seed).set OPERATOR_PUBLIC_KEY
              (L.publicKey seed) else secret.withData).set OPERATOR_JWT
            (L.signAccount ((accountToken L seed account.Spec).signed L { seed := signer } now)
              signer), .ok true)
      else
        (if nk then (secret.withData.set OPERATOR_SEED_KEY seed).set OPERATOR_PUBLIC_KEY
              (L.publicKey seed) else secret.withData, .ok false) := by
  have hpub : L.publicKey seed ≠ "" := hL.publicKey_ne_empty hseed
  have henc := account_encode_ok hL (accountToken L seed account.Spec) { seed := signer } now k
    (hL.publicKind_publicKey seed _ hseed) hs hkind
  unfold NatsAccountReconciler.reconcileKey
  rw [hx]
  simp only [KeyPair.PublicKey, KeyPair.Seed, jwt.NewAccountClaims, hpub, beq_iff_eq, if_false,
    fromSeed_ok hs]
  simp only [accountToken] at henc ⊢
  rw [henc]
  simp only [Secret.withData]
  split <;> simp_all

theorem account_reconcileKeyAccount_of_keys {L : NatsLib} (hL : L.Lawful) (rnd : Nat)
    (secret : Secret) (account : v1alpha1.NatsAccount) (signer seed : String) (nk : Bool)
    (k : KeyKind)
    (hx : extractOrCreateKeys L secret (fun _ => nkeys.CreateAccount L rnd)
      = .ok ({ seed := seed }, nk))
    (hseed : L.decodeSeed seed = .ok KeyKind.account)
    (hs : L.decodeSeed signer = .ok k) :
    NatsAccountReconciler.reconcileKeyAccount L rnd secret account signer =
      if nk || NatsAccountReconciler.needsClaimsUpdate L secret (accountToken L seed account.Spec)
      then accountWithSortedImports L account
      else account := by
  have hpub : L.publicKey seed ≠ "" := hL.publicKey_ne_empty hseed
  have hkind := hL.publicKind_publicKey seed _ hseed
  unfold NatsAccountReconciler.reconcileKeyAccount
  rw [hx]
  simp only [KeyPair.PublicKey, jwt.NewAccountClaims, hpub, beq_iff_eq, if_false,
    fromSeed_ok hs]
  simp only [accountToken]
  split
  · simp [jwt.AccountClaims.importsAfterEncode, hkind, accountWithSortedImports,
      v1alpha1.NatsAccountSpec.ToJWTAccount]
  · rfl

theorem needsClaimsUpdate_of_issuer (L : NatsLib) (secret : Secret) (seed : String)
    (spec : v1alpha1.NatsAccountSpec) (old : jwt.AccountClaims)
    (hd : secret.Data ≠ none)
    (hdec : jwt.DecodeAccountClaims L (secret.Data.index OPERATOR_JWT) = .ok old)
    (hiss : old.ClaimsData.Issuer ≠ "") :
    NatsAccountReconciler.needsClaimsUpdate L secret (accountToken L seed spec) = true := by
  cases hs : secret.Data with
  | none => exact absurd hs hd
  | some d =>
    rw [hs] at hdec
    simp [NatsAccountReconciler.needsClaimsUpdate, hs, hdec, accountToken, hiss]

theorem needsClaimsUpdate_of_signed {L : NatsLib} (hL : L.Lawful) (secret : Secret)
    (seed signer : String) (spec : v1alpha1.NatsAccountSpec) (a : jwt.AccountClaims) (now : Int)
    (k : KeyKind) (hd : secret.Data ≠ none) (hs : L.decodeSeed signer = .ok k)
    (hjwt : secret.Data.index OPERATOR_JWT
      = L.signAccount (a.signed L { seed := signer } now) signer) :
    NatsAccountReconciler.needsClaimsUpdate L secret (accountToken L seed spec) = true := by
  obtain ⟨old, hdec, hc, _, _⟩ := account_decode_signed hL a { seed := signer } now k hs
  refine needsClaimsUpdate_of_issuer L secret seed spec old hd (by rw [hjwt]; exact hdec) ?_
  rw [hc]
  exact hL.publicKey_ne_empty hs

theorem account_reconcileSecret_found (L : NatsLib) (api : ApiServer) (rnd : Nat) (now : Int)
    (req : Request) (account account0 : v1alpha1.NatsAccount)
    (signerSecret obj keySecret : Secret)
    (hget : api.getSecret req.Namespace req.Name = .found obj)
    (hkey : NatsAccountReconciler.reconcileKey L rnd now obj account
      (signerSecret.Data.index OPERATOR_SEED_KEY) = (keySecret, .ok true))
    (hacc : NatsAccountReconciler.reconcileKeyAccount L rnd obj account
      (signerSecret.Data.index OPERATOR_SEED_KEY) = account0)
    (hw : ∀ w, api.write w = none) :
    NatsAccountReconciler.reconcileSecret L api rnd now req account signerSecret =
      { writes := [Write.updateSecret keySecret,
          Write.updateAccountStatus (accountWithStatus account0 keySecret)]
        owner := accountWithStatus account0 keySecret
        secret := keySecret
        err := none } := by
  simp [NatsAccountReconciler.reconcileSecret, hget, hkey, hacc, hw, accountWithStatus]

theorem account_reconcileSecret_notFound (L : NatsLib) (api : ApiServer) (rnd : Nat) (now : Int)
    (req : Request) (account account0 : v1alpha1.NatsAccount) (signerSecret keySecret : Secret)
    (nf : GoError) (hasChanges : Bool)
    (hget : api.getSecret req.Namespace req.Name = .notFound nf)
    (ho : api.setOwnerReference = none)
    (hkey : NatsAccountReconciler.reconcileKey L rnd now (newAccountSecret req account) account
      (signerSecret.Data.index OPERATOR_SEED_KEY) = (keySecret, .ok hasChanges))
    (hacc : NatsAccountReconciler.reconcileKeyAccount L rnd (newAccountSecret req account)
      account (signerSecret.Data.index OPERATOR_SEED_KEY) = account0)
    (hw : ∀ w, api.write w = none) :
    NatsAccountReconciler.reconcileSecret L api rnd now req account signerSecret =
      { writes := [Write.createSecret keySecret,
          Write.updateAccountStatus (accountWithStatus account0 keySecret)]
        owner := accountWithStatus account0 keySecret
        secret := keySecret
        err := none } := by
  simp only [newAccountSecret] at hkey hacc
  simp [NatsAccountReconciler.reconcileSecret, hget, ho, hkey, hacc, hw, accountWithStatus]

/-! ## Two runs over the same Namespace -/

theorem issuedBundle_seed (L : NatsLib) (secret : Secret) (spec : v1alpha1.NatsAccountSpec)
    (seed signer : String) (now : Int) :
    (issuedBundle L secret spec seed signer now).Data.index OPERATOR_SEED_KEY = seed := by
  unfold issuedBundle
  rw [index_set_other _ _ _ _ (Ne.symm seed_ne_jwt), index_set_other _ _ _ _ (Ne.symm seed_ne_public),
    index_set_same]

theorem issuedBundle_public (L : NatsLib) (secret : Secret) (spec : v1alpha1.NatsAccountSpec)
    (seed signer : String) (now : Int) :
    (issuedBundle L secret spec seed signer now).Data.index OPERATOR_PUBLIC_KEY
      = L.publicKey seed := by
  unfold issuedBundle
  rw [index_set_other _ _ _ _ (Ne.symm public_ne_jwt), index_set_same]

theorem issuedBundle_jwt (L : NatsLib) (secret : Secret) (spec : v1alpha1.NatsAccountSpec)
    (seed signer : String) (now : Int) :
    (issuedBundle L secret spec seed signer now).Data.index OPERATOR_JWT
      = L.signAccount ((accountToken L seed spec).signed L { seed := signer } now) signer := by
  unfold issuedBundle
  rw [index_set_same]

theorem issuedBundle_data (L : NatsLib) (secret : Secret) (spec : v1alpha1.NatsAccountSpec)
    (seed signer : String) (now : Int) :
    (issuedBundle L secret spec seed signer now).Data ≠ none :=
  set_data_ne_none _ _ _

theorem withData_of_data {secret : Secret} (hd : secret.Data ≠ none) : secret.withData = secret := by
  cases hs : secret.Data with
  | none => exact absurd hs hd
  | some d => simp [Secret.withData, hs]

theorem account_reconcileKey_generating {L : NatsLib} (hL : L.Lawful) (rnd : Nat) (now : Int)
    (secret : Secret) (account : v1alpha1.NatsAccount) (signer seed : String) (k : KeyKind)
    (hd : secret.Data = none ∨ ∃ e, L.decodeSeed (secret.Data.index OPERATOR_SEED_KEY) = .error e)
    (hg : L.createPair KeyKind.account rnd = .ok seed)
    (hs : L.decodeSeed signer = .ok k) (hkind : k = KeyKind.account ∨ k = KeyKind.operator) :
    NatsAccountReconciler.reconcileKey L rnd now secret account signer
      = (issuedBundle L secret account.Spec seed signer now, .ok true) := by
  have hx := extract_generated L secret KeyKind.account rnd seed hd hg
  have h := account_reconcileKey_of_keys hL rnd now secret account signer seed true k hx
    (hL.createPair_kind _ _ _ hg) hs hkind
  rw [h]
  simp [issuedBundle]

theorem account_reconcileKey_reissuing {L : NatsLib} (hL : L.Lawful) (rnd : Nat) (now : Int)
    (secret : Secret) (account : v1alpha1.NatsAccount) (signer : String) (k : KeyKind)
    (hd : secret.Data ≠ none)
    (hseed : L.decodeSeed (secret.Data.index OPERATOR_SEED_KEY) = .ok KeyKind.account)
    (hs : L.decodeSeed signer = .ok k) (hkind : k = KeyKind.account ∨ k = KeyKind.operator)
    (hn : NatsAccountReconciler.needsClaimsUpdate L secret
      (accountToken L (secret.Data.index OPERATOR_SEED_KEY) account.Spec) = true) :
    NatsAccountReconciler.reconcileKey L rnd now secret account signer
      = (secret.set OPERATOR_JWT
          (L.signAccount ((accountToken L (secret.Data.index OPERATOR_SEED_KEY)
            account.Spec).signed L { seed := signer } now) signer), .ok true) := by
  have hx := extract_existing L secret (fun _ => nkeys.CreateAccount L rnd) _ hd hseed
  have h := account_reconcileKey_of_keys hL rnd now secret account signer _ false k hx hseed hs hkind
  rw [h]
  simp [hn, withData_of_data hd]

theorem account_reconcileKeyAccount_generating {L : NatsLib} (hL : L.Lawful) (rnd : Nat)
    (secret : Secret) (account : v1alpha1.NatsAccount) (signer seed : String) (k : KeyKind)
    (hd : secret.Data = none ∨ ∃ e, L.decodeSeed (secret.Data.index OPERATOR_SEED_KEY) = .error e)
    (hg : L.createPair KeyKind.account rnd = .ok seed)
    (hs : L.decodeSeed signer = .ok k) :
    NatsAccountReconciler.reconcileKeyAccount L rnd secret account signer
      = accountWithSortedImports L account := by
  have hx := extract_generated L secret KeyKind.account rnd seed hd hg
  have h := account_reconcileKeyAccount_of_keys hL rnd secret account signer seed true k hx
    (hL.createPair_kind _ _ _ hg) hs
  rw [h]
  simp

theorem account_reconcileKeyAccount_reissuing {L : NatsLib} (hL : L.Lawful) (rnd : Nat)
    (secret : Secret) (account : v1alpha1.NatsAccount) (signer : String) (k : KeyKind)
    (hd : secret.Data ≠ none)
    (hseed : L.decodeSeed (secret.Data.index OPERATOR_SEED_KEY) = .ok KeyKind.account)
    (hs : L.decodeSeed signer = .ok k)
    (hn : NatsAccountReconciler.needsClaimsUpdate L secret
      (accountToken L (secret.Data.index OPERATOR_SEED_KEY) account.Spec) = true) :
    NatsAccountReconciler.reconcileKeyAccount L rnd secret account signer
      = accountWithSortedImports L account := by
  have hx := extract_existing L secret (fun _ => nkeys.CreateAccount L rnd) _ hd hseed
  have h := account_reconcileKeyAccount_of_keys hL rnd secret account signer _ false k hx hseed hs
  rw [h]
  simp [hn]

/-- C1 (what the code does): a second run of `NatsAccountReconciler.reconcileSecret` over the
bundle persisted by the first run, with the same spec and the same valid parent seed, is not
a no-op.  The first run creates the bundle and publishes the status; its `Encode` sorts the
imports of the object it holds, so the second run is given the object with the spec as it
was.  In the second run `reconcileKey` returns `hasChanges = true` and the run sends an
Update of the bundle and an Update of the status.  The recorded issuer is compared with the
issuer field of the freshly built claims, which is still empty. -/
theorem account_second_run_rewrites (L : NatsLib) (hL : L.Lawful) (api1 api2 : ApiServer)
    (rnd1 rnd2 : Nat) (now1 now2 : Int) (req : Request) (account : v1alpha1.NatsAccount)
    (signerSecret : Secret) (seed nf : String) (k : KeyKind)
    (hg : L.createPair KeyKind.account rnd1 = .ok seed)
    (hs : L.decodeSeed (signerSecret.Data.index OPERATOR_SEED_KEY) = .ok k)
    (hkind : k = KeyKind.account ∨ k = KeyKind.operator)
    (hget1 : api1.getSecret req.Namespace req.Name = .notFound nf)
    (ho : api1.setOwnerReference = none) (hw1 : ∀ w, api1.write w = none)
    (hget2 : api2.getSecret req.Namespace req.Name = .found
      (NatsAccountReconciler.reconcileSecret L api1 rnd1 now1 req account signerSecret).secret)
    (hw2 : ∀ w, api2.write w = none) :
    let run1 := NatsAccountReconciler.reconcileSecret L api1 rnd1 now1 req account signerSecret
    let stored : v1alpha1.NatsAccount := { run1.owner with Spec := account.Spec }
    let run2 := NatsAccountReconciler.reconcileSecret L api2 rnd2 now2 req stored signerSecret
    run1.err = none
    ∧ run1.writes = [Write.createSecret run1.secret, Write.updateAccountStatus run1.owner]
    ∧ run1.owner.Spec
        = { account.Spec with Imports := account.Spec.Imports.map L.sortImports }
    ∧ (NatsAccountReconciler.reconcileKey L rnd2 now2 run1.secret stored
        (signerSecret.Data.index OPERATOR_SEED_KEY)).2 = .ok true
    ∧ run2.err = none
    ∧ run2.writes = [Write.updateSecret run2.secret, Write.updateAccountStatus run2.owner] := by
  have hk1 := account_reconcileKey_generating hL rnd1 now1 (newAccountSecret req account) account
    (signerSecret.Data.index OPERATOR_SEED_KEY) seed k (Or.inl rfl) hg hs hkind
  have ha1 := account_reconcileKeyAccount_generating hL rnd1 (newAccountSecret req account)
    account (signerSecret.Data.index OPERATOR_SEED_KEY) seed k (Or.inl rfl) hg hs
  have hr1 := account_reconcileSecret_notFound L api1 rnd1 now1 req account _ signerSecret _ nf
    true hget1 ho hk1 ha1 hw1
  rw [hr1] at hget2
  simp only at hget2
  have hseed := hL.createPair_kind _ _ _ hg
  have hn2 := needsClaimsUpdate_of_signed hL
    (issuedBundle L (newAccountSecret req account) account.Spec seed
      (signerSecret.Data.index OPERATOR_SEED_KEY) now1)
    ((issuedBundle L (newAccountSecret req account) account.Spec seed
      (signerSecret.Data.index OPERATOR_SEED_KEY) now1).Data.index OPERATOR_SEED_KEY)
    (signerSecret.Data.index OPERATOR_SEED_KEY) account.Spec _ now1 k
    (issuedBundle_data _ _ _ _ _ _) hs (issuedBundle_jwt _ _ _ _ _ _)
  have hk2 := account_reconcileKey_reissuing hL rnd2 now2
    (issuedBundle L (newAccountSecret req account) account.Spec seed
      (signerSecret.Data.index OPERATOR_SEED_KEY) now1)
    { accountWithStatus (accountWithSortedImports L account)
        (issuedBundle L (newAccountSecret req account) account.Spec seed
          (signerSecret.Data.index OPERATOR_SEED_KEY) now1) with Spec := account.Spec }
    (signerSecret.Data.index OPERATOR_SEED_KEY) k (issuedBundle_data _ _ _ _ _ _)
    (by rw [issuedBundle_seed]; exact hseed) hs hkind hn2
  have ha2 := account_reconcileKeyAccount_reissuing hL rnd2
    (issuedBundle L (newAccountSecret req account) account.Spec seed
      (signerSecret.Data.index OPERATOR_SEED_KEY) now1)
    { accountWithStatus (accountWithSortedImports L account)
        (issuedBundle L (newAccountSecret req account) account.Spec seed
          (signerSecret.Data.index OPERATOR_SEED_KEY) now1) with Spec := account.Spec }
    (signerSecret.Data.index OPERATOR_SEED_KEY) k (issuedBundle_data _ _ _ _ _ _)
    (by rw [issuedBundle_seed]; exact hseed) hs hn2
  have hr2 := account_reconcileSecret_found L api2 rnd2 now2 req _ _ signerSecret _ _ hget2 hk2
    ha2 hw2
  simp only [hr1]
  simp only [hr2, hk2]
  exact ⟨trivial, trivial, rfl, trivial, trivial, trivial⟩

/-! ## The reissue decision -/

/-- C2: the reissue decision of the Namespace-level `reconcileKey` equals the specified
`needsReissue`, for every bundle whose data is present and whose stored credential, when it
decodes, carries the claim type `account` (`jwt.DecodeAccountClaims` returns no other
credential: the decoder dispatches on the claim type).  The decision is true when the stored
credential fails to decode; otherwise it is true exactly when the body built from the spec
differs from the decoded body or the recorded issuer differs from the public key of the
parent's signing seed.  On such a bundle the bodies always differ, because `ToJWTAccount`
leaves the claim type empty, so the test of the recorded issuer against the still-empty
issuer of the fresh claims never decides the outcome. -/
theorem needsClaimsUpdate_eq_needsReissue (L : NatsLib) (secret : Secret) (seed signer : String)
    (spec : v1alpha1.NatsAccountSpec)
    (hd : secret.Data ≠ none)
    (htype : ∀ old, jwt.DecodeAccountClaims L (secret.Data.index OPERATOR_JWT) = .ok old →
      old.Account.GenericFields.ClaimType = "account") :
    NatsAccountReconciler.needsClaimsUpdate L secret (accountToken L seed spec)
        = needsReissue L (accountToken L seed spec).Account (L.publicKey signer)
            (secret.Data.index OPERATOR_JWT)
    ∧ (∀ e, jwt.DecodeAccountClaims L (secret.Data.index OPERATOR_JWT) = .error e →
        NatsAccountReconciler.needsClaimsUpdate L secret (accountToken L seed spec) = true)
    ∧ (∀ old, jwt.DecodeAccountClaims L (secret.Data.index OPERATOR_JWT) = .ok old →
        (NatsAccountReconciler.needsClaimsUpdate L secret (accountToken L seed spec) = true
          ↔ (jwt.Account.deepEqual spec.ToJWTAccount old.Account = false
              ∨ old.ClaimsData.Issuer ≠ L.publicKey signer))) := by
  cases hs : secret.Data with
  | none => exact absurd hs hd
  | some d =>
    rw [hs] at htype
    cases hdec : jwt.DecodeAccountClaims L (GoMap.index (some d) OPERATOR_JWT) with
    | error e =>
      refine ⟨?_, fun _ _ => ?_, fun old h => by simp at h⟩
      · simp [NatsAccountReconciler.needsClaimsUpdate, needsReissue, hs, hdec]
      · simp [NatsAccountReconciler.needsClaimsUpdate, hs, hdec]
    | ok old =>
      have hg : (spec.ToJWTAccount.GenericFields == old.Account.GenericFields) = false := by
        rw [beq_eq_false_iff_ne]
        intro h
        have ht := htype old hdec
        rw [← h] at ht
        simp [v1alpha1.NatsAccountSpec.ToJWTAccount] at ht
      have hb : jwt.Account.deepEqual spec.ToJWTAccount old.Account = false := by
        simp [jwt.Account.deepEqual, hg]
      refine ⟨?_, fun e h => by simp at h, fun old2 h => ?_⟩
      · simp [NatsAccountReconciler.needsClaimsUpdate, needsReissue, hs, hdec, accountToken, hb]
      · simp only [Except.ok.injEq] at h
        subst h
        simp [NatsAccountReconciler.needsClaimsUpdate, hs, hdec, accountToken, hb]

/-- On a bundle written by a previous run for the same spec and the same parent seed, both
tests of `needsClaimsUpdate` fire: the decoded body carries the claim type stamped by
`Encode`, which the freshly built body lacks, and the recorded issuer is not empty. -/
theorem needsClaimsUpdate_after_issue {L : NatsLib} (hL : L.Lawful) (secret : Secret)
    (spec : v1alpha1.NatsAccountSpec) (seed signer : String) (now : Int) (k : KeyKind)
    (hs : L.decodeSeed signer = .ok k) :
    NatsAccountReconciler.needsClaimsUpdate L (issuedBundle L secret spec seed signer now)
        (accountToken L seed spec) = true
    ∧ ∃ old, jwt.DecodeAccountClaims L
          ((issuedBundle L secret spec seed signer now).Data.index OPERATOR_JWT) = .ok old
        ∧ old.ClaimsData.Issuer = L.publicKey signer
        ∧ (accountToken L seed spec).ClaimsData.Issuer = ""
        ∧ jwt.Account.deepEqual (accountToken L seed spec).Account old.Account = false := by
  refine ⟨needsClaimsUpdate_of_signed hL _ _ _ _ _ now k (issuedBundle_data _ _ _ _ _ _) hs
    (issuedBundle_jwt _ _ _ _ _ _), ?_⟩
  obtain ⟨old, hdec, hc, ht, _⟩ :=
    account_decode_signed hL (accountToken L seed spec) { seed := signer } now k hs
  refine ⟨old, by rw [issuedBundle_jwt]; exact hdec, by rw [hc]; rfl, rfl, ?_⟩
  have hg : ((accountToken L seed spec).Account.GenericFields == old.Account.GenericFields)
      = false := by
    rw [beq_eq_false_iff_ne]
    intro h
    rw [← h] at ht
    simp [accountToken, v1alpha1.NatsAccountSpec.ToJWTAccount] at ht
  simp [jwt.Account.deepEqual, hg]

/-! ## Parent rotation -/

/-- C10: reissue on parent rotation.  For a bundle that holds a decodable account seed and a
credential that decodes with recorded issuer `r1`, a Root identity, running
`NatsAccountReconciler.reconcileKey` with a parent seed whose public key differs from `r1`
returns `hasChanges = true` and stores a credential that decodes with the parent's public key
as issuer and the Namespace's identity as subject; the seed and public-key fields are
unchanged. -/
theorem reissue_on_parent_rotation (L : NatsLib) (hL : L.Lawful) (rnd : Nat) (now : Int)
    (secret : Secret) (account : v1alpha1.NatsAccount) (signer r1 : String)
    (old : jwt.AccountClaims)
    (hd : secret.Data ≠ none)
    (hseed : L.decodeSeed (secret.Data.index OPERATOR_SEED_KEY) = .ok KeyKind.account)
    (hdec : jwt.DecodeAccountClaims L (secret.Data.index OPERATOR_JWT) = .ok old)
    (hold : old.ClaimsData.Issuer = r1) (hr1 : L.publicKind r1 = some KeyKind.operator)
    (hs : L.decodeSeed signer = .ok KeyKind.operator) (_hrot : L.publicKey signer ≠ r1) :
    (NatsAccountReconciler.reconcileKey L rnd now secret account signer).2 = .ok true
    ∧ (∃ new, jwt.DecodeAccountClaims L
          ((NatsAccountReconciler.reconcileKey L rnd now secret account signer).1.Data.index
            OPERATOR_JWT) = .ok new
        ∧ new.ClaimsData.Issuer = L.publicKey signer
        ∧ new.ClaimsData.Subject = L.publicKey (secret.Data.index OPERATOR_SEED_KEY))
    ∧ (NatsAccountReconciler.reconcileKey L rnd now secret account signer).1.Data.index
        OPERATOR_SEED_KEY = secret.Data.index OPERATOR_SEED_KEY
    ∧ (NatsAccountReconciler.reconcileKey L rnd now secret account signer).1.Data.index
        OPERATOR_PUBLIC_KEY = secret.Data.index OPERATOR_PUBLIC_KEY := by
  have hiss : old.ClaimsData.Issuer ≠ "" := by
    intro h
    rw [hold] at h
    rw [h, hL.publicKind_empty] at hr1
    exact absurd hr1 (by simp)
  have hn := needsClaimsUpdate_of_issuer L secret (secret.Data.index OPERATOR_SEED_KEY)
    account.Spec old hd hdec hiss
  rw [account_reconcileKey_reissuing hL rnd now secret account signer KeyKind.operator hd hseed hs
    (Or.inr rfl) hn]
  obtain ⟨new, hnew, hc, _, _⟩ := account_decode_signed hL
    (accountToken L (secret.Data.index OPERATOR_SEED_KEY) account.Spec) { seed := signer } now
    KeyKind.operator hs
  refine ⟨rfl, ⟨new, ?_, by rw [hc]; rfl, by rw [hc]; rfl⟩, ?_, ?_⟩
  · simp only [index_set_same]
    exact hnew
  · exact index_set_other _ _ _ _ (Ne.symm seed_ne_jwt)
  · exact index_set_other _ _ _ _ (Ne.symm public_ne_jwt)

/-! ## Principal keys -/

theorem extract_ok_decodable {L : NatsLib} (hL : L.Lawful) (secret : Secret) (kind : KeyKind)
    (rnd : Nat) (keys : KeyPair) (nk : Bool)
    (hx : extractOrCreateKeys L secret (fun _ => nkeys.CreatePair L kind rnd) = .ok (keys, nk)) :
    ∃ k, L.decodeSeed keys.seed = .ok k := by
  by_cases hd : secret.Data ≠ none ∧ ∃ k, L.decodeSeed (secret.Data.index OPERATOR_SEED_KEY) = .ok k
  · obtain ⟨hd1, k, hk⟩ := hd
    rw [extract_existing L secret _ k hd1 hk] at hx
    simp only [Except.ok.injEq, Prod.mk.injEq] at hx
    exact ⟨k, by rw [← hx.1]; exact hk⟩
  · have hd2 : secret.Data = none
        ∨ ∃ e, L.decodeSeed (secret.Data.index OPERATOR_SEED_KEY) = .error e := by
      by_cases h1 : secret.Data = none
      · exact Or.inl h1
      · right
        cases hk : L.decodeSeed (secret.Data.index OPERATOR_SEED_KEY) with
        | error e => exact ⟨e, rfl⟩
        | ok k => exact absurd ⟨h1, k, hk⟩ hd
    cases hg : L.createPair kind rnd with
    | error e =>
      rcases hd2 with h | ⟨e2, h⟩
      · simp [extractOrCreateKeys, h, nkeys.CreatePair, hg] at hx
      · cases hs : secret.Data with
        | none => simp [extractOrCreateKeys, hs, nkeys.CreatePair, hg] at hx
        | some d =>
          rw [hs] at h
          simp [extractOrCreateKeys, hs, nkeys.CreatePair, hg, fromSeed_error h] at hx
    | ok seed =>
      rw [extract_generated L secret kind rnd seed hd2 hg] at hx
      simp only [Except.ok.injEq, Prod.mk.injEq] at hx
      exact ⟨kind, by rw [← hx.1]; exact hL.createPair_kind _ _ _ hg⟩

theorem user_reconcileKey_generating {L : NatsLib} (hL : L.Lawful) (rnd : Nat) (now : Int)
    (secret : Secret) (user : v1alpha1.NatsUser) (signer seed : String) (k : KeyKind)
    (hd : secret.Data = none ∨ ∃ e, L.decodeSeed (secret.Data.index OPERATOR_SEED_KEY) = .error e)
    (hg : L.createPair KeyKind.account rnd = .ok seed)
    (hs : L.decodeSeed signer = .ok k) :
    NatsUserReconciler.reconcileKey L rnd now secret user signer
      = ((secret.withData.set OPERATOR_SEED_KEY seed).set OPERATOR_PUBLIC_KEY (L.publicKey seed),
          .error "expected subject to be user public key") := by
  have hx := extract_generated L secret KeyKind.account rnd seed hd hg
  have hseed := hL.createPair_kind _ _ _ hg
  have hpub : L.publicKey seed ≠ "" := hL.publicKey_ne_empty hseed
  have henc := user_encode_subject_error L (userToken L seed user.Spec) { seed := signer } now
    KeyKind.account (hL.publicKind_publicKey seed _ hseed) (by decide)
  unfold NatsUserReconciler.reconcileKey
  simp only [nkeys.CreateAccount]
  rw [hx]
  simp only [KeyPair.PublicKey, KeyPair.Seed, jwt.NewUserClaims, hpub, beq_iff_eq, if_false,
    fromSeed_ok hs]
  simp only [userToken] at henc
  simp [henc, Secret.withData]

/-- C4 (what the code does): when the Principal reconciler has to generate a key pair, it
calls the account generator.  On a bundle without data, with a signer seed that decodes, the
seed stored by `NatsUserReconciler.reconcileKey` is the one made by
`createPair KeyKind.account`, it decodes as an account seed, the stored public key is an
account key and not a user key, and the call fails in `Encode`. -/
theorem user_key_is_account_kind (L : NatsLib) (hL : L.Lawful) (rnd : Nat) (now : Int)
    (secret : Secret) (user : v1alpha1.NatsUser) (signer seed : String) (k : KeyKind)
    (hd : secret.Data = none)
    (hg : L.createPair KeyKind.account rnd = .ok seed)
    (hs : L.decodeSeed signer = .ok k) :
    (NatsUserReconciler.reconcileKey L rnd now secret user signer).1.Data.index OPERATOR_SEED_KEY
      = seed
    ∧ L.decodeSeed seed = .ok KeyKind.account
    ∧ L.publicKind ((NatsUserReconciler.reconcileKey L rnd now secret user signer).1.Data.index
        OPERATOR_PUBLIC_KEY) = some KeyKind.account
    ∧ L.publicKind ((NatsUserReconciler.reconcileKey L rnd now secret user signer).1.Data.index
        OPERATOR_PUBLIC_KEY) ≠ some KeyKind.user
    ∧ (NatsUserReconciler.reconcileKey L rnd now secret user signer).2
        = .error "expected subject to be user public key" := by
  have hseed := hL.createPair_kind _ _ _ hg
  rw [user_reconcileKey_generating hL rnd now secret user signer seed k (Or.inl hd) hg hs]
  have hp := hL.publicKind_publicKey seed _ hseed
  refine ⟨?_, hseed, ?_, ?_, rfl⟩
  · simp only
    rw [index_set_other _ _ _ _ (Ne.symm seed_ne_public), index_set_same]
  · simp only [index_set_same]
    exact hp
  · simp only [index_set_same]
    rw [hp]
    decide

/-- C5 (what the code does): Principal issuance never succeeds.  For every Principal spec
with no existing bundle and a signer seed that decodes, `NatsUserReconciler.reconcileKey`
returns an error and stores no credential: the generated subject is an account key, which
`UserClaims.Encode` refuses. -/
theorem user_issuance_fails (L : NatsLib) (hL : L.Lawful) (rnd : Nat) (now : Int)
    (secret : Secret) (user : v1alpha1.NatsUser) (signer : String) (k : KeyKind)
    (hd : secret.Data = none) (hs : L.decodeSeed signer = .ok k) :
    (∃ err, (NatsUserReconciler.reconcileKey L rnd now secret user signer).2 = .error err)
    ∧ (NatsUserReconciler.reconcileKey L rnd now secret user signer).1.Data.index OPERATOR_JWT
        = "" := by
  cases hg : L.createPair KeyKind.account rnd with
  | ok seed =>
    rw [user_reconcileKey_generating hL rnd now secret user signer seed k (Or.inl hd) hg hs]
    refine ⟨⟨_, rfl⟩, ?_⟩
    simp only
    rw [index_set_other _ _ _ _ public_ne_jwt, index_set_other _ _ _ _ seed_ne_jwt]
    simp [Secret.withData, hd, GoMap.index, assocGet]
  | error e =>
    have hx : extractOrCreateKeys L secret (fun _ => nkeys.CreateAccount L rnd) = .error e := by
      simp [extractOrCreateKeys, hd, nkeys.CreateAccount, nkeys.CreatePair, hg]
    unfold NatsUserReconciler.reconcileKey
    rw [hx]
    exact ⟨⟨e, rfl⟩, by simp [hd, GoMap.index]⟩

/-! ## What the signer error carries -/

/-- C9 as stated fails: with the reference library, two runs that differ only in the content
of an undecodable signer seed return different errors, at both levels, and the error spells
out the bytes of the seed. -/
theorem signer_error_reveals_seed :
    (NatsAccountReconciler.reconcileKey refLib 0 0 {} {} "x").2
      = .error "failed decoding seed: nkeys: invalid encoded key, signer: [120]"
    ∧ (NatsAccountReconciler.reconcileKey refLib 0 0 {} {} "y").2
      = .error "failed decoding seed: nkeys: invalid encoded key, signer: [121]"
    ∧ (NatsUserReconciler.reconcileKey refLib 0 0 {} {} "x").2
      = .error "failed decoding seed: nkeys: invalid encoded key, signer: [120]"
    ∧ (NatsUserReconciler.reconcileKey refLib 0 0 {} {} "y").2
      = .error "failed decoding seed: nkeys: invalid encoded key, signer: [121]"
    ∧ (NatsAccountReconciler.reconcileKey refLib 0 0 {} {} "x").2
      ≠ (NatsAccountReconciler.reconcileKey refLib 0 0 {} {} "y").2 := by
  have h1 : (NatsAccountReconciler.reconcileKey refLib 0 0 {} {} "x").2
      = .error "failed decoding seed: nkeys: invalid encoded key, signer: [120]" := by rfl
  have h2 : (NatsAccountReconciler.reconcileKey refLib 0 0 {} {} "y").2
      = .error "failed decoding seed: nkeys: invalid encoded key, signer: [121]" := by rfl
  refine ⟨h1, h2, by rfl, by rfl, ?_⟩
  rw [h1, h2]
  intro h
  injection h with h
  exact absurd h (by decide)

/-- C9, amended: when the parent's signing seed does not decode and the entity's key pair
was obtained, the error returned by the Namespace-level and the Principal-level `reconcileKey`
is the text made from the decode error and the bytes of the signing seed, and nothing else:
it does not depend on the spec, on the bundle or on the clock.  When the key pair could not
be obtained, the error is the generator's. -/
theorem signer_error_shape (L : NatsLib) (hL : L.Lawful) (rnd : Nat) (now : Int) (secret : Secret)
    (account : v1alpha1.NatsAccount) (user : v1alpha1.NatsUser) (signer : String) (e : GoError)
    (hs : L.decodeSeed signer = .error e) :
    (∀ p, extractOrCreateKeys L secret (fun _ => nkeys.CreateAccount L rnd) = .ok p →
      (NatsAccountReconciler.reconcileKey L rnd now secret account signer).2
          = .error (failedDecodingSeed e signer)
        ∧ (NatsUserReconciler.reconcileKey L rnd now secret user signer).2
          = .error (failedDecodingSeed e signer))
    ∧ (∀ g, extractOrCreateKeys L secret (fun _ => nkeys.CreateAccount L rnd) = .error g →
      (NatsAccountReconciler.reconcileKey L rnd now secret account signer).2 = .error g
        ∧ (NatsUserReconciler.reconcileKey L rnd now secret user signer).2 = .error g) := by
  constructor
  · intro p hx
    obtain ⟨keys, nk⟩ := p
    obtain ⟨k, hk⟩ := extract_ok_decodable hL secret KeyKind.account rnd keys nk hx
    have hpub : L.publicKey keys.seed ≠ "" := hL.publicKey_ne_empty hk
    unfold NatsAccountReconciler.reconcileKey NatsUserReconciler.reconcileKey
    rw [hx]
    simp [KeyPair.PublicKey, jwt.NewAccountClaims, jwt.NewUserClaims, hpub, fromSeed_error hs]
  · intro g hx
    unfold NatsAccountReconciler.reconcileKey NatsUserReconciler.reconcileKey
    rw [hx]
    exact ⟨rfl, rfl⟩

/-! ## The Principal reconcile loop -/

theorem awaitIssuer_waiting (api : ApiServer) (req : Request) (user : v1alpha1.NatsUser) :
    ∀ (polls i : Nat),
      (∀ j, i ≤ j → j < i + polls → ∃ acc,
        api.getAccount j user.Spec.AccountRef.Namespace user.Spec.AccountRef.Name = .found acc
          ∧ acc.Status.AccountSecretName = "") →
      NatsUserReconciler.awaitIssuer api req user polls i = .waiting := by
  intro polls
  induction polls with
  | zero => intro i _; rfl
  | succ n ih =>
    intro i h
    obtain ⟨acc, hacc, hname⟩ := h i (Nat.le_refl i) (by omega)
    simp only [NatsUserReconciler.awaitIssuer, hacc, hname, beq_self_eq_true, if_true]
    exact ih (i + 1) (fun j h1 h2 => h j (by omega) (by omega))

theorem awaitIssuer_denied (api : ApiServer) (req : Request) (user : v1alpha1.NatsUser)
    (denied : v1alpha1.NatsAccount)
    (hpub : denied.Status.AccountSecretName ≠ "")
    (hdeny : slicesContains denied.Spec.AllowUserNamespaces req.Namespace = false) :
    ∀ (n polls i : Nat), n < polls →
      (∀ j, i ≤ j → j < i + n → ∃ acc,
        api.getAccount j user.Spec.AccountRef.Namespace user.Spec.AccountRef.Name = .found acc
          ∧ acc.Status.AccountSecretName = "") →
      api.getAccount (i + n) user.Spec.AccountRef.Namespace user.Spec.AccountRef.Name
        = .found denied →
      NatsUserReconciler.awaitIssuer api req user polls i = .stopped {} none := by
  intro n
  induction n with
  | zero =>
    intro polls i hlt _ hacc
    obtain ⟨m, rfl⟩ : ∃ m, polls = m + 1 := ⟨polls - 1, by omega⟩
    simp only [Nat.add_zero] at hacc
    simp [NatsUserReconciler.awaitIssuer, hacc, hpub, hdeny]
  | succ n ih =>
    intro polls i hlt h hacc
    obtain ⟨m, rfl⟩ : ∃ m, polls = m + 1 := ⟨polls - 1, by omega⟩
    obtain ⟨acc, hacc0, hname⟩ := h i (Nat.le_refl i) (by omega)
    simp only [NatsUserReconciler.awaitIssuer, hacc0, hname, beq_self_eq_true, if_true]
    refine ih m (i + 1) (by omega) (fun j h1 h2 => h j (by omega) (by omega)) ?_
    rw [← hacc]
    congr 1
    omega

/-- C6: policy rejection.  When the Principal is read, the API server accepts the writes it
is sent, and the referenced Namespace, after any number of polls in which it was not yet
published, has published a bundle name but does not list the request's namespace in
`AllowUserNamespaces`, `NatsUserReconciler.Reconcile` returns the empty result with no error,
and the only write it may have sent is the Update of the Principal object that sets or
removes the finalizer: no bundle is created or updated and no status is written. -/
theorem policy_rejection (L : NatsLib) (api : ApiServer) (rnd : Nat) (now : Int)
    (polls n : Nat) (req : Request) (user : v1alpha1.NatsUser) (denied : v1alpha1.NatsAccount)
    (hget : api.getUser 0 req.Namespace req.Name = .found user)
    (hw : ∀ w, api.write w = none)
    (hn : n < polls)
    (hun : ∀ j, j < n → ∃ acc,
      api.getAccount j user.Spec.AccountRef.Namespace user.Spec.AccountRef.Name = .found acc
        ∧ acc.Status.AccountSecretName = "")
    (hacc : api.getAccount n user.Spec.AccountRef.Namespace user.Spec.AccountRef.Name
      = .found denied)
    (hpub : denied.Status.AccountSecretName ≠ "")
    (hdeny : slicesContains denied.Spec.AllowUserNamespaces req.Namespace = false) :
    (NatsUserReconciler.Reconcile L api rnd now polls req).returned = some ({}, none)
    ∧ ∀ w, w ∈ (NatsUserReconciler.Reconcile L api rnd now polls req).writes →
        ∃ u, w = Write.updateUser u := by
  unfold NatsUserReconciler.Reconcile
  rw [hget]
  simp only
  by_cases hdel : user.ObjectMeta.DeletionTimestamp.isSome = true
  · simp only [hdel, if_true]
    split
    · simp [hw]
    · simp
  · simp only [hdel]
    have hfind : ∀ l : List Write, l.findSome? api.write = none := by
      intro l
      induction l with
      | nil => rfl
      | cons a l ih => simp [List.findSome?, hw, ih]
    have hawait := awaitIssuer_denied api req
      { user with ObjectMeta := { user.ObjectMeta with
          Finalizers := (AddFinalizer user.ObjectMeta.Finalizers JWT_OPERATOR_FINALIZER).1 } }
      denied hpub hdeny n polls 0 hn
      (fun j _ h2 => hun j (by omega)) (by simpa using hacc)
    simp only [Bool.false_eq_true, if_false, hfind, hawait]
    refine ⟨trivial, ?_⟩
    intro w hmem
    split at hmem
    · simp only [List.mem_singleton] at hmem
      exact ⟨_, hmem⟩
    · simp at hmem

/-- C7 as stated fails: a Principal that is not being deleted and does not carry the
finalizer yet is sent back to the API server with the finalizer added, before the Namespace
is looked at; the call then stays in its wait loop. -/
theorem awaiting_principal_is_updated :
    NatsUserReconciler.Reconcile refLib unpublishedApi 0 0 3 {} =
      { writes := [Write.updateUser
          { ObjectMeta := { Finalizers := ["nats.deinstapel.de/jwt-operator"] } }]
        returned := none } := by
  rfl

/-- C7, amended: for a Principal that is not being deleted and whose Namespace is read as
unpublished at every poll, the only write `NatsUserReconciler.Reconcile` sends is the single
Update of the Principal object that adds the finalizer, and none at all when the Principal
carries the finalizer already: no bundle is created or updated and no status is written.
When the API server accepts that Update the call has not returned after any number of
polls. -/
theorem dependency_gating (L : NatsLib) (api : ApiServer) (rnd : Nat) (now : Int)
    (polls : Nat) (req : Request) (user : v1alpha1.NatsUser)
    (hget : api.getUser 0 req.Namespace req.Name = .found user)
    (hdel : user.ObjectMeta.DeletionTimestamp = none)
    (hun : ∀ j, j < polls → ∃ acc,
      api.getAccount j user.Spec.AccountRef.Namespace user.Spec.AccountRef.Name = .found acc
        ∧ acc.Status.AccountSecretName = "") :
    (NatsUserReconciler.Reconcile L api rnd now polls req).writes =
        (if user.ObjectMeta.Finalizers.contains JWT_OPERATOR_FINALIZER then []
         else [Write.updateUser { user with ObjectMeta := { user.ObjectMeta with
            Finalizers := user.ObjectMeta.Finalizers ++ [JWT_OPERATOR_FINALIZER] } }])
    ∧ ((∀ w, api.write w = none) →
        (NatsUserReconciler.Reconcile L api rnd now polls req).returned = none) := by
  unfold NatsUserReconciler.Reconcile
  rw [hget]
  have hawait := fun u : v1alpha1.NatsUser => fun (hu : u.Spec = user.Spec) =>
    awaitIssuer_waiting api req u polls 0 (fun j _ h2 => by rw [hu]; exact hun j (by omega))
  by_cases hf : user.ObjectMeta.Finalizers.contains JWT_OPERATOR_FINALIZER = true
  · simp only [hdel, Option.isSome_none, Bool.false_eq_true, if_false, AddFinalizer, hf, if_true,
      List.findSome?]
    rw [hawait]
    · exact ⟨rfl, fun _ => rfl⟩
    · rfl
  · simp only [hdel, Option.isSome_none, Bool.false_eq_true, if_false, AddFinalizer, hf,
      List.findSome?]
    constructor
    · cases api.write _ with
      | some err => rfl
      | none =>
        simp only
        rw [hawait] <;> rfl
    · intro hw
      rw [hw]
      simp only
      rw [hawait]
      rfl

/-! ## The statements at sample inputs -/

theorem storedBundle_jwt :
    storedBundle.Data.index OPERATOR_JWT = refLib.signAccount storedClaims "SOK0" := by
  simp [storedBundle, GoMap.index, assocGet, OPERATOR_JWT]

theorem storedBundle_decodes :
    jwt.DecodeAccountClaims refLib (storedBundle.Data.index OPERATOR_JWT) = .ok storedClaims := by
  rw [jwt.DecodeAccountClaims, storedBundle_jwt, refLib_parse_signAccount]

theorem extractOrCreateKeys_ensureKeyPair_witness :
    extractOrCreateKeys refLib namespaceSecret (fun _ => .error "no entropy")
      = .ok ({ seed := "SAK0" }, false) :=
  (extractOrCreateKeys_ensureKeyPair refLib namespaceSecret (fun _ => .error "unused")).1
    { seed := "SAK0" } (by decide) (by rfl) (fun _ => .error "no entropy")

theorem account_second_run_rewrites_witness :
    (NatsAccountReconciler.reconcileKey refLib 2 200
      (NatsAccountReconciler.reconcileSecret refLib emptyApi 1 100 sampleRequest {}
        rootSecret).secret
      { (NatsAccountReconciler.reconcileSecret refLib emptyApi 1 100 sampleRequest {}
          rootSecret).owner with Spec := ({} : v1alpha1.NatsAccount).Spec }
      (rootSecret.Data.index OPERATOR_SEED_KEY)).2 = .ok true :=
  (account_second_run_rewrites refLib refLib_lawful emptyApi
    (secretApi (NatsAccountReconciler.reconcileSecret refLib emptyApi 1 100 sampleRequest {}
        rootSecret).secret)
    1 2 100 200 sampleRequest {} rootSecret _ "not found" KeyKind.operator
    (by rfl) (by rfl) (Or.inr rfl) (by rfl) (by rfl) (fun _ => rfl) (by rfl) (fun _ => rfl)).2.2.2.1

theorem needsClaimsUpdate_eq_needsReissue_witness :
    NatsAccountReconciler.needsClaimsUpdate refLib
        (issuedBundle refLib (newAccountSecret sampleRequest {}) {} "SAK1" "SOK0" 100)
        (accountToken refLib "SAK1" {})
      = needsReissue refLib (accountToken refLib "SAK1" {}).Account (refLib.publicKey "SOK0")
          ((issuedBundle refLib (newAccountSecret sampleRequest {}) {} "SAK1" "SOK0"
            100).Data.index OPERATOR_JWT) :=
  (needsClaimsUpdate_eq_needsReissue refLib
    (issuedBundle refLib (newAccountSecret sampleRequest {}) {} "SAK1" "SOK0" 100) "SAK1" "SOK0"
    {} (issuedBundle_data _ _ _ _ _ _)
    (fun old h => by
      obtain ⟨old1, hdec, _, ht, _⟩ := account_decode_signed refLib_lawful
        (accountToken refLib "SAK1" {}) { seed := "SOK0" } 100 KeyKind.operator (by rfl)
      rw [issuedBundle_jwt, hdec] at h
      rw [← Except.ok.inj h]
      exact ht)).1

theorem reissue_on_parent_rotation_witness :
    (NatsAccountReconciler.reconcileKey refLib 0 300 storedBundle {} "SOK9").2 = .ok true :=
  (reissue_on_parent_rotation refLib refLib_lawful 0 300 storedBundle {} "SOK9" "OK0" storedClaims
    (by decide) (by rfl) storedBundle_decodes (by rfl) (by rfl) (by rfl) (by decide)).1

theorem user_key_is_account_kind_witness :
    refLib.decodeSeed "SAK7" = .ok KeyKind.account
    ∧ (NatsUserReconciler.reconcileKey refLib 7 0 {} {} "SAK0").2
        = .error "expected subject to be user public key" :=
  ⟨(user_key_is_account_kind refLib refLib_lawful 7 0 {} {} "SAK0" "SAK7" KeyKind.account
      rfl (by rfl) (by rfl)).2.1,
   (user_key_is_account_kind refLib refLib_lawful 7 0 {} {} "SAK0" "SAK7" KeyKind.account
      rfl (by rfl) (by rfl)).2.2.2.2⟩

theorem user_issuance_fails_witness :
    ∃ err, (NatsUserReconciler.reconcileKey refLib 7 0 {}
      { Spec := { Permissions := { Pub := { Allow := some ["foo.*"] } } } }
      (namespaceSecret.Data.index OPERATOR_SEED_KEY)).2 = .error err :=
  (user_issuance_fails refLib refLib_lawful 7 0 {}
    { Spec := { Permissions := { Pub := { Allow := some ["foo.*"] } } } }
    (namespaceSecret.Data.index OPERATOR_SEED_KEY) KeyKind.account rfl (by rfl)).1

theorem policy_rejection_witness :
    (NatsUserReconciler.Reconcile refLib deniedApi 0 0 1 sampleRequest).returned
      = some ({}, none) :=
  (policy_rejection refLib deniedApi 0 0 1 0 sampleRequest {}
    { Spec := { AllowUserNamespaces := some ["prod"] }, Status := { AccountSecretName := "n1" } }
    rfl (fun _ => rfl) (by decide) (fun j hj => absurd hj (Nat.not_lt_zero j)) rfl (by decide)
    (by decide)).1

theorem dependency_gating_witness :
    (NatsUserReconciler.Reconcile refLib unpublishedApi 0 0 5 sampleRequest).returned = none :=
  (dependency_gating refLib unpublishedApi 0 0 5 sampleRequest {} rfl rfl
    (fun _ _ => ⟨{}, rfl, rfl⟩)).2 (fun _ => rfl)

theorem signing_failure_atomic_witness :
    (NatsAccountReconciler.reconcileSecret refLib (secretApi storedBundle) 0 0 sampleRequest {}
      {}).writes = [] :=
  (signing_failure_atomic refLib (secretApi storedBundle) 0 0 sampleRequest {} {} storedBundle
    "nkeys: invalid encoded key" (by rfl)).2.1

theorem signer_error_shape_witness :
    (NatsAccountReconciler.reconcileKey refLib 0 0 namespaceSecret {} "x").2
      = .error (failedDecodingSeed "nkeys: invalid encoded key" "x") :=
  ((signer_error_shape refLib refLib_lawful 0 0 namespaceSecret {} {} "x"
    "nkeys: invalid encoded key" (by rfl)).1 ({ seed := "SAK0" }, false) (by rfl)).1

/-! ## The Principal claims mapping -/

/-- C20: `NatsUserSpec.ToNatsJWT` is field-preserving and deterministic.  The permissions
(pub and sub allow and deny lists, response permission), the user limits (source list, time
ranges, locale), the connection limits, the bearer-token flag and the allowed connection
types of the result are those of the spec; the issuer account and the generic fields are the
zero value; and the result does not depend on `AccountRef`. -/
theorem ToNatsJWT_field_preserving (s : v1alpha1.NatsUserSpec) :
    s.ToNatsJWT.UserPermissionLimits.Permissions.Pub.Allow = s.Permissions.Pub.Allow
    ∧ s.ToNatsJWT.UserPermissionLimits.Permissions.Pub.Deny = s.Permissions.Pub.Deny
    ∧ s.ToNatsJWT.UserPermissionLimits.Permissions.Sub.Allow = s.Permissions.Sub.Allow
    ∧ s.ToNatsJWT.UserPermissionLimits.Permissions.Sub.Deny = s.Permissions.Sub.Deny
    ∧ s.ToNatsJWT.UserPermissionLimits.Permissions.Resp = s.Permissions.Resp
    ∧ s.ToNatsJWT.UserPermissionLimits.Limits.UserLimits.Src = s.Limits.UserLimits.Src
    ∧ s.ToNatsJWT.UserPermissionLimits.Limits.UserLimits.Times = s.Limits.UserLimits.Times
    ∧ s.ToNatsJWT.UserPermissionLimits.Limits.UserLimits.Locale = s.Limits.UserLimits.Locale
    ∧ s.ToNatsJWT.UserPermissionLimits.Limits.NatsLimits = s.Limits.NatsLimits
    ∧ s.ToNatsJWT.UserPermissionLimits.BearerToken = s.BearerToken
    ∧ s.ToNatsJWT.UserPermissionLimits.AllowedConnectionTypes = s.AllowedConnectionTypes
    ∧ s.ToNatsJWT.IssuerAccount = ""
    ∧ s.ToNatsJWT.GenericFields = {}
    ∧ ∀ ref : v1alpha1.ObjectReference, ({ s with AccountRef := ref }).ToNatsJWT = s.ToNatsJWT :=
  ⟨rfl, rfl, rfl, rfl, rfl, rfl, rfl, rfl, rfl, rfl, rfl, rfl, rfl, fun _ => rfl⟩

/-! ## The account server -/

theorem trimPrefix_append (pre rest : String) :
    stringsTrimPrefix (pre ++ rest) pre = rest := by
  have h : pre.toList.isPrefixOf (pre ++ rest).toList = true := by
    rw [List.isPrefixOf_iff_prefix]
    simp [String.toList]
  unfold stringsTrimPrefix
  rw [if_pos h]
  simp [String.toList]

theorem trimSuffix_append (body suf : String) :
    stringsTrimSuffix (body ++ suf) suf = body := by
  have h : suf.toList.isSuffixOf (body ++ suf).toList = true := by
    rw [List.isSuffixOf_iff_suffix]
    simp [String.toList]
  unfold stringsTrimSuffix
  rw [if_pos h]
  simp [String.toList]

theorem lookup_lookupSubject (r : NatsAccountServer) (k : String) :
    r.lookup (lookupSubject k) = (assocGet r.accountMap k).getD "" := by
  unfold NatsAccountServer.lookup lookupSubject
  rw [String.append_assoc, trimPrefix_append, trimSuffix_append]

theorem assocGet_assocErase_same {V : Type} (m : List (String × V)) (k : String) :
    assocGet (assocErase m k) k = none := by
  induction m with
  | nil => rfl
  | cons p m ih =>
    obtain ⟨k1, v1⟩ := p
    have ih1 := ih
    simp only [assocGet, assocErase] at ih1
    by_cases h : k1 = k
    · simp [assocGet, assocErase, h] at ih1 ⊢
    · simp [assocGet, assocErase, h] at ih1 ⊢

theorem assocGet_assocErase_other {V : Type} (m : List (String × V)) (k k2 : String)
    (hne : k ≠ k2) : assocGet (assocErase m k) k2 = assocGet m k2 := by
  induction m with
  | nil => rfl
  | cons p m ih =>
    obtain ⟨k1, v1⟩ := p
    have ih1 := ih
    simp only [assocGet, assocErase] at ih1
    by_cases h : k1 = k
    · subst h
      simp [assocGet, assocErase, hne] at ih1 ⊢
      exact ih1
    · by_cases h2 : k1 = k2
      · subst h2
        have hk : (k1 != k) = true := by simp [h]
        simp only [assocGet, assocErase, List.filter_cons, hk, if_true, List.find?_cons,
          beq_self_eq_true]
      · simp [assocGet, assocErase, h, h2] at ih1 ⊢
        exact ih1

theorem reconcile_found_live (r : NatsAccountServer) (account : v1alpha1.NatsAccount)
    (hlive : account.ObjectMeta.DeletionTimestamp = none)
    (hj : account.Status.JWT ≠ "") (hk : account.Status.PublicKey ≠ "") :
    (r.Reconcile (.found account)).1.accountMap
      = assocSet r.accountMap account.Status.PublicKey account.Status.JWT := by
  unfold NatsAccountServer.Reconcile
  simp only [hlive, Option.isSome_none, Bool.false_eq_true, if_false]
  have h : (account.Status.JWT != "" && account.Status.PublicKey != "") = true := by
    simp [hj, hk]
  rw [if_pos h]
  split <;> rfl

theorem reconcile_keeps_absent (r : NatsAccountServer) (get : GetResult v1alpha1.NatsAccount)
    (k : String) (habs : assocGet r.accountMap k = none)
    (hget : ∀ account, get = .found account → account.Status.PublicKey ≠ k) :
    assocGet (r.Reconcile get).1.accountMap k = none := by
  cases get with
  | notFound e => exact habs
  | failed e => exact habs
  | found account =>
    have hne := hget account rfl
    unfold NatsAccountServer.Reconcile
    simp only
    split
    · simp only
      rw [assocGet_assocErase_other _ _ _ hne]
      exact habs
    · split
      · split <;> (simp only; rw [assocGet_assocSet_other _ _ _ _ hne]; exact habs)
      · exact habs

theorem run_keeps_absent (history : List (GetResult v1alpha1.NatsAccount)) :
    ∀ (r : NatsAccountServer) (k : String), assocGet r.accountMap k = none →
      (∀ get, get ∈ history → ∀ account, get = .found account → account.Status.PublicKey ≠ k) →
      assocGet (r.run history).accountMap k = none := by
  induction history with
  | nil => intro r k habs _; exact habs
  | cons get rest ih =>
    intro r k habs hget
    simp only [NatsAccountServer.run]
    exact ih _ k (reconcile_keeps_absent r get k habs (hget get (List.mem_cons_self _ _)))
      (fun g hg => hget g (List.mem_cons_of_mem _ hg))

/-- C12: resolver read-after-announce.  Starting from `NewAccountServer`, after any sequence
of `Reconcile` calls, once `Reconcile` has processed a Namespace that is not marked for
deletion and whose status has a non-empty identity `k` and a non-empty credential `j`, the
lookup handler answers the subject of `k` with exactly `j`; and the handler answers with the
empty body for every identity that none of the processed Namespaces carried. -/
theorem resolver_read_after_announce (before : List (GetResult v1alpha1.NatsAccount))
    (account : v1alpha1.NatsAccount)
    (hlive : account.ObjectMeta.DeletionTimestamp = none)
    (hj : account.Status.JWT ≠ "") (hk : account.Status.PublicKey ≠ "") :
    (((NewAccountServer.run before).Reconcile (.found account)).1.lookup
        (lookupSubject account.Status.PublicKey) = account.Status.JWT)
    ∧ ∀ (history : List (GetResult v1alpha1.NatsAccount)) (k : String),
        (∀ get, get ∈ history → ∀ a, get = .found a → a.Status.PublicKey ≠ k) →
        (NewAccountServer.run history).lookup (lookupSubject k) = "" := by
  constructor
  · rw [lookup_lookupSubject, reconcile_found_live _ _ hlive hj hk, assocGet_assocSet_same]
    rfl
  · intro history k h
    rw [lookup_lookupSubject, run_keeps_absent history NewAccountServer k rfl h]
    rfl

/-- C13: resolver deletion.  For every index state and every Namespace with identity `k`
that is marked for deletion, after `NatsAccountServer.Reconcile` has processed it the lookup
for `k` answers with the empty body and the index entry of every other identity is
unchanged. -/
theorem resolver_deletion (r : NatsAccountServer) (account : v1alpha1.NatsAccount)
    (hdel : account.ObjectMeta.DeletionTimestamp ≠ none) :
    (r.Reconcile (.found account)).1.lookup (lookupSubject account.Status.PublicKey) = ""
    ∧ (∀ k2, k2 ≠ account.Status.PublicKey →
        assocGet (r.Reconcile (.found account)).1.accountMap k2 = assocGet r.accountMap k2
        ∧ (r.Reconcile (.found account)).1.lookup (lookupSubject k2)
            = r.lookup (lookupSubject k2))
    ∧ (r.Reconcile (.found account)).2 = none := by
  have hsome : account.ObjectMeta.DeletionTimestamp.isSome = true := by
    cases h : account.ObjectMeta.DeletionTimestamp with
    | none => exact absurd h hdel
    | some t => rfl
  have hmap : (r.Reconcile (.found account)).1.accountMap
      = assocErase r.accountMap account.Status.PublicKey := by
    unfold NatsAccountServer.Reconcile
    simp only [hsome, if_true]
  refine ⟨?_, fun k2 hne => ⟨?_, ?_⟩, ?_⟩
  · rw [lookup_lookupSubject, hmap, assocGet_assocErase_same]
    rfl
  · rw [hmap, assocGet_assocErase_other _ _ _ (Ne.symm hne)]
  · rw [lookup_lookupSubject, lookup_lookupSubject, hmap,
      assocGet_assocErase_other _ _ _ (Ne.symm hne)]
  · unfold NatsAccountServer.Reconcile
    simp only [hsome, if_true]

theorem refLib_rejects_malformed :
    jwt.DecodeAccountClaims refLib "not-a-jwt" = .error "expected 3 chunks" := by
  simp [jwt.DecodeAccountClaims, refLib, refParse, refUntoken]

/-- C14 as stated fails: a published credential string that does not decode is put into the
index as it is, so the lookup for that identity, which answered with the empty body before
the call, answers with the malformed string after it. -/
theorem malformed_credential_is_indexed :
    jwt.DecodeAccountClaims refLib malformedAccount.Status.JWT = .error "expected 3 chunks"
    ∧ NewAccountServer.lookup (lookupSubject "AK1") = ""
    ∧ (NewAccountServer.Reconcile (.found malformedAccount)).1.lookup (lookupSubject "AK1")
        = "not-a-jwt" := by
  refine ⟨refLib_rejects_malformed, ?_, ?_⟩
  · rw [lookup_lookupSubject]
    rfl
  · rw [lookup_lookupSubject]
    rfl

/-- C14, amended: `NatsAccountServer.Reconcile` does not validate the published credential.
For a Namespace that is not marked for deletion, a non-empty credential string with a
non-empty identity is stored under that identity as it is, whether or not it decodes, and
the entries of the other identities are unchanged; the index is left exactly as it was when
the credential string or the identity is empty. -/
theorem announce_stores_unvalidated (r : NatsAccountServer) (account : v1alpha1.NatsAccount)
    (hlive : account.ObjectMeta.DeletionTimestamp = none) :
    (account.Status.JWT ≠ "" → account.Status.PublicKey ≠ "" →
      (r.Reconcile (.found account)).1.lookup (lookupSubject account.Status.PublicKey)
          = account.Status.JWT
        ∧ ∀ k2, k2 ≠ account.Status.PublicKey →
            (r.Reconcile (.found account)).1.lookup (lookupSubject k2)
              = r.lookup (lookupSubject k2))
    ∧ (account.Status.JWT = "" ∨ account.Status.PublicKey = "" →
        (r.Reconcile (.found account)).1 = r) := by
  constructor
  · intro hj hk
    constructor
    · rw [lookup_lookupSubject, reconcile_found_live _ _ hlive hj hk, assocGet_assocSet_same]
      rfl
    · intro k2 hne
      rw [lookup_lookupSubject, lookup_lookupSubject, reconcile_found_live _ _ hlive hj hk,
        assocGet_assocSet_other _ _ _ _ (Ne.symm hne)]
  · intro h
    unfold NatsAccountServer.Reconcile
    simp only [hlive, Option.isSome_none, Bool.false_eq_true, if_false]
    have hf : (account.Status.JWT != "" && account.Status.PublicKey != "") = false := by
      rcases h with h | h <;> simp [h]
    rw [hf]
    rfl

/-! ## Reissue on change -/

theorem needsClaimsUpdate_of_body (L : NatsLib) (secret : Secret) (seed : String)
    (spec : v1alpha1.NatsAccountSpec) (old : jwt.AccountClaims)
    (hd : secret.Data ≠ none)
    (hdec : jwt.DecodeAccountClaims L (secret.Data.index OPERATOR_JWT) = .ok old)
    (hchg : jwt.Account.deepEqual spec.ToJWTAccount old.Account = false) :
    NatsAccountReconciler.needsClaimsUpdate L secret (accountToken L seed spec) = true := by
  cases hs : secret.Data with
  | none => exact absurd hs hd
  | some d =>
    rw [hs] at hdec
    simp [NatsAccountReconciler.needsClaimsUpdate, hs, hdec, accountToken, hchg]

/-- C11 as stated fails: after a change of the spec the credential that is stored does not
carry the bare mapping of the new spec as its claims body; the body has the claim type and
the version stamped in by `Encode`. -/
theorem reissued_body_is_stamped :
    ∃ new, jwt.DecodeAccountClaims refLib
        ((NatsAccountReconciler.reconcileKey refLib 0 300 storedBundle { Spec := changedSpec }
          "SOK0").1.Data.index OPERATOR_JWT) = .ok new
      ∧ new.Account.GenericFields.ClaimType = "account"
      ∧ changedSpec.ToJWTAccount.GenericFields.ClaimType = ""
      ∧ new.Account ≠ changedSpec.ToJWTAccount := by
  have hn := needsClaimsUpdate_of_issuer refLib storedBundle
    (storedBundle.Data.index OPERATOR_SEED_KEY) changedSpec storedClaims (by decide)
    storedBundle_decodes (by decide)
  have hk := account_reconcileKey_reissuing refLib_lawful 0 300 storedBundle
    { Spec := changedSpec } "SOK0" KeyKind.operator (by decide) (by rfl) (by rfl) (Or.inr rfl) hn
  rw [hk, index_set_same, jwt.DecodeAccountClaims, refLib_parse_signAccount]
  refine ⟨_, rfl, rfl, rfl, ?_⟩
  intro h
  have h2 := congrArg (fun a => a.GenericFields.ClaimType) h
  exact absurd h2 (by decide)

/-- C11, amended: reissue on change keeps the identity.  For a bundle that holds a decodable
account seed and a credential that decodes, when the mapping of the spec differs from the
decoded body, `NatsAccountReconciler.reconcileKey` returns `hasChanges = true` and stores the
credential signed over the mapping of the spec with the claim type `account` and the library
version stamped into the generic fields and every other body field as mapped; the seed and
public-key fields are unchanged and the subject of the new credential is the public key of
the stored seed. -/
theorem reissue_on_change (L : NatsLib) (hL : L.Lawful) (rnd : Nat) (now : Int)
    (secret : Secret) (account : v1alpha1.NatsAccount) (signer : String)
    (old : jwt.AccountClaims) (k : KeyKind)
    (hd : secret.Data ≠ none)
    (hseed : L.decodeSeed (secret.Data.index OPERATOR_SEED_KEY) = .ok KeyKind.account)
    (hdec : jwt.DecodeAccountClaims L (secret.Data.index OPERATOR_JWT) = .ok old)
    (hs : L.decodeSeed signer = .ok k) (hkind : k = KeyKind.account ∨ k = KeyKind.operator)
    (hchg : jwt.Account.deepEqual account.Spec.ToJWTAccount old.Account = false) :
    (NatsAccountReconciler.reconcileKey L rnd now secret account signer).2 = .ok true
    ∧ (∃ doc : jwt.AccountClaims,
        (NatsAccountReconciler.reconcileKey L rnd now secret account signer).1.Data.index
            OPERATOR_JWT = L.signAccount doc signer
        ∧ doc.Account = { account.Spec.ToJWTAccount with
            GenericFields := { ClaimType := "account", Version := jwt.libVersion } }
        ∧ doc.ClaimsData.Subject = L.publicKey (secret.Data.index OPERATOR_SEED_KEY)
        ∧ ∃ new, jwt.DecodeAccountClaims L (L.signAccount doc signer) = .ok new
            ∧ new.ClaimsData.Subject = L.publicKey (secret.Data.index OPERATOR_SEED_KEY))
    ∧ (NatsAccountReconciler.reconcileKey L rnd now secret account signer).1.Data.index
        OPERATOR_SEED_KEY = secret.Data.index OPERATOR_SEED_KEY
    ∧ (NatsAccountReconciler.reconcileKey L rnd now secret account signer).1.Data.index
        OPERATOR_PUBLIC_KEY = secret.Data.index OPERATOR_PUBLIC_KEY := by
  have hn := needsClaimsUpdate_of_body L secret (secret.Data.index OPERATOR_SEED_KEY)
    account.Spec old hd hdec hchg
  rw [account_reconcileKey_reissuing hL rnd now secret account signer k hd hseed hs hkind hn]
  obtain ⟨new, hnew, hc, _, _⟩ := account_decode_signed hL
    (accountToken L (secret.Data.index OPERATOR_SEED_KEY) account.Spec) { seed := signer } now
    k hs
  refine ⟨rfl, ⟨_, index_set_same _ _ _, rfl, rfl, new, hnew, by rw [hc]; rfl⟩, ?_, ?_⟩
  · exact index_set_other _ _ _ _ (Ne.symm seed_ne_jwt)
  · exact index_set_other _ _ _ _ (Ne.symm public_ne_jwt)

/-! ## Bundle consistency -/

theorem has_set_same (secret : Secret) (k v : String) : (secret.set k v).has k = true := by
  simp [Secret.has, Secret.set, assocGet_assocSet_same]

theorem has_set_other (secret : Secret) (k k2 v : String) (h : (secret.set k v).has k2 = false) :
    k ≠ k2 := by
  intro e
  subst e
  rw [has_set_same] at h
  exact absurd h (by simp)

theorem has_set_of_has (secret : Secret) (k k2 v : String) (h : secret.has k2 = true) :
    (secret.set k v).has k2 = true := by
  by_cases e : k = k2
  · subst e
    exact has_set_same _ _ _
  · cases hd : secret.Data with
    | none => simp [Secret.has, hd] at h
    | some d =>
      simp only [Secret.has, hd] at h
      simp [Secret.has, Secret.set, hd, assocGet_assocSet_other _ _ _ _ e, h]

theorem account_encode_inv (L : NatsLib) (a : jwt.AccountClaims) (pair : KeyPair) (now : Int)
    (token : String) (h : a.Encode L pair now = .ok token) :
    token = L.signAccount (a.signed L pair now) pair.seed := by
  unfold jwt.AccountClaims.Encode at h
  split at h
  · simp at h
  · split at h
    · simp at h
    · rename_i c heq
      simp only [Except.ok.injEq] at h
      have hc : c = (a.signed L pair now).ClaimsData := by
        unfold jwt.doEncode at heq
        split at heq
        · simp at heq
        · simp only at heq
          split at heq
          · simp at heq
          · split at heq
            · simp only [Except.ok.injEq] at heq
              rw [← heq]
              rfl
            · simp at heq
      rw [← h, hc]
      rfl

theorem account_reconcileKey_unfold {L : NatsLib} (hL : L.Lawful) (rnd : Nat) (now : Int)
    (secret : Secret) (account : v1alpha1.NatsAccount) (signer seed : String) (nk : Bool)
    (k k2 : KeyKind)
    (hx : extractOrCreateKeys L secret (fun _ => nkeys.CreateAccount L rnd)
      = .ok ({ seed := seed }, nk))
    (hseed : L.decodeSeed seed = .ok k2) (hs : L.decodeSeed signer = .ok k) :
    NatsAccountReconciler.reconcileKey L rnd now secret account signer =
      if nk || NatsAccountReconciler.needsClaimsUpdate L secret (accountToken L seed account.Spec)
      then
        match (accountToken L seed account.Spec).Encode L { seed := signer } now with
        | .error err =>
          (if nk then (secret.withData.set OPERATOR_SEED_KEY seed).set OPERATOR_PUBLIC_KEY
              (L.publicKey seed) else secret.withData, .error err)
        | .ok token =>
          ((if nk then (secret.withData.set OPERATOR_SEED_KEY seed).set OPERATOR_PUBLIC_KEY
              (L.publicKey seed) else secret.withData).set OPERATOR_JWT token, .ok true)
      else
        (if nk then (secret.withData.set OPERATOR_SEED_KEY seed).set OPERATOR_PUBLIC_KEY
              (L.publicKey seed) else secret.withData, .ok false) := by
  have hpub : L.publicKey seed ≠ "" := hL.publicKey_ne_empty hseed
  unfold NatsAccountReconciler.reconcileKey
  rw [hx]
  simp only [KeyPair.PublicKey, KeyPair.Seed, jwt.NewAccountClaims, hpub, beq_iff_eq, if_false,
    fromSeed_ok hs]
  simp only [accountToken, Secret.withData]
  split
  · rename_i hc
    simp only [hc, if_true]
  · rename_i hc
    simp only [hc]

theorem account_reconcileKey_keeps_public {L : NatsLib} (hL : L.Lawful) (rnd : Nat) (now : Int)
    (secret : Secret) (account : v1alpha1.NatsAccount) (signer : String) (k : KeyKind)
    (hd : secret.Data ≠ none)
    (hseed : L.decodeSeed (secret.Data.index OPERATOR_SEED_KEY) = .ok KeyKind.account)
    (hs : L.decodeSeed signer = .ok k) (hkind : k = KeyKind.account ∨ k = KeyKind.operator) :
    (∃ hasChanges, (NatsAccountReconciler.reconcileKey L rnd now secret account signer).2
        = .ok hasChanges)
    ∧ (NatsAccountReconciler.reconcileKey L rnd now secret account signer).1.Data.index
        OPERATOR_PUBLIC_KEY = secret.Data.index OPERATOR_PUBLIC_KEY
    ∧ (NatsAccountReconciler.reconcileKey L rnd now secret account signer).1.Data.index
        OPERATOR_SEED_KEY = secret.Data.index OPERATOR_SEED_KEY := by
  have hx := extract_existing L secret (fun _ => nkeys.CreateAccount L rnd) _ hd hseed
  have h := account_reconcileKey_of_keys hL rnd now secret account signer _ false k hx hseed hs
    hkind
  rw [h]
  simp only [Bool.false_or, Bool.false_eq_true, if_false, withData_of_data hd]
  split
  · exact ⟨⟨true, rfl⟩, index_set_other _ _ _ _ (Ne.symm public_ne_jwt),
      index_set_other _ _ _ _ (Ne.symm seed_ne_jwt)⟩
  · exact ⟨⟨false, rfl⟩, rfl, rfl⟩

/-- C19 as stated fails: a bundle that holds a decodable seed and no public-key field goes
through `NatsAccountReconciler.reconcileKey` without error and still has no public-key field
afterwards, although the public key of its seed is `AK1`. -/
theorem seed_only_bundle_stays_incomplete :
    (∃ hasChanges, (NatsAccountReconciler.reconcileKey refLib 0 0 seedOnlyBundle {} "SOK0").2
        = .ok hasChanges)
    ∧ (NatsAccountReconciler.reconcileKey refLib 0 0 seedOnlyBundle {} "SOK0").1.Data.index
        OPERATOR_PUBLIC_KEY = ""
    ∧ refLib.publicKey ((NatsAccountReconciler.reconcileKey refLib 0 0 seedOnlyBundle {}
        "SOK0").1.Data.index OPERATOR_SEED_KEY) = "AK1" := by
  have h := account_reconcileKey_keeps_public refLib_lawful 0 0 seedOnlyBundle {} "SOK0"
    KeyKind.operator (by decide) (by rfl) (by rfl) (Or.inr rfl)
  exact ⟨h.1, by rw [h.2.1]; rfl, by rw [h.2.2]; rfl⟩

/-- C19, amended: bundle consistency.  After `NatsAccountReconciler.reconcileKey` has
returned without error: when the incoming bundle had no data or a seed that does not decode,
the bundle contains the three fields, its public-key field is the public key of its seed
field and the stored credential decodes with that public key as subject; when the incoming
bundle had a seed that decodes, the seed and public-key fields are what they were on entry,
whatever they were, and a credential that was reissued decodes with the public key of the
seed as subject. -/
theorem bundle_consistency (L : NatsLib) (hL : L.Lawful) (rnd : Nat) (now : Int)
    (secret : Secret) (account : v1alpha1.NatsAccount) (signer : String) (hasChanges : Bool)
    (hok : (NatsAccountReconciler.reconcileKey L rnd now secret account signer).2
      = .ok hasChanges) :
    ((secret.Data = none ∨ ∃ e, L.decodeSeed (secret.Data.index OPERATOR_SEED_KEY) = .error e) →
      (NatsAccountReconciler.reconcileKey L rnd now secret account signer).1.has
          OPERATOR_SEED_KEY = true
      ∧ (NatsAccountReconciler.reconcileKey L rnd now secret account signer).1.has
          OPERATOR_PUBLIC_KEY = true
      ∧ (NatsAccountReconciler.reconcileKey L rnd now secret account signer).1.has
          OPERATOR_JWT = true
      ∧ (NatsAccountReconciler.reconcileKey L rnd now secret account signer).1.Data.index
          OPERATOR_PUBLIC_KEY
        = L.publicKey ((NatsAccountReconciler.reconcileKey L rnd now secret account
            signer).1.Data.index OPERATOR_SEED_KEY)
      ∧ ∃ new, jwt.DecodeAccountClaims L
            ((NatsAccountReconciler.reconcileKey L rnd now secret account signer).1.Data.index
              OPERATOR_JWT) = .ok new
          ∧ new.ClaimsData.Subject
            = (NatsAccountReconciler.reconcileKey L rnd now secret account signer).1.Data.index
                OPERATOR_PUBLIC_KEY)
    ∧ ((secret.Data ≠ none ∧ ∃ k, L.decodeSeed (secret.Data.index OPERATOR_SEED_KEY) = .ok k) →
      (NatsAccountReconciler.reconcileKey L rnd now secret account signer).1.Data.index
          OPERATOR_SEED_KEY = secret.Data.index OPERATOR_SEED_KEY
      ∧ (NatsAccountReconciler.reconcileKey L rnd now secret account signer).1.Data.index
          OPERATOR_PUBLIC_KEY = secret.Data.index OPERATOR_PUBLIC_KEY
      ∧ (hasChanges = true → ∃ new, jwt.DecodeAccountClaims L
            ((NatsAccountReconciler.reconcileKey L rnd now secret account signer).1.Data.index
              OPERATOR_JWT) = .ok new
          ∧ new.ClaimsData.Subject = L.publicKey (secret.Data.index OPERATOR_SEED_KEY))) := by
  have hsig : ∃ k, L.decodeSeed signer = .ok k := by
    cases hs : L.decodeSeed signer with
    | ok k => exact ⟨k, rfl⟩
    | error e =>
      obtain ⟨err, herr⟩ := account_reconcileKey_signer_error L rnd now secret account signer e hs
      rw [herr] at hok
      simp at hok
  obtain ⟨k, hs⟩ := hsig
  constructor
  · intro hd
    cases hg : L.createPair KeyKind.account rnd with
    | error e =>
      have hx : extractOrCreateKeys L secret (fun _ => nkeys.CreateAccount L rnd) = .error e := by
        rcases hd with hd | ⟨e2, he2⟩
        · simp [extractOrCreateKeys, hd, nkeys.CreateAccount, nkeys.CreatePair, hg]
        · cases hdd : secret.Data with
          | none => simp [extractOrCreateKeys, hdd, nkeys.CreateAccount, nkeys.CreatePair, hg]
          | some d =>
            rw [hdd] at he2
            simp [extractOrCreateKeys, hdd, nkeys.CreateAccount, nkeys.CreatePair, hg,
              fromSeed_error he2]
      unfold NatsAccountReconciler.reconcileKey at hok
      rw [hx] at hok
      simp at hok
    | ok seed =>
      have hx := extract_generated L secret KeyKind.account rnd seed hd hg
      have hseed := hL.createPair_kind _ _ _ hg
      have hu := account_reconcileKey_unfold hL rnd now secret account signer seed true k _ hx
        hseed hs
      simp only [Bool.true_or, if_true] at hu
      cases henc : (accountToken L seed account.Spec).Encode L { seed := signer } now with
      | error e =>
        rw [hu, henc] at hok
        simp at hok
      | ok token =>
        rw [henc] at hu
        simp only at hu
        have htok := account_encode_inv L _ _ now token henc
        obtain ⟨new, hnew, hc, _, _⟩ := account_decode_signed hL
          (accountToken L seed account.Spec) { seed := signer } now k hs
        rw [hu]
        simp only
        refine ⟨?_, ?_, has_set_same _ _ _, ?_, new, ?_, ?_⟩
        · exact has_set_of_has _ _ _ _ (has_set_of_has _ _ _ _ (has_set_same _ _ _))
        · exact has_set_of_has _ _ _ _ (has_set_same _ _ _)
        · rw [index_set_other _ _ _ _ (Ne.symm public_ne_jwt), index_set_same,
            index_set_other _ _ _ _ (Ne.symm seed_ne_jwt),
            index_set_other _ _ _ _ (Ne.symm seed_ne_public), index_set_same]
        · rw [index_set_same, htok]
          exact hnew
        · rw [hc, index_set_other _ _ _ _ (Ne.symm public_ne_jwt), index_set_same]
          rfl
  · intro hd
    obtain ⟨hd1, k2, hseed⟩ := hd
    have hx := extract_existing L secret (fun _ => nkeys.CreateAccount L rnd) k2 hd1 hseed
    have hu := account_reconcileKey_unfold hL rnd now secret account signer _ false k _ hx
      hseed hs
    simp only [Bool.false_or, Bool.false_eq_true, if_false, withData_of_data hd1] at hu
    by_cases hn : NatsAccountReconciler.needsClaimsUpdate L secret
        (accountToken L (secret.Data.index OPERATOR_SEED_KEY) account.Spec) = true
    · rw [if_pos hn] at hu
      cases henc : (accountToken L (secret.Data.index OPERATOR_SEED_KEY) account.Spec).Encode L
          { seed := signer } now with
      | error e =>
        rw [hu, henc] at hok
        simp at hok
      | ok token =>
        rw [henc] at hu
        simp only at hu
        have htok := account_encode_inv L _ _ now token henc
        obtain ⟨new, hnew, hc, _, _⟩ := account_decode_signed hL
          (accountToken L (secret.Data.index OPERATOR_SEED_KEY) account.Spec)
          { seed := signer } now k hs
        rw [hu]
        simp only
        refine ⟨index_set_other _ _ _ _ (Ne.symm seed_ne_jwt),
          index_set_other _ _ _ _ (Ne.symm public_ne_jwt), fun _ => ⟨new, ?_, ?_⟩⟩
        · rw [index_set_same, htok]
          exact hnew
        · rw [hc]
          rfl
    · rw [if_neg hn] at hu
      rw [hu] at hok ⊢
      simp only [Except.ok.injEq] at hok
      refine ⟨rfl, rfl, fun h => ?_⟩
      rw [← hok] at h
      exact absurd h (by simp)

theorem bundle_consistency_witness :
    (NatsAccountReconciler.reconcileKey refLib 0 0 seedOnlyBundle {} "SOK0").1.Data.index
      OPERATOR_PUBLIC_KEY = seedOnlyBundle.Data.index OPERATOR_PUBLIC_KEY := by
  obtain ⟨b, hb⟩ := (account_reconcileKey_keeps_public refLib_lawful 0 0 seedOnlyBundle {} "SOK0"
    KeyKind.operator (by decide) (by rfl) (by rfl) (Or.inr rfl)).1
  exact ((bundle_consistency refLib refLib_lawful 0 0 seedOnlyBundle {} "SOK0" b hb).2
    ⟨by decide, KeyKind.account, by rfl⟩).2.1

/-! ## The Root reconciler -/

theorem operator_encode_ok {L : NatsLib} (hL : L.Lawful) (oc : jwt.OperatorClaims)
    (pair : KeyPair) (now : Int)
    (hsub : L.publicKind oc.ClaimsData.Subject = some KeyKind.operator)
    (hk : L.decodeSeed pair.seed = .ok KeyKind.operator) :
    oc.Encode L pair now = .ok (L.signOperator (oc.signed L pair now) pair.seed) := by
  have hne : oc.ClaimsData.Subject ≠ "" := by
    intro h
    rw [h, hL.publicKind_empty] at hsub
    exact absurd hsub (by simp)
  have hp := hL.publicKind_publicKey pair.seed _ hk
  simp [jwt.OperatorClaims.Encode, jwt.doEncode, hsub, hne, KeyPair.PublicKey, hp,
    jwt.OperatorClaims.signed]

theorem operator_decode_signed {L : NatsLib} (hL : L.Lawful) (oc : jwt.OperatorClaims)
    (pair : KeyPair) (now : Int) (k : KeyKind) (hk : L.decodeSeed pair.seed = .ok k) :
    ∃ old, jwt.DecodeOperatorClaims L (L.signOperator (oc.signed L pair now) pair.seed) = .ok old
      ∧ old.ClaimsData = (oc.signed L pair now).ClaimsData
      ∧ old.Operator.SigningKeys = omitEmpty oc.Operator.SigningKeys := by
  obtain ⟨old, h1, h2, _, _, h5⟩ :=
    hL.parse_signOperator (oc.signed L pair now) pair.seed k hk rfl rfl rfl
  exact ⟨old, h1, h2, h5⟩

theorem operator_reconcileKey_of_keys {L : NatsLib} (hL : L.Lawful) (rnd : Nat) (now : Int)
    (secret : Secret) (operator : v1alpha1.NatsOperator) (seed : String) (nk : Bool)
    (hx : extractOrCreateKeys L secret (fun _ => nkeys.CreateOperator L rnd)
      = .ok ({ seed := seed }, nk))
    (hseed : L.decodeSeed seed = .ok KeyKind.operator) :
    NatsOperatorReconciler.reconcileKey L rnd now secret operator =
      if nk || NatsOperatorReconciler.needsClaimsUpdate L secret operator.Spec
      then
        ((if nk then (secret.withData.set OPERATOR_SEED_KEY seed).set OPERATOR_PUBLIC_KEY
              (L.publicKey seed) else secret.withData).set OPERATOR_JWT
            (L.signOperator ((operatorToken L seed operator.Spec).signed L { seed := seed } now)
              seed), .ok true)
      else
        (if nk then (secret.withData.set OPERATOR_SEED_KEY seed).set OPERATOR_PUBLIC_KEY
              (L.publicKey seed) else secret.withData, .ok false) := by
  have hpub : L.publicKey seed ≠ "" := hL.publicKey_ne_empty hseed
  have henc := operator_encode_ok hL (operatorToken L seed operator.Spec) { seed := seed } now
    (hL.publicKind_publicKey seed _ hseed) hseed
  unfold NatsOperatorReconciler.reconcileKey
  rw [hx]
  simp only [KeyPair.PublicKey, KeyPair.Seed, jwt.NewOperatorClaims, hpub, beq_iff_eq, if_false]
  simp only [operatorToken] at henc ⊢
  rw [henc]
  simp only [Secret.withData, NatsOperatorReconciler.needsClaimsUpdate]
  cases hd : secret.Data with
  | none => simp
  | some d =>
    simp only [Option.isNone_some, Bool.false_or]
    cases jwt.DecodeOperatorClaims L (GoMap.index (some d) OPERATOR_JWT) with
    | error e => simp
    | ok old => split <;> simp_all

theorem omitEmpty_bne {α : Type} [DecidableEq α] (s : GoSlice α) :
    (s != omitEmpty s) = (s == some []) := by
  cases s with
  | none => rfl
  | some l =>
    cases l with
    | nil => rfl
    | cons a l => simp [omitEmpty]

theorem issuedOperatorBundle_seed (L : NatsLib) (secret : Secret)
    (spec : v1alpha1.NatsOperatorSpec) (seed : String) (now : Int) :
    (issuedOperatorBundle L secret spec seed now).Data.index OPERATOR_SEED_KEY = seed := by
  unfold issuedOperatorBundle
  rw [index_set_other _ _ _ _ (Ne.symm seed_ne_jwt),
    index_set_other _ _ _ _ (Ne.symm seed_ne_public), index_set_same]

theorem issuedOperatorBundle_jwt (L : NatsLib) (secret : Secret)
    (spec : v1alpha1.NatsOperatorSpec) (seed : String) (now : Int) :
    (issuedOperatorBundle L secret spec seed now).Data.index OPERATOR_JWT
      = L.signOperator ((operatorToken L seed spec).signed L { seed := seed } now) seed := by
  unfold issuedOperatorBundle
  rw [index_set_same]

theorem issuedOperatorBundle_data (L : NatsLib) (secret : Secret)
    (spec : v1alpha1.NatsOperatorSpec) (seed : String) (now : Int) :
    (issuedOperatorBundle L secret spec seed now).Data ≠ none :=
  set_data_ne_none _ _ _

theorem operator_reconcileKey_generating {L : NatsLib} (hL : L.Lawful) (rnd : Nat) (now : Int)
    (secret : Secret) (operator : v1alpha1.NatsOperator) (seed : String)
    (hd : secret.Data = none ∨ ∃ e, L.decodeSeed (secret.Data.index OPERATOR_SEED_KEY) = .error e)
    (hg : L.createPair KeyKind.operator rnd = .ok seed) :
    NatsOperatorReconciler.reconcileKey L rnd now secret operator
      = (issuedOperatorBundle L secret operator.Spec seed now, .ok true) := by
  have hx := extract_generated L secret KeyKind.operator rnd seed hd hg
  have h := operator_reconcileKey_of_keys hL rnd now secret operator seed true hx
    (hL.createPair_kind _ _ _ hg)
  rw [h]
  simp [issuedOperatorBundle]

theorem operator_needsClaimsUpdate_after_issue {L : NatsLib} (hL : L.Lawful) (secret : Secret)
    (spec : v1alpha1.NatsOperatorSpec) (seed : String) (now : Int) (k : KeyKind)
    (hseed : L.decodeSeed seed = .ok k) :
    NatsOperatorReconciler.needsClaimsUpdate L (issuedOperatorBundle L secret spec seed now) spec
      = (spec.SigningKeys == some []) := by
  obtain ⟨old, hdec, _, hkeys⟩ :=
    operator_decode_signed hL (operatorToken L seed spec) { seed := seed } now k hseed
  unfold NatsOperatorReconciler.needsClaimsUpdate
  cases hd : (issuedOperatorBundle L secret spec seed now).Data with
  | none => exact absurd hd (issuedOperatorBundle_data _ _ _ _ _)
  | some d =>
    simp only
    rw [← hd, issuedOperatorBundle_jwt, hdec]
    simp only
    rw [hkeys]
    exact omitEmpty_bne spec.SigningKeys

theorem operator_reconcileKey_again {L : NatsLib} (hL : L.Lawful) (rnd : Nat) (now1 now : Int)
    (secret : Secret) (operator : v1alpha1.NatsOperator) (seed : String)
    (hseed : L.decodeSeed seed = .ok KeyKind.operator) :
    NatsOperatorReconciler.reconcileKey L rnd now
        (issuedOperatorBundle L secret operator.Spec seed now1) operator
      = if operator.Spec.SigningKeys == some [] then
          ((issuedOperatorBundle L secret operator.Spec seed now1).set OPERATOR_JWT
            (L.signOperator ((operatorToken L seed operator.Spec).signed L { seed := seed } now)
              seed), .ok true)
        else (issuedOperatorBundle L secret operator.Spec seed now1, .ok false) := by
  have hd := issuedOperatorBundle_data L secret operator.Spec seed now1
  have hx := extract_existing L (issuedOperatorBundle L secret operator.Spec seed now1)
    (fun _ => nkeys.CreateOperator L rnd) KeyKind.operator hd
    (by rw [issuedOperatorBundle_seed]; exact hseed)
  rw [issuedOperatorBundle_seed] at hx
  rw [operator_reconcileKey_of_keys hL rnd now _ operator seed false hx hseed,
    operator_needsClaimsUpdate_after_issue hL secret operator.Spec seed now1 _ hseed]
  simp [withData_of_data hd]

theorem operator_reconcileSecret_notFound (L : NatsLib) (api : ApiServer) (rnd : Nat) (now : Int)
    (req : Request) (operator : v1alpha1.NatsOperator) (keySecret : Secret)
    (nf : GoError) (hasChanges : Bool)
    (hget : api.getSecret req.Namespace req.Name = .notFound nf)
    (ho : api.setOwnerReference = none)
    (hkey : NatsOperatorReconciler.reconcileKey L rnd now (newOperatorSecret req operator) operator
      = (keySecret, .ok hasChanges))
    (hw : ∀ w, api.write w = none) :
    NatsOperatorReconciler.reconcileSecret L api rnd now req operator =
      { writes := [Write.createSecret keySecret,
          Write.updateOperatorStatus (operatorWithStatus operator keySecret)]
        owner := operatorWithStatus operator keySecret
        secret := keySecret
        err := none } := by
  simp only [newOperatorSecret] at hkey
  simp [NatsOperatorReconciler.reconcileSecret, hget, ho, hkey, hw, operatorWithStatus]

theorem operator_reconcileSecret_found (L : NatsLib) (api : ApiServer) (rnd : Nat) (now : Int)
    (req : Request) (operator : v1alpha1.NatsOperator) (obj keySecret : Secret)
    (hasChanges : Bool)
    (hget : api.getSecret req.Namespace req.Name = .found obj)
    (hkey : NatsOperatorReconciler.reconcileKey L rnd now obj operator
      = (keySecret, .ok hasChanges))
    (hw : ∀ w, api.write w = none) :
    NatsOperatorReconciler.reconcileSecret L api rnd now req operator =
      if hasChanges then
        { writes := [Write.updateSecret keySecret,
            Write.updateOperatorStatus (operatorWithStatus operator keySecret)]
          owner := operatorWithStatus operator keySecret
          secret := keySecret
          err := none }
      else { writes := [], owner := operator, secret := keySecret, err := none } := by
  cases hasChanges <;>
    simp [NatsOperatorReconciler.reconcileSecret, hget, hkey, hw, operatorWithStatus]

/-- C15 (what the code does): the second run of `NatsOperatorReconciler.reconcileSecret` over
the bundle persisted by the first run, with the same spec, is a no-op exactly when the list
of auxiliary signing keys is not present-but-empty.  For a list that is present but empty the
stored credential decodes with the nil list (`omitempty`), `reflect.DeepEqual` tells the two
apart, `reconcileKey` returns `hasChanges = true` and the run sends an Update of the bundle
and an Update of the status. -/
theorem operator_second_run (L : NatsLib) (hL : L.Lawful) (api1 api2 : ApiServer)
    (rnd1 rnd2 : Nat) (now1 now2 : Int) (req : Request) (operator : v1alpha1.NatsOperator)
    (seed nf : String)
    (hg : L.createPair KeyKind.operator rnd1 = .ok seed)
    (hget1 : api1.getSecret req.Namespace req.Name = .notFound nf)
    (ho : api1.setOwnerReference = none) (hw1 : ∀ w, api1.write w = none)
    (hget2 : api2.getSecret req.Namespace req.Name = .found
      (NatsOperatorReconciler.reconcileSecret L api1 rnd1 now1 req operator).secret)
    (hw2 : ∀ w, api2.write w = none) :
    let run1 := NatsOperatorReconciler.reconcileSecret L api1 rnd1 now1 req operator
    let run2 := NatsOperatorReconciler.reconcileSecret L api2 rnd2 now2 req run1.owner
    run1.err = none
    ∧ run1.writes = [Write.createSecret run1.secret, Write.updateOperatorStatus run1.owner]
    ∧ run1.owner.Spec = operator.Spec
    ∧ (NatsOperatorReconciler.reconcileKey L rnd2 now2 run1.secret run1.owner).2
        = .ok (operator.Spec.SigningKeys == some [])
    ∧ run2.err = none
    ∧ run2.writes =
        if operator.Spec.SigningKeys == some [] then
          [Write.updateSecret run2.secret, Write.updateOperatorStatus run2.owner]
        else [] := by
  have hk1 := operator_reconcileKey_generating hL rnd1 now1 (newOperatorSecret req operator)
    operator seed (Or.inl rfl) hg
  have hr1 := operator_reconcileSecret_notFound L api1 rnd1 now1 req operator _ nf true
    hget1 ho hk1 hw1
  rw [hr1] at hget2
  simp only at hget2
  have hseed := hL.createPair_kind _ _ _ hg
  have hk2 := operator_reconcileKey_again hL rnd2 now1 now2 (newOperatorSecret req operator)
    (operatorWithStatus operator
      (issuedOperatorBundle L (newOperatorSecret req operator) operator.Spec seed now1))
    seed hseed
  have hspec : (operatorWithStatus operator
      (issuedOperatorBundle L (newOperatorSecret req operator) operator.Spec seed now1)).Spec
      = operator.Spec := rfl
  rw [hspec] at hk2
  by_cases hempty : (operator.Spec.SigningKeys == some []) = true
  · rw [hempty, if_pos rfl] at hk2
    have hr2 := operator_reconcileSecret_found L api2 rnd2 now2 req _ _ _ true hget2 hk2 hw2
    simp only [hr1, hr2, hk2, hempty, if_true]
    exact ⟨trivial, trivial, rfl, trivial, trivial, trivial⟩
  · have hfalse : (operator.Spec.SigningKeys == some []) = false := by
      simpa using hempty
    rw [hfalse] at hk2
    simp only [Bool.false_eq_true, if_false] at hk2
    have hr2 := operator_reconcileSecret_found L api2 rnd2 now2 req _ _ _ false hget2 hk2 hw2
    simp only [hr1, hr2, hk2, hfalse, Bool.false_eq_true, if_false]
    exact ⟨trivial, trivial, rfl, trivial, trivial, trivial⟩

/-! ## The Namespace reconcile loop -/

theorem account_awaitIssuer_waiting (api : ApiServer) (req : Request)
    (account : v1alpha1.NatsAccount) :
    ∀ (polls i : Nat),
      (∀ j, i ≤ j → j < i + polls → ∃ op,
        api.getOperator j req.Namespace account.Spec.OperatorRef.Name = .found op
          ∧ op.Status.OperatorSecretName = "") →
      NatsAccountReconciler.awaitIssuer api req account polls i = .waiting := by
  intro polls
  induction polls with
  | zero => intro i _; rfl
  | succ n ih =>
    intro i h
    obtain ⟨op, hop, hname⟩ := h i (Nat.le_refl i) (by omega)
    simp only [NatsAccountReconciler.awaitIssuer, hop, hname, beq_self_eq_true, if_true]
    exact ih (i + 1) (fun j h1 h2 => h j (by omega) (by omega))

theorem account_reconcile_waiting (L : NatsLib) (api : ApiServer) (rnd : Nat) (now : Int)
    (polls : Nat) (req : Request) (account : v1alpha1.NatsAccount)
    (hget : api.getAccount 0 req.Namespace req.Name = .found account)
    (hdel : account.ObjectMeta.DeletionTimestamp = none)
    (hw : ∀ w, api.write w = none)
    (hun : ∀ j, j < polls → ∃ op,
      api.getOperator j req.Namespace account.Spec.OperatorRef.Name = .found op
        ∧ op.Status.OperatorSecretName = "") :
    NatsAccountReconciler.Reconcile L api rnd now polls req =
      { writes :=
          if account.ObjectMeta.Finalizers.contains JWT_OPERATOR_FINALIZER then []
          else [Write.updateAccount { account with ObjectMeta := { account.ObjectMeta with
            Finalizers := account.ObjectMeta.Finalizers ++ [JWT_OPERATOR_FINALIZER] } }]
        returned := none } := by
  unfold NatsAccountReconciler.Reconcile
  rw [hget]
  have hawait := fun a : v1alpha1.NatsAccount => fun (ha : a.Spec = account.Spec) =>
    account_awaitIssuer_waiting api req a polls 0
      (fun j _ h2 => by rw [ha]; exact hun j (by omega))
  by_cases hf : account.ObjectMeta.Finalizers.contains JWT_OPERATOR_FINALIZER = true
  · simp only [hdel, Option.isSome_none, Bool.false_eq_true, if_false, AddFinalizer, hf, if_true,
      List.findSome?]
    rw [hawait]
    all_goals rfl
  · simp only [hdel, Option.isSome_none, Bool.false_eq_true, if_false, AddFinalizer, hf,
      List.findSome?, hw]
    rw [hawait]
    all_goals rfl

/-- C16 as stated fails: with a parent Root that exists and never publishes a bundle name,
`NatsAccountReconciler.Reconcile` has not returned after a thousand reads of the parent, one
every five seconds: there is no requeue result, the call waits inside its loop. -/
theorem account_reconcile_never_returns :
    NatsAccountReconciler.Reconcile refLib unpublishedRootApi 0 0 1000 sampleRequest
      = { writes := [Write.updateAccount
            { ObjectMeta := { Finalizers := ["nats.deinstapel.de/jwt-operator"] } }]
          returned := none } := by
  rw [account_reconcile_waiting refLib unpublishedRootApi 0 0 1000 sampleRequest {} rfl rfl
    (fun _ => rfl) (fun _ _ => ⟨{}, rfl, rfl⟩)]
  rfl

/-- C16, amended: waiting is a blocking poll.  For every store state in which the Namespace
is read, is not being deleted, the API server accepts the finalizer Update, and the parent
Root is read at every poll as existing without a published bundle name,
`NatsAccountReconciler.Reconcile` has not returned after any number of reads of the parent
(it sleeps five seconds inside the call between two reads): it has produced no result and no
error, and has sent no write other than the Update that adds the finalizer. -/
theorem waiting_blocks_inside_reconcile (L : NatsLib) (api : ApiServer) (rnd : Nat) (now : Int)
    (polls : Nat) (req : Request) (account : v1alpha1.NatsAccount)
    (hget : api.getAccount 0 req.Namespace req.Name = .found account)
    (hdel : account.ObjectMeta.DeletionTimestamp = none)
    (hw : ∀ w, api.write w = none)
    (hun : ∀ j, j < polls → ∃ op,
      api.getOperator j req.Namespace account.Spec.OperatorRef.Name = .found op
        ∧ op.Status.OperatorSecretName = "") :
    (NatsAccountReconciler.Reconcile L api rnd now polls req).returned = none
    ∧ ∀ w, w ∈ (NatsAccountReconciler.Reconcile L api rnd now polls req).writes →
        ∃ a, w = Write.updateAccount a := by
  rw [account_reconcile_waiting L api rnd now polls req account hget hdel hw hun]
  refine ⟨rfl, fun w hmem => ?_⟩
  simp only at hmem
  split at hmem
  · simp at hmem
  · simp only [List.mem_singleton] at hmem
    exact ⟨_, hmem⟩

theorem waiting_blocks_inside_reconcile_witness :
    (NatsAccountReconciler.Reconcile refLib unpublishedRootApi 0 0 7 sampleRequest).returned
      = none :=
  (waiting_blocks_inside_reconcile refLib unpublishedRootApi 0 0 7 sampleRequest {} rfl rfl
    (fun _ => rfl) (fun _ _ => ⟨{}, rfl, rfl⟩)).1

/-! ## The system user -/

theorem findSome_write_none (api : ApiServer) (hw : ∀ w, api.write w = none) :
    ∀ l : List Write, l.findSome? api.write = none := by
  intro l
  induction l with
  | nil => rfl
  | cons a l ih => simp [List.findSome?, hw, ih]

theorem jwt_name_ne (name : String) : name ++ "-jwt" ≠ name ++ "-jwt-operator" := by
  intro h
  have h1 := congrArg String.length h
  have h4 : "-jwt".length = 4 := by decide
  have h13 : "-jwt-operator".length = 13 := by decide
  rw [String.length_append, String.length_append, h4, h13] at h1
  omega

/-- C18 (what the code does): for a Root named NAME in the scope NS whose system account is
ready and whose system user does not exist yet, `NatsOperatorReconciler.Reconcile` creates
the system user as the NatsUser named NAME followed by `-jwt` in NS, which is not the name
NAME followed by `-jwt-operator` of the documentation of `NatsOperatorSpec`; the user refers
to the system account that was read under the name NAME followed by `-system`, and the call
returns with a requeue after five seconds. -/
theorem system_user_is_named_jwt (L : NatsLib) (api : ApiServer) (rnd : Nat) (now : Int)
    (polls : Nat) (req : Request) (operator : v1alpha1.NatsOperator)
    (systemAccount : v1alpha1.NatsAccount) (nf : GoError)
    (hget : api.getOperator 0 req.Namespace req.Name = .found operator)
    (hdel : operator.ObjectMeta.DeletionTimestamp = none)
    (hw : ∀ w, api.write w = none) (ho : api.setOwnerReference = none)
    (hsec : (NatsOperatorReconciler.reconcileSecret L api rnd now req
      { operator with ObjectMeta := { operator.ObjectMeta with
          Finalizers := (AddFinalizer operator.ObjectMeta.Finalizers JWT_OPERATOR_FINALIZER).1 } }).err
      = none)
    (hacc : api.getAccount 0 req.Namespace (req.Name ++ "-system") = .found systemAccount)
    (hready : systemAccount.Status.JWT ≠ "")
    (huser : api.getUser 0 req.Namespace (req.Name ++ "-jwt") = .notFound nf)
    (hpolls : 0 < polls) :
    ∃ u, (NatsOperatorReconciler.Reconcile L api rnd now polls req).writes.getLast?
        = some (Write.createUser u)
      ∧ u.ObjectMeta.Name = req.Name ++ "-jwt"
      ∧ u.ObjectMeta.Namespace = req.Namespace
      ∧ u.ObjectMeta.Name ≠ req.Name ++ "-jwt-operator"
      ∧ u.Spec.AccountRef = { Namespace := systemAccount.ObjectMeta.Namespace
                              Name := systemAccount.ObjectMeta.Name }
      ∧ (NatsOperatorReconciler.Reconcile L api rnd now polls req).returned
          = some ({ RequeueAfter := 5 }, none) := by
  obtain ⟨m, rfl⟩ : ∃ m, polls = m + 1 := ⟨polls - 1, by omega⟩
  have hsa : ∀ op, NatsOperatorReconciler.ensureSystemAccount api req op (m + 1) 0 {}
      = .ready systemAccount := by
    intro op
    simp [NatsOperatorReconciler.ensureSystemAccount, hacc, hready]
  have hsu : ∀ op, NatsOperatorReconciler.ensureSystemUser api req op systemAccount (m + 1) 0 {}
      = .stopped [Write.createUser
          { ObjectMeta := { Name := req.Name ++ "-jwt", Namespace := req.Namespace
                            OwnerReferences := upsertOwnerRef [] op.ObjectMeta.Name }
            Spec := systemUserSpec systemAccount }] { RequeueAfter := 5 } none := by
    intro op
    simp [NatsOperatorReconciler.ensureSystemUser, huser, ho, hw]
  unfold NatsOperatorReconciler.Reconcile
  rw [hget]
  simp only [hdel] at hsec
  simp only [hdel, Option.isSome_none, Bool.false_eq_true, if_false,
    findSome_write_none api hw, hsec, hsa, hsu]
  exact ⟨_, List.getLast?_concat _, rfl, rfl, jwt_name_ne req.Name, rfl, trivial⟩

/-! ## More statements at sample inputs -/

theorem reissue_on_change_witness :
    (NatsAccountReconciler.reconcileKey refLib 0 300 storedBundle { Spec := changedSpec }
      "SOK0").2 = .ok true :=
  (reissue_on_change refLib refLib_lawful 0 300 storedBundle { Spec := changedSpec } "SOK0"
    storedClaims KeyKind.operator (by decide) (by rfl) storedBundle_decodes (by rfl)
    (Or.inr rfl) (by rfl)).1

theorem resolver_read_after_announce_witness :
    ((NewAccountServer.run []).Reconcile (.found publishedAccount)).1.lookup
      (lookupSubject publishedAccount.Status.PublicKey) = publishedAccount.Status.JWT :=
  (resolver_read_after_announce [] publishedAccount rfl (by decide) (by decide)).1

theorem resolver_deletion_witness :
    ((NewAccountServer.Reconcile (.found publishedAccount)).1.Reconcile
      (.found deletedAccount)).1.lookup (lookupSubject deletedAccount.Status.PublicKey) = "" :=
  (resolver_deletion (NewAccountServer.Reconcile (.found publishedAccount)).1 deletedAccount
    (by decide)).1

theorem announce_stores_unvalidated_witness :
    (NewAccountServer.Reconcile (.found malformedAccount)).1.lookup
      (lookupSubject malformedAccount.Status.PublicKey) = malformedAccount.Status.JWT :=
  ((announce_stores_unvalidated NewAccountServer malformedAccount rfl).1 (by decide)
    (by decide)).1

theorem operator_second_run_witness :
    (NatsOperatorReconciler.reconcileKey refLib 2 200
      (NatsOperatorReconciler.reconcileSecret refLib emptyApi 1 100 rootRequest
        emptyKeysOperator).secret
      (NatsOperatorReconciler.reconcileSecret refLib emptyApi 1 100 rootRequest
        emptyKeysOperator).owner).2
      = .ok (emptyKeysOperator.Spec.SigningKeys == some []) :=
  (operator_second_run refLib refLib_lawful emptyApi
    (secretApi (NatsOperatorReconciler.reconcileSecret refLib emptyApi 1 100 rootRequest
        emptyKeysOperator).secret)
    1 2 100 200 rootRequest emptyKeysOperator _ "not found"
    (by rfl) (by rfl) (by rfl) (fun _ => rfl) (by rfl) (fun _ => rfl)).2.2.2.1

theorem systemReadyApi_secret_ok (operator : v1alpha1.NatsOperator) :
    (NatsOperatorReconciler.reconcileSecret refLib systemReadyApi 0 0 rootRequest operator).err
      = none := by
  rw [operator_reconcileSecret_notFound refLib systemReadyApi 0 0 rootRequest operator _
    "not found" true rfl rfl
    (operator_reconcileKey_generating refLib_lawful 0 0 (newOperatorSecret rootRequest operator)
      operator _ (Or.inl rfl) rfl)
    (fun _ => rfl)]

theorem system_user_is_named_jwt_witness :
    ∃ u, (NatsOperatorReconciler.Reconcile refLib systemReadyApi 0 0 1 rootRequest).writes.getLast?
        = some (Write.createUser u)
      ∧ u.ObjectMeta.Name = rootRequest.Name ++ "-jwt" := by
  obtain ⟨u, h1, h2, _⟩ := system_user_is_named_jwt refLib systemReadyApi 0 0 1 rootRequest
    { ObjectMeta := { Namespace := "default", Name := "nats" } }
    { ObjectMeta := { Namespace := "default", Name := "nats-system" }
      Status := { AccountSecretName := "nats-system", PublicKey := "AK1", JWT := "issued" } }
    "not found" rfl rfl (fun _ => rfl) rfl (systemReadyApi_secret_ok _) rfl (by decide) rfl
    (by decide)
  exact ⟨u, h1, h2⟩

/-! ## One identity per Namespace -/

theorem reconcile_keeps_entry (r : NatsAccountServer) (get : GetResult v1alpha1.NatsAccount)
    (k : String)
    (hget : ∀ account, get = .found account → account.Status.PublicKey ≠ k) :
    assocGet (r.Reconcile get).1.accountMap k = assocGet r.accountMap k := by
  cases get with
  | notFound e => rfl
  | failed e => rfl
  | found account =>
    have hne := hget account rfl
    unfold NatsAccountServer.Reconcile
    simp only
    split
    · simp only
      rw [assocGet_assocErase_other _ _ _ hne]
    · split
      · split <;> (simp only; rw [assocGet_assocSet_other _ _ _ _ hne])
      · rfl

theorem run_keeps_entry (history : List (GetResult v1alpha1.NatsAccount)) :
    ∀ (r : NatsAccountServer) (k : String),
      (∀ get, get ∈ history → ∀ account, get = .found account → account.Status.PublicKey ≠ k) →
      assocGet (r.run history).accountMap k = assocGet r.accountMap k := by
  induction history with
  | nil => intro r k _; rfl
  | cons get rest ih =>
    intro r k hget
    simp only [NatsAccountServer.run]
    rw [ih _ k (fun g hg => hget g (List.mem_cons_of_mem _ hg)),
      reconcile_keeps_entry r get k (hget get (List.mem_cons_self _ _))]

/-- C22 as stated fails: after the same Namespace has been processed first with the identity
`AK1` and then with the identity `AK2`, the lookup for `AK1` still answers with the credential
stored under it; both identities are served. -/
theorem old_identity_is_still_served :
    (NewAccountServer.run [.found publishedAccount, .found rekeyedAccount]).lookup
        (lookupSubject "AK1") = "issued"
    ∧ (NewAccountServer.run [.found publishedAccount, .found rekeyedAccount]).lookup
        (lookupSubject "AK2") = "reissued" := by
  constructor
  · rw [lookup_lookupSubject]
    rfl
  · rw [lookup_lookupSubject]
    rfl

/-- C22, amended: the index holds one entry per identity that was announced and not deleted,
not one per Namespace.  When a Namespace that is not marked for deletion is processed with
the identity `k1` and later, after any calls that carry other identities, with a different
identity `k2`, the lookup for `k2` answers with the later credential and the lookup for `k1`
still answers with the credential stored under `k1`. -/
theorem index_is_keyed_by_identity (r : NatsAccountServer)
    (first later : v1alpha1.NatsAccount) (between : List (GetResult v1alpha1.NatsAccount))
    (hlive1 : first.ObjectMeta.DeletionTimestamp = none)
    (hj1 : first.Status.JWT ≠ "") (hk1 : first.Status.PublicKey ≠ "")
    (hlive2 : later.ObjectMeta.DeletionTimestamp = none)
    (hj2 : later.Status.JWT ≠ "") (hk2 : later.Status.PublicKey ≠ "")
    (hne : later.Status.PublicKey ≠ first.Status.PublicKey)
    (hbetween : ∀ get, get ∈ between → ∀ account, get = .found account →
      account.Status.PublicKey ≠ first.Status.PublicKey) :
    ((((r.Reconcile (.found first)).1.run between).Reconcile (.found later)).1.lookup
        (lookupSubject later.Status.PublicKey) = later.Status.JWT)
    ∧ ((((r.Reconcile (.found first)).1.run between).Reconcile (.found later)).1.lookup
        (lookupSubject first.Status.PublicKey) = first.Status.JWT) := by
  constructor
  · rw [lookup_lookupSubject, reconcile_found_live _ _ hlive2 hj2 hk2, assocGet_assocSet_same]
    rfl
  · rw [lookup_lookupSubject,
      reconcile_keeps_entry _ (.found later) first.Status.PublicKey
        (fun a ha => by
          simp only [GetResult.found.injEq] at ha
          rw [← ha]
          exact hne),
      run_keeps_entry between _ _ hbetween, reconcile_found_live _ _ hlive1 hj1 hk1,
      assocGet_assocSet_same]
    rfl

theorem index_is_keyed_by_identity_witness :
    (((NewAccountServer.Reconcile (.found publishedAccount)).1.run []).Reconcile
      (.found rekeyedAccount)).1.lookup (lookupSubject publishedAccount.Status.PublicKey)
      = publishedAccount.Status.JWT :=
  (index_is_keyed_by_identity NewAccountServer publishedAccount rekeyedAccount [] rfl
    (by decide) (by decide) rfl (by decide) (by decide) (by decide)
    (fun _ h => absurd h (List.not_mem_nil _))).2

/-! ## Published status of a Root -/

theorem set_name (secret : Secret) (k v : String) : (secret.set k v).Name = secret.Name := rfl

theorem withData_name (secret : Secret) : secret.withData.Name = secret.Name := by
  unfold Secret.withData
  split <;> rfl

theorem issuedOperatorBundle_name (L : NatsLib) (secret : Secret)
    (spec : v1alpha1.NatsOperatorSpec) (seed : String) (now : Int) :
    (issuedOperatorBundle L secret spec seed now).Name = secret.Name := by
  unfold issuedOperatorBundle
  rw [set_name, set_name, set_name, withData_name]

theorem issuedOperatorBundle_public (L : NatsLib) (secret : Secret)
    (spec : v1alpha1.NatsOperatorSpec) (seed : String) (now : Int) :
    (issuedOperatorBundle L secret spec seed now).Data.index OPERATOR_PUBLIC_KEY
      = L.publicKey seed := by
  unfold issuedOperatorBundle
  rw [index_set_other _ _ _ _ (Ne.symm public_ne_jwt), index_set_same]

theorem completeRootBundle_unchanged :
    NatsOperatorReconciler.reconcileSecret refLib (secretApi completeRootBundle) 2 200
        rootRequest plainOperator
      = { writes := [], owner := plainOperator, secret := completeRootBundle, err := none } := by
  have hk := operator_reconcileKey_again refLib_lawful 2 100 200
    (newOperatorSecret rootRequest plainOperator) plainOperator "SOK1" (by rfl)
  have hfalse : (plainOperator.Spec.SigningKeys == some []) = false := by decide
  rw [hfalse] at hk
  rw [if_neg (by decide)] at hk
  have h := operator_reconcileSecret_found refLib (secretApi completeRootBundle) 2 200
    rootRequest plainOperator completeRootBundle completeRootBundle false rfl hk (fun _ => rfl)
  rw [h]
  rfl

/-- C21 as stated fails: with a complete, valid bundle in the store and a Root whose status
is still empty, `NatsOperatorReconciler.reconcileSecret` returns without error, sends no
write, and leaves the status empty, although the bundle is named `nats` and holds the public
key `OK1`. -/
theorem existing_bundle_is_not_published :
    (NatsOperatorReconciler.reconcileSecret refLib (secretApi completeRootBundle) 2 200
        rootRequest plainOperator).err = none
    ∧ (NatsOperatorReconciler.reconcileSecret refLib (secretApi completeRootBundle) 2 200
        rootRequest plainOperator).writes = []
    ∧ (NatsOperatorReconciler.reconcileSecret refLib (secretApi completeRootBundle) 2 200
        rootRequest plainOperator).secret.Name = "nats"
    ∧ (NatsOperatorReconciler.reconcileSecret refLib (secretApi completeRootBundle) 2 200
        rootRequest plainOperator).owner.Status.OperatorSecretName = ""
    ∧ (NatsOperatorReconciler.reconcileSecret refLib (secretApi completeRootBundle) 2 200
        rootRequest plainOperator).secret.Data.index OPERATOR_PUBLIC_KEY = "OK1"
    ∧ (NatsOperatorReconciler.reconcileSecret refLib (secretApi completeRootBundle) 2 200
        rootRequest plainOperator).owner.Status.PublicKey = ""
    ∧ refLib.decodeSeed ((NatsOperatorReconciler.reconcileSecret refLib
        (secretApi completeRootBundle) 2 200 rootRequest plainOperator).secret.Data.index
          OPERATOR_SEED_KEY) = .ok KeyKind.operator
    ∧ ∃ old, jwt.DecodeOperatorClaims refLib ((NatsOperatorReconciler.reconcileSecret refLib
        (secretApi completeRootBundle) 2 200 rootRequest plainOperator).secret.Data.index
          OPERATOR_JWT) = .ok old := by
  rw [completeRootBundle_unchanged]
  refine ⟨rfl, rfl, ?_, rfl, ?_, rfl, ?_, ?_⟩
  · show completeRootBundle.Name = "nats"
    unfold completeRootBundle
    rw [issuedOperatorBundle_name]
    rfl
  · show completeRootBundle.Data.index OPERATOR_PUBLIC_KEY = "OK1"
    unfold completeRootBundle
    rw [issuedOperatorBundle_public]
    rfl
  · show refLib.decodeSeed (completeRootBundle.Data.index OPERATOR_SEED_KEY) = _
    unfold completeRootBundle
    rw [issuedOperatorBundle_seed]
    rfl
  · show ∃ old, jwt.DecodeOperatorClaims refLib (completeRootBundle.Data.index OPERATOR_JWT)
      = .ok old
    unfold completeRootBundle
    rw [issuedOperatorBundle_jwt]
    obtain ⟨old, h, _⟩ := operator_decode_signed refLib_lawful
      (operatorToken refLib "SOK1" plainOperator.Spec) { seed := "SOK1" } 100 KeyKind.operator
      (by rfl)
    exact ⟨old, h⟩

/-- C21, amended: published status follows a bundle that was created or changed.  After
`NatsOperatorReconciler.reconcileSecret` has returned without error: when the bundle did not
exist, the Root's status has `OperatorSecretName` equal to the bundle's name and `PublicKey`
and `JWT` equal to the bundle's public-key and credential fields, and the call sent a Create
of the bundle followed by a status Update carrying that Root, which the API server accepted;
when the bundle existed and `reconcileKey` reported a change, the same holds with an Update
of the bundle in place of the Create; when the bundle existed and `reconcileKey` reported no
change, the Root object is left as it was and nothing is written. -/
theorem status_follows_changed_bundle (L : NatsLib) (api : ApiServer) (rnd : Nat) (now : Int)
    (req : Request) (operator : v1alpha1.NatsOperator)
    (herr : (NatsOperatorReconciler.reconcileSecret L api rnd now req operator).err = none) :
    (∀ nf, api.getSecret req.Namespace req.Name = .notFound nf →
      (NatsOperatorReconciler.reconcileSecret L api rnd now req operator).owner
        = { operator with Status :=
            { OperatorSecretName :=
                (NatsOperatorReconciler.reconcileSecret L api rnd now req operator).secret.Name
              PublicKey :=
                (NatsOperatorReconciler.reconcileSecret L api rnd now req
                  operator).secret.Data.index OPERATOR_PUBLIC_KEY
              JWT :=
                (NatsOperatorReconciler.reconcileSecret L api rnd now req
                  operator).secret.Data.index OPERATOR_JWT } }
      ∧ (NatsOperatorReconciler.reconcileSecret L api rnd now req operator).writes
        = [Write.createSecret
            (NatsOperatorReconciler.reconcileSecret L api rnd now req operator).secret,
           Write.updateOperatorStatus
            (NatsOperatorReconciler.reconcileSecret L api rnd now req operator).owner]
      ∧ api.write (Write.updateOperatorStatus
          (NatsOperatorReconciler.reconcileSecret L api rnd now req operator).owner) = none)
    ∧ (∀ obj, api.getSecret req.Namespace req.Name = .found obj →
        (NatsOperatorReconciler.reconcileKey L rnd now obj operator).2 = .ok true →
      (NatsOperatorReconciler.reconcileSecret L api rnd now req operator).owner
        = { operator with Status :=
            { OperatorSecretName :=
                (NatsOperatorReconciler.reconcileSecret L api rnd now req operator).secret.Name
              PublicKey :=
                (NatsOperatorReconciler.reconcileSecret L api rnd now req
                  operator).secret.Data.index OPERATOR_PUBLIC_KEY
              JWT :=
                (NatsOperatorReconciler.reconcileSecret L api rnd now req
                  operator).secret.Data.index OPERATOR_JWT } }
      ∧ (NatsOperatorReconciler.reconcileSecret L api rnd now req operator).writes
        = [Write.updateSecret
            (NatsOperatorReconciler.reconcileSecret L api rnd now req operator).secret,
           Write.updateOperatorStatus
            (NatsOperatorReconciler.reconcileSecret L api rnd now req operator).owner]
      ∧ api.write (Write.updateOperatorStatus
          (NatsOperatorReconciler.reconcileSecret L api rnd now req operator).owner) = none)
    ∧ (∀ obj, api.getSecret req.Namespace req.Name = .found obj →
        (NatsOperatorReconciler.reconcileKey L rnd now obj operator).2 = .ok false →
        (NatsOperatorReconciler.reconcileSecret L api rnd now req operator).owner = operator
          ∧ (NatsOperatorReconciler.reconcileSecret L api rnd now req operator).writes = []) := by
  unfold NatsOperatorReconciler.reconcileSecret at herr ⊢
  cases hget : api.getSecret req.Namespace req.Name with
  | failed e =>
    rw [hget] at herr
    simp at herr
  | notFound nf =>
    rw [hget] at herr
    simp only at herr ⊢
    cases ho : api.setOwnerReference with
    | some e =>
      rw [ho] at herr
      simp at herr
    | none =>
      rw [ho] at herr
      simp only at herr ⊢
      refine ⟨fun _ _ => ?_, fun obj h => by simp at h, fun obj h => by simp at h⟩
      cases hk : NatsOperatorReconciler.reconcileKey L rnd now
        { Namespace := req.Namespace, Name := req.Name
          SecretType := "deinstapel.de/nats-operator"
          OwnerReferences := [operator.ObjectMeta.Name], Data := none } operator with
      | mk ks res =>
        rw [hk] at herr
        cases res with
        | error e => simp at herr
        | ok hc =>
          simp only [Bool.not_false, if_true, Bool.true_or] at herr ⊢
          cases hw : api.write (Write.createSecret ks) with
          | some e => simp [List.findSome?, hw] at herr
          | none =>
            simp only [List.findSome?, hw] at herr ⊢
            refine ⟨?_, ?_, ?_⟩
            · trivial
            · trivial
            · exact herr
  | found obj =>
    rw [hget] at herr
    simp only at herr ⊢
    cases hk : NatsOperatorReconciler.reconcileKey L rnd now obj operator with
    | mk ks res =>
      rw [hk] at herr
      cases res with
      | error e => simp at herr
      | ok hc =>
        cases hc with
        | true =>
          simp only [Bool.not_true, Bool.false_eq_true, if_false, if_true, Bool.false_or]
            at herr ⊢
          cases hw : api.write (Write.updateSecret ks) with
          | some e => simp [List.findSome?, hw] at herr
          | none =>
            simp only [List.findSome?, hw] at herr ⊢
            refine ⟨fun nf h => by simp at h, fun _ _ _ => ⟨by trivial, by trivial, herr⟩,
              fun obj2 h2 h3 => ?_⟩
            simp only [GetResult.found.injEq] at h2
            rw [← h2, hk] at h3
            simp at h3
        | false =>
          refine ⟨fun nf h => by simp at h, fun obj2 h2 h3 => ?_,
            fun obj2 h2 h3 => by simp [List.findSome?]⟩
          simp only [GetResult.found.injEq] at h2
          rw [← h2, hk] at h3
          simp at h3

theorem status_follows_changed_bundle_witness :
    (NatsOperatorReconciler.reconcileSecret refLib emptyApi 1 100 rootRequest plainOperator).writes
      = [Write.createSecret
          (NatsOperatorReconciler.reconcileSecret refLib emptyApi 1 100 rootRequest
            plainOperator).secret,
         Write.updateOperatorStatus
          (NatsOperatorReconciler.reconcileSecret refLib emptyApi 1 100 rootRequest
            plainOperator).owner]
    ∧ (NatsOperatorReconciler.reconcileSecret refLib (secretApi completeRootBundle) 2 200
        rootRequest plainOperator).owner = plainOperator
    ∧ (NatsOperatorReconciler.reconcileSecret refLib (secretApi completeRootBundle) 2 200
        rootRequest plainOperator).writes = [] := by
  have hk := operator_reconcileKey_again refLib_lawful 2 100 200
    (newOperatorSecret rootRequest plainOperator) plainOperator "SOK1" (by rfl)
  have hfalse : (plainOperator.Spec.SigningKeys == some []) = false := by decide
  rw [hfalse] at hk
  rw [if_neg (by decide)] at hk
  exact ⟨((status_follows_changed_bundle refLib emptyApi 1 100 rootRequest plainOperator
      (by
        rw [operator_reconcileSecret_notFound refLib emptyApi 1 100 rootRequest plainOperator _
          "not found" true rfl rfl
          (operator_reconcileKey_generating refLib_lawful 1 100
            (newOperatorSecret rootRequest plainOperator) plainOperator _ (Or.inl rfl) rfl)
          (fun _ => rfl)])).1 "not found" rfl).2.1,
    (status_follows_changed_bundle refLib (secretApi completeRootBundle) 2 200 rootRequest
      plainOperator (by rw [completeRootBundle_unchanged])).2.2 completeRootBundle rfl
      (by unfold completeRootBundle; rw [hk])⟩

end NatsJwtOperator
